import Mathlib

/-!
# WiLED protocol engine (`WiLEDProto.cpp`): replay-protected framing and validation

A shallow embedding of `src/libraries/WiLEDProto/WiLEDProto.cpp`.

* Machine integers are natural numbers; every store into a `uint16_t` or
  `uint8_t` object is written with an explicit `% 65536` or `% 256`.
* The object's arrays are lists; an access outside a list is undefined
  behaviour in C and makes the embedded function return `none`.  Calling a
  null function pointer is undefined behaviour too and also gives `none`.
* The header `WiLEDProto.h` is not among the sources.  Its build-time
  constants are the fields of `Config`; its result macros are the
  constructors of `WiLPReturn`.
-/

namespace WiLED

/-- Modelled from the spec: the `WiLP_RETURN_*` result macros of the absent
header `WiLEDProto.h`.  Section 7 of the spec lists them as distinct ordinary
result values; their numeric encodings are not used by the source. -/
inductive WiLPReturn where
  | WiLP_RETURN_SUCCESS
  | WiLP_RETURN_INVALID_BUFFER
  | WiLP_RETURN_UNKNOWN_TYPE
  | WiLP_RETURN_NOT_THIS_DEST
  | WiLP_RETURN_NOT_INIT
  | WiLP_RETURN_INVALID_RST_CTR
  | WiLP_RETURN_INVALID_MSG_CTR
  | WiLP_RETURN_AT_MAX_ADDRESSES
  | WiLP_RETURN_ADDED_ADDRESS
  | WiLP_RETURN_OTHER_ERROR
  deriving DecidableEq, Repr

open WiLPReturn

/-- Build-time constants of the absent header `WiLEDProto.h`, taken as
parameters. -/
structure Config where
  MAXIMUM_STORED_ADDRESSES : Nat
  MAXIMUM_MESSAGE_LENGTH : Nat
  STORAGE_ADDRESSES_LOCATION : Nat
  STORAGE_RESET_LOCATION : Nat
  STORAGE_COUNT_LOCATION : Nat
  STORAGE_SELF_RESET_LOCATION : Nat

/-- Modelled from the spec: the message type macro `WiLP_Beacon` of the absent
header; the unit test writes it as `0x01`. -/
def WiLP_Beacon : Nat := 0x01

/-- One call made to the storage collaborator. -/
inductive StorageCall where
  | read (offset : Nat)
  | write (offset : Nat) (value : Nat)
  | commit
  deriving DecidableEq, Repr

/-- Modelled from the spec: the storage collaborator behind the three callback
pointers, a byte-addressable store (`read(offset)`, `write(offset, byte)`,
`commit()`).  `mem` is its content, `calls` the calls made so far, newest
first. -/
structure Storage where
  mem : Nat → Nat
  calls : List StorageCall

namespace Storage

/-- The read callback: `uint8_t read(uint16_t)`. -/
def read (st : Storage) (offset : Nat) : Nat × Storage :=
  (st.mem (offset % 65536) % 256,
   { st with calls := StorageCall.read (offset % 65536) :: st.calls })

/-- The write callback: `void write(uint16_t, uint8_t)`. -/
def write (st : Storage) (offset value : Nat) : Storage :=
  { mem := fun a => if a = offset % 65536 then value % 256 else st.mem a
    calls := StorageCall.write (offset % 65536) (value % 256) :: st.calls }

/-- The commit callback: `void commit(void)`. -/
def commit (st : Storage) : Storage :=
  { st with calls := StorageCall.commit :: st.calls }

end Storage

/-- The members of class `WiLEDProto`.  A callback member is `true` when the
pointer is set (the source tests it with `> 0`). -/
structure WiLEDProto where
  __address : Nat
  __storage_read_callback : Bool
  __storage_write_callback : Bool
  __storage_commit_callback : Bool
  storage : Storage
  __outgoing_message_buffer : List Nat
  __self_reset_counter : Nat
  __self_message_counter : Nat
  __address_array : List Nat
  __reset_counter_array : List Nat
  __message_counter_array : List Nat
  __count_addresses : Nat
  __last_received_destination : Nat
  __last_received_source : Nat
  __last_received_type : Nat
  __last_received_reset_counter : Nat
  __last_received_message_counter : Nat
  __last_received_message_counter_validation : WiLPReturn
  __last_received_payload : List Nat
  __last_received_payload_length : Nat

/-- The bytes of a `uint16_t` array seen through `(uint8_t*)(void*)`, low byte
first (the little-endian layout of the target boards). -/
def bytesOf (arr : List Nat) : List Nat :=
  arr.flatMap (fun w => [w % 256, w / 256 % 256])

/-- The `uint16_t` values held by a byte sequence, low byte first. -/
def wordsOf : List Nat → List Nat
  | lo :: hi :: rest => (lo % 256 + 256 * (hi % 256)) :: wordsOf rest
  | _ => []

/-- `sizeof` of a `uint16_t` array, received by a `uint16_t` parameter. -/
def sizeofU16 (arr : List Nat) : Nat := (2 * arr.length) % 65536

/-- The loop of `__addToStorage_uint16t`: `n` iterations are left, the next
index is `idx`. -/
def addToStorageLoop (p : List Nat) (inStorageOffset : Nat) :
    Nat → Nat → Storage → Option Storage
  | 0, _, st => some st
  | n + 1, idx, st =>
    match p[idx]? with
    | none => none
    | some b => addToStorageLoop p inStorageOffset n (idx + 1)
        (st.write (idx + inStorageOffset) b)

/-- `WiLEDProto::__addToStorage_uint16t`. -/
def __addToStorage_uint16t (s : WiLEDProto) (inArray : List Nat)
    (inStorageOffset inLength : Nat) : Option (WiLPReturn × WiLEDProto) :=
  if s.__storage_write_callback then
    match addToStorageLoop (bytesOf inArray) inStorageOffset inLength 0 s.storage with
    | none => none
    | some st => some (WiLP_RETURN_SUCCESS, { s with storage := st })
  else
    some (WiLP_RETURN_NOT_INIT, s)

/-- The call `__storage_commit_callback()`; undefined when the pointer is
null. -/
def callCommit (s : WiLEDProto) : Option WiLEDProto :=
  if s.__storage_commit_callback then
    some { s with storage := s.storage.commit }
  else
    none

/-- The body of the `if(__address_array[idx] == inAddress)` branch of
`__checkAndUpdateMessageCounter`. -/
def checkMatched (cfg : Config) (s : WiLEDProto)
    (idx inResetCounter inMessageCounter : Nat) :
    Option (WiLPReturn × WiLEDProto) :=
  match s.__reset_counter_array[idx]? with
  | none => none
  | some r =>
    if r < inResetCounter then
      let s1 := { s with __reset_counter_array := s.__reset_counter_array.set idx inResetCounter }
      match __addToStorage_uint16t s1 s1.__address_array
          cfg.STORAGE_ADDRESSES_LOCATION (sizeofU16 s1.__address_array) with
      | none => none
      | some (_, s2) =>
        match callCommit s2 with
        | none => none
        | some s3 =>
          if idx < s3.__message_counter_array.length then
            some (WiLP_RETURN_SUCCESS,
              { s3 with __message_counter_array :=
                  s3.__message_counter_array.set idx inMessageCounter })
          else none
    else if r ≠ inResetCounter then
      some (WiLP_RETURN_INVALID_RST_CTR, s)
    else
      match s.__message_counter_array[idx]? with
      | none => none
      | some m =>
        if m < inMessageCounter then
          some (WiLP_RETURN_SUCCESS,
            { s with __message_counter_array :=
                s.__message_counter_array.set idx inMessageCounter })
        else
          some (WiLP_RETURN_INVALID_MSG_CTR, s)

/-- The part of `__checkAndUpdateMessageCounter` after the loop: the address
was not found. -/
def checkNotFound (cfg : Config) (s : WiLEDProto) (inAddress inMessageCounter : Nat) :
    Option (WiLPReturn × WiLEDProto) :=
  if s.__count_addresses < cfg.MAXIMUM_STORED_ADDRESSES then
    if s.__count_addresses < s.__address_array.length ∧
        s.__count_addresses < s.__message_counter_array.length then
      let s1 := { s with
        __address_array := s.__address_array.set s.__count_addresses inAddress
        __message_counter_array :=
          s.__message_counter_array.set s.__count_addresses inMessageCounter
        __count_addresses := (s.__count_addresses + 1) % 65536 }
      match __addToStorage_uint16t s1 s1.__address_array
          cfg.STORAGE_ADDRESSES_LOCATION (sizeofU16 s1.__address_array) with
      | none => none
      | some (_, s2) =>
        match __addToStorage_uint16t s2 [s2.__count_addresses]
            cfg.STORAGE_COUNT_LOCATION 2 with
        | none => none
        | some (_, s3) =>
          match callCommit s3 with
          | none => none
          | some s4 => some (WiLP_RETURN_ADDED_ADDRESS, s4)
    else none
  else
    some (WiLP_RETURN_AT_MAX_ADDRESSES, s)

/-- The `for(uint16_t idx = 0; idx < __count_addresses; idx++)` loop of
`__checkAndUpdateMessageCounter`: `n` iterations are left, the next index is
`idx` (so `n = __count_addresses - idx`). -/
def checkLoop (cfg : Config) (s : WiLEDProto)
    (inAddress inResetCounter inMessageCounter : Nat) :
    Nat → Nat → Option (WiLPReturn × WiLEDProto)
  | 0, _ => checkNotFound cfg s inAddress inMessageCounter
  | n + 1, idx =>
    match s.__address_array[idx]? with
    | none => none
    | some x =>
      if x = inAddress then
        checkMatched cfg s idx inResetCounter inMessageCounter
      else
        checkLoop cfg s inAddress inResetCounter inMessageCounter n (idx + 1)

/-- `WiLEDProto::__checkAndUpdateMessageCounter`. -/
def __checkAndUpdateMessageCounter (cfg : Config) (s : WiLEDProto)
    (inAddress inResetCounter inMessageCounter : Nat) :
    Option (WiLPReturn × WiLEDProto) :=
  checkLoop cfg s inAddress inResetCounter inMessageCounter s.__count_addresses 0

/-- Lines 90 to 103 of `processMessage`: the fixed header fields of the frame
are stored as the last received ones (`b1` to `b9` are `inBuffer[1]` to
`inBuffer[9]`). -/
def storeHeader (s : WiLEDProto) (b1 b2 b3 b4 b5 b6 b7 b8 b9 : Nat) : WiLEDProto :=
  { s with
    __last_received_destination := ((b3 <<< 8) % 65536 + b4) % 65536
    __last_received_source := ((b1 <<< 8) % 65536 + b2) % 65536
    __last_received_type := b9 % 256
    __last_received_reset_counter := ((b5 <<< 8) % 65536 + b6) % 65536
    __last_received_message_counter := ((b7 <<< 8) % 65536 + b8) % 65536 }

/-- `WiLEDProto::processMessage`. -/
def processMessage (cfg : Config) (s : WiLEDProto) (inBuffer : List Nat) :
    Option (WiLPReturn × WiLEDProto) :=
  match inBuffer[0]? with
  | none => none
  | some b0 =>
    if b0 ≠ 0xAA then
      some (WiLP_RETURN_INVALID_BUFFER, { s with
        __last_received_destination := 0
        __last_received_source := 0
        __last_received_type := 0
        __last_received_reset_counter := 0
        __last_received_message_counter := 0 })
    else
      match inBuffer[1]?, inBuffer[2]?, inBuffer[3]?, inBuffer[4]?, inBuffer[5]?,
          inBuffer[6]?, inBuffer[7]?, inBuffer[8]?, inBuffer[9]? with
      | some b1, some b2, some b3, some b4, some b5, some b6, some b7, some b8, some b9 =>
        let s1 := storeHeader s b1 b2 b3 b4 b5 b6 b7 b8 b9
        if s1.__last_received_destination ≠ s1.__address ∧
            s1.__last_received_destination ≠ 0xFFFF then
          some (WiLP_RETURN_NOT_THIS_DEST, s1)
        else
          match __checkAndUpdateMessageCounter cfg s1 s1.__last_received_source
              s1.__last_received_reset_counter s1.__last_received_message_counter with
          | none => none
          | some (v, s2) =>
            let s3 := { s2 with __last_received_message_counter_validation := v }
            if s3.__last_received_type = WiLP_Beacon then
              let s4 := { s3 with __last_received_payload_length := 4 }
              if 10 + 4 ≤ inBuffer.length ∧ 4 ≤ s4.__last_received_payload.length then
                some (WiLP_RETURN_SUCCESS, { s4 with
                  __last_received_payload :=
                    (inBuffer.drop 10).take 4 ++ s4.__last_received_payload.drop 4 })
              else none
            else
              some (WiLP_RETURN_UNKNOWN_TYPE,
                { s3 with __last_received_payload_length := 0 })
      | _, _, _, _, _, _, _, _, _ => none

/-- `WiLEDProto::getLastReceivedType`. -/
def getLastReceivedType (s : WiLEDProto) : Nat := s.__last_received_type

/-- `WiLEDProto::getLastReceivedSource`. -/
def getLastReceivedSource (s : WiLEDProto) : Nat := s.__last_received_source

/-- `WiLEDProto::getLastReceivedDestination`. -/
def getLastReceivedDestination (s : WiLEDProto) : Nat := s.__last_received_destination

/-- `WiLEDProto::getLastReceivedResetCounter`. -/
def getLastReceivedResetCounter (s : WiLEDProto) : Nat := s.__last_received_reset_counter

/-- `WiLEDProto::getLastReceivedMessageCounter`. -/
def getLastReceivedMessageCounter (s : WiLEDProto) : Nat :=
  s.__last_received_message_counter

/-- `WiLEDProto::getLastReceivedMessageCounterValidation`. -/
def getLastReceivedMessageCounterValidation (s : WiLEDProto) : WiLPReturn :=
  s.__last_received_message_counter_validation

/-- A store into element `i` of a byte buffer; outside the buffer it is
undefined. -/
def setByte (buf : List Nat) (i v : Nat) : Option (List Nat) :=
  if i < buf.length then some (buf.set i (v % 256)) else none

/-- The constructor `WiLEDProto::WiLEDProto`.  The members the constructor
does not assign start at zero (modelled from the unit test `IsEmptyInitially`;
their initialisers are in the absent header), the arrays have their declared
sizes and `st` is the state of the storage collaborator. -/
def new (cfg : Config) (inAddress : Nat)
    (inStorageReadCB inStorageWriteCB inStorageCommitCB : Bool) (st : Storage) :
    Option WiLEDProto :=
  let addr := if inAddress > 0 ∧ inAddress < 65535 then inAddress else 0
  let buf0 := List.replicate cfg.MAXIMUM_MESSAGE_LENGTH 0
  match setByte buf0 0 0xAA with
  | none => none
  | some buf1 =>
    match setByte buf1 1 (addr >>> 8) with
    | none => none
    | some buf2 =>
      match setByte buf2 2 addr with
      | none => none
      | some buf3 =>
        some {
          __address := addr
          __storage_read_callback := inStorageReadCB
          __storage_write_callback := inStorageWriteCB
          __storage_commit_callback := inStorageCommitCB
          storage := st
          __outgoing_message_buffer := buf3
          __self_reset_counter := 0
          __self_message_counter := 0
          __address_array := List.replicate cfg.MAXIMUM_STORED_ADDRESSES 0
          __reset_counter_array := List.replicate cfg.MAXIMUM_STORED_ADDRESSES 0
          __message_counter_array := List.replicate cfg.MAXIMUM_STORED_ADDRESSES 0
          __count_addresses := 0
          __last_received_destination := 0
          __last_received_source := 0
          __last_received_type := 0
          __last_received_reset_counter := 0
          __last_received_message_counter := 0
          __last_received_message_counter_validation := WiLP_RETURN_SUCCESS
          __last_received_payload := List.replicate cfg.MAXIMUM_MESSAGE_LENGTH 0
          __last_received_payload_length := 0 }

/-- The loop of `__restoreFromStorage_uint16t`: the bytes read by the `n`
iterations that are left, the next index being `idx`. -/
def restoreLoop (inStorageOffset : Nat) : Nat → Nat → Storage → List Nat × Storage
  | 0, _, st => ([], st)
  | n + 1, idx, st =>
    let r := st.read (idx + inStorageOffset)
    let rest := restoreLoop inStorageOffset n (idx + 1) r.2
    (r.1 :: rest.1, rest.2)

/-- `WiLEDProto::__restoreFromStorage_uint16t`; the second component is the new
content of `outArray`. -/
def __restoreFromStorage_uint16t (s : WiLEDProto) (outArray : List Nat)
    (inStorageOffset inLength : Nat) : Option (WiLPReturn × List Nat × WiLEDProto) :=
  if s.__storage_read_callback then
    if inLength ≤ (bytesOf outArray).length then
      let r := restoreLoop inStorageOffset inLength 0 s.storage
      some (WiLP_RETURN_SUCCESS,
        wordsOf (r.1 ++ (bytesOf outArray).drop inLength),
        { s with storage := r.2 })
    else none
  else
    some (WiLP_RETURN_NOT_INIT, outArray, s)

/-- Lines 55 to 61 of `initStorage`: the four regions are read from storage,
the own reset counter is incremented and written back, and the commit
callback is called. -/
def initStorageBody (cfg : Config) (s : WiLEDProto) : Option WiLEDProto :=
  match __restoreFromStorage_uint16t s s.__address_array
      cfg.STORAGE_ADDRESSES_LOCATION (sizeofU16 s.__address_array) with
  | none => none
  | some (_, a1, s1) =>
    let s1 := { s1 with __address_array := a1 }
    match __restoreFromStorage_uint16t s1 s1.__reset_counter_array
        cfg.STORAGE_RESET_LOCATION (sizeofU16 s1.__reset_counter_array) with
    | none => none
    | some (_, a2, s2) =>
      let s2 := { s2 with __reset_counter_array := a2 }
      match __restoreFromStorage_uint16t s2 [s2.__count_addresses]
          cfg.STORAGE_COUNT_LOCATION 2 with
      | none => none
      | some (_, a3, s3) =>
        let s3 := { s3 with __count_addresses := a3.headD 0 }
        match __restoreFromStorage_uint16t s3 [s3.__self_reset_counter]
            cfg.STORAGE_SELF_RESET_LOCATION 2 with
        | none => none
        | some (_, a4, s4) =>
          let s4 := { s4 with __self_reset_counter := a4.headD 0 }
          let s5 := { s4 with
            __self_reset_counter := (s4.__self_reset_counter + 1) % 65536 }
          match __addToStorage_uint16t s5 [s5.__self_reset_counter]
              cfg.STORAGE_SELF_RESET_LOCATION 2 with
          | none => none
          | some (_, s6) => callCommit s6

/-- `WiLEDProto::initStorage`.  Of the debug output (lines 63 to 74) only the
reads of `__address_array[idx]` for `idx < __count_addresses` are kept. -/
def initStorage (cfg : Config) (s : WiLEDProto) : Option WiLEDProto :=
  if s.__storage_commit_callback ∧ s.__storage_write_callback then
    match initStorageBody cfg s with
    | none => none
    | some s7 =>
      if s7.__count_addresses ≤ s7.__address_array.length then some s7
      else none
  else
    some s

/-- `WiLEDProto::__setTypeByte`. -/
def __setTypeByte (s : WiLEDProto) (inType : Nat) : Option WiLEDProto :=
  (setByte s.__outgoing_message_buffer 9 inType).map
    fun b => { s with __outgoing_message_buffer := b }

/-- `WiLEDProto::__setDestinationByte`. -/
def __setDestinationByte (s : WiLEDProto) (inDestination : Nat) : Option WiLEDProto :=
  match setByte s.__outgoing_message_buffer 3 (inDestination >>> 8) with
  | none => none
  | some b1 =>
    (setByte b1 4 inDestination).map
      fun b => { s with __outgoing_message_buffer := b }

/-- `WiLEDProto::__setPayloadByte`. -/
def __setPayloadByte (s : WiLEDProto) (inPayloadOffset inPayloadValue : Nat) :
    Option WiLEDProto :=
  (setByte s.__outgoing_message_buffer (10 + inPayloadOffset) inPayloadValue).map
    fun b => { s with __outgoing_message_buffer := b }

/-- `WiLEDProto::sendMessageBeacon`. -/
def sendMessageBeacon (s : WiLEDProto) (inUptime : Nat) :
    Option (WiLPReturn × WiLEDProto) :=
  match __setTypeByte s WiLP_Beacon with
  | none => none
  | some s1 =>
    match __setDestinationByte s1 0xFFFF with
    | none => none
    | some s2 =>
      match __setPayloadByte s2 0 (inUptime >>> 24) with
      | none => none
      | some s3 =>
        match __setPayloadByte s3 1 (inUptime >>> 16) with
        | none => none
        | some s4 =>
          match __setPayloadByte s4 2 (inUptime >>> 8) with
          | none => none
          | some s5 =>
            match __setPayloadByte s5 3 inUptime with
            | none => none
            | some s6 => some (WiLP_RETURN_SUCCESS, s6)

/-- The wiping loop of `copyToBuffer`, `for(uint8_t idx = 3; idx <
MAXIMUM_MESSAGE_LENGTH; idx++)`: `n` iterations are left, the next index is
`idx`. -/
def wipeLoop : Nat → Nat → List Nat → Option (List Nat)
  | 0, _, buf => some buf
  | n + 1, idx, buf =>
    match setByte buf idx 0x00 with
    | none => none
    | some b => wipeLoop n (idx + 1) b

/-- `WiLEDProto::copyToBuffer`; the first component is what the call leaves in
the first `MAXIMUM_MESSAGE_LENGTH` bytes of the caller's buffer.  The loop
index is a `uint8_t`, so with `MAXIMUM_MESSAGE_LENGTH > 255` the loop does not
end: no result. -/
def copyToBuffer (cfg : Config) (s : WiLEDProto) : Option (List Nat × WiLEDProto) :=
  match setByte s.__outgoing_message_buffer 5 (s.__self_reset_counter >>> 8) with
  | none => none
  | some b1 =>
    match setByte b1 6 s.__self_reset_counter with
    | none => none
    | some b2 =>
      let ctr := (s.__self_message_counter + 1) % 65536
      match setByte b2 7 (ctr >>> 8) with
      | none => none
      | some b3 =>
        match setByte b3 8 ctr with
        | none => none
        | some b4 =>
          if cfg.MAXIMUM_MESSAGE_LENGTH ≤ b4.length ∧ cfg.MAXIMUM_MESSAGE_LENGTH ≤ 255 then
            match wipeLoop (cfg.MAXIMUM_MESSAGE_LENGTH - 3) 3 b4 with
            | none => none
            | some b5 =>
              some (b4.take cfg.MAXIMUM_MESSAGE_LENGTH,
                { s with __self_message_counter := ctr
                         __outgoing_message_buffer := b5 })
          else none

/-- The layout assumed of the object: every array has its declared size. -/
def WiLEDProto.Sized (cfg : Config) (s : WiLEDProto) : Prop :=
  s.__address_array.length = cfg.MAXIMUM_STORED_ADDRESSES ∧
  s.__reset_counter_array.length = cfg.MAXIMUM_STORED_ADDRESSES ∧
  s.__message_counter_array.length = cfg.MAXIMUM_STORED_ADDRESSES

/-- The entry of the registry that the scan of
`__checkAndUpdateMessageCounter` finds for `addr`: the first index below
`__count_addresses` holding `addr`, together with the reset counter `R` and
message counter `M` stored at that index. -/
def WiLEDProto.HasRecord (s : WiLEDProto) (i addr R M : Nat) : Prop :=
  i < s.__count_addresses ∧
  s.__address_array[i]? = some addr ∧
  (∀ j, j < i → ∃ x, s.__address_array[j]? = some x ∧ x ≠ addr) ∧
  s.__reset_counter_array[i]? = some R ∧
  s.__message_counter_array[i]? = some M

/-- The address `addr` is not among the first `__count_addresses` entries of
`__address_array` (all of which exist). -/
def WiLEDProto.Unseen (s : WiLEDProto) (addr : Nat) : Prop :=
  ∀ j, j < s.__count_addresses → ∃ x, s.__address_array[j]? = some x ∧ x ≠ addr

/-- A small configuration on which the definitions are evaluated: room for
four peers, frames of 16 bytes, and the four persisted regions side by side. -/
def testCfg : Config :=
  { MAXIMUM_STORED_ADDRESSES := 4
    MAXIMUM_MESSAGE_LENGTH := 16
    STORAGE_ADDRESSES_LOCATION := 0
    STORAGE_RESET_LOCATION := 8
    STORAGE_COUNT_LOCATION := 16
    STORAGE_SELF_RESET_LOCATION := 18 }

/-- A storage collaborator whose bytes all read zero and which has not been
called yet. -/
def zeroStorage : Storage := { mem := fun _ => 0, calls := [] }

/-- What `__checkAndUpdateMessageCounter` leaves alone: every member of `s2`
outside the peer registry and the storage collaborator equals that of `s`. -/
def WiLEDProto.SameOutsideRegistry (s s2 : WiLEDProto) : Prop :=
  s2.__address = s.__address ∧
  s2.__storage_read_callback = s.__storage_read_callback ∧
  s2.__storage_write_callback = s.__storage_write_callback ∧
  s2.__storage_commit_callback = s.__storage_commit_callback ∧
  s2.__outgoing_message_buffer = s.__outgoing_message_buffer ∧
  s2.__self_reset_counter = s.__self_reset_counter ∧
  s2.__self_message_counter = s.__self_message_counter ∧
  s2.__last_received_destination = s.__last_received_destination ∧
  s2.__last_received_source = s.__last_received_source ∧
  s2.__last_received_type = s.__last_received_type ∧
  s2.__last_received_reset_counter = s.__last_received_reset_counter ∧
  s2.__last_received_message_counter = s.__last_received_message_counter ∧
  s2.__last_received_message_counter_validation =
    s.__last_received_message_counter_validation ∧
  s2.__last_received_payload = s.__last_received_payload ∧
  s2.__last_received_payload_length = s.__last_received_payload_length

/-- A receiver with address `0x2000` that knows two peers: `0x1000` with
stored reset counter 5 and message counter 7, and `0x3000` with 2 and 9. -/
def twoPeers : WiLEDProto :=
  { __address := 0x2000
    __storage_read_callback := true
    __storage_write_callback := true
    __storage_commit_callback := true
    storage := zeroStorage
    __outgoing_message_buffer := [0xAA, 0x20, 0x00, 0, 0, 0, 0, 0, 0, 0, 0, 0, 0, 0, 0, 0]
    __self_reset_counter := 1
    __self_message_counter := 0
    __address_array := [0x1000, 0x3000, 0, 0]
    __reset_counter_array := [5, 2, 0, 0]
    __message_counter_array := [7, 9, 0, 0]
    __count_addresses := 2
    __last_received_destination := 0
    __last_received_source := 0
    __last_received_type := 0
    __last_received_reset_counter := 0
    __last_received_message_counter := 0
    __last_received_message_counter_validation := WiLP_RETURN_SUCCESS
    __last_received_payload := [0, 0, 0, 0, 0, 0, 0, 0, 0, 0, 0, 0, 0, 0, 0, 0]
    __last_received_payload_length := 0 }

/-- The receiver `twoPeers` with its registry filled up by the peers `0x3001`
and `0x3002`. -/
def fullRegistry : WiLEDProto :=
  { twoPeers with
    __address_array := [0x1000, 0x3000, 0x3001, 0x3002]
    __reset_counter_array := [5, 2, 1, 1]
    __message_counter_array := [7, 9, 4, 4]
    __count_addresses := 4 }

/-- The receiver of the unit tests: constructed with address `0x2000` and all
three callbacks over zeroed storage, then initialised. -/
def freshReceiver : Option WiLEDProto :=
  (new testCfg 0x2000 true true true zeroStorage).bind (initStorage testCfg)

/-- The first Beacon frame of a sender with address `0x1000`: reset counter 1,
message counter 1, uptime `0x499602D2`, broadcast. -/
def firstBeacon : List Nat :=
  [0xAA, 0x10, 0x00, 0xFF, 0xFF, 0x00, 0x01, 0x00, 0x01, 0x01,
   0x49, 0x96, 0x02, 0xD2, 0x00, 0x00]

/-- A Beacon frame from `0x1001` addressed to `0x3000`, with reset counter 1
and message counter 1. -/
def beaconTo3000 : List Nat :=
  [0xAA, 0x10, 0x01, 0x30, 0x00, 0x00, 0x01, 0x00, 0x01, 0x01,
   0x49, 0x96, 0x02, 0xD2, 0x00, 0x00]

/-- The send loop of the unit tests: `n` repetitions of `sendMessageBeacon`
followed by `copyToBuffer` into the same caller buffer (`uptime k` is the
uptime passed when `k` repetitions remain after the current one).  The first
component is the content of the caller's buffer at the end. -/
def sendFrames (cfg : Config) (uptime : Nat → Nat) :
    Nat → WiLEDProto → List Nat → Option (List Nat × WiLEDProto)
  | 0, s, buf => some (buf, s)
  | n + 1, s, _ =>
    match sendMessageBeacon s (uptime n) with
    | none => none
    | some (_, s1) =>
      match copyToBuffer cfg s1 with
      | none => none
      | some (out, s2) => sendFrames cfg uptime n s2 out

/-- The outgoing buffer as the constructor and `copyToBuffer` leave it: it has
`MAXIMUM_MESSAGE_LENGTH` bytes, starts with the magic number `0xAA` and
carries the own address in bytes 1 and 2, high byte first. -/
def WiLEDProto.OutgoingReady (cfg : Config) (s : WiLEDProto) : Prop :=
  s.__outgoing_message_buffer.length = cfg.MAXIMUM_MESSAGE_LENGTH ∧
  (∀ b ∈ s.__outgoing_message_buffer, b < 256) ∧
  s.__outgoing_message_buffer[0]? = some 0xAA ∧
  s.__outgoing_message_buffer[1]? = some (s.__address / 256 % 256) ∧
  s.__outgoing_message_buffer[2]? = some (s.__address % 256)

/-- The sender of the unit tests: constructed with address `0x1000` and all
three callbacks over zeroed storage, then initialised. -/
def freshSender : Option WiLEDProto :=
  (new testCfg 0x1000 true true true zeroStorage).bind (initStorage testCfg)

/-- The `uint16_t` value that `__restoreFromStorage_uint16t` assembles from the
two bytes read at `offset` and `offset + 1`, low byte first. -/
def Storage.word (st : Storage) (offset : Nat) : Nat :=
  st.mem (offset % 65536) % 256 + 256 * (st.mem ((1 + offset) % 65536) % 256)

/-- The bytes that the loop of `__restoreFromStorage_uint16t` reads for the
indices `idx` to `idx + n - 1`. -/
def Storage.bytesAt (st : Storage) (offset idx n : Nat) : List Nat :=
  (List.range n).map fun k => st.mem ((idx + k + offset) % 65536) % 256

/-- A frame of exactly ten bytes from `0x1001` to everybody, with reset counter
1, message counter 1 and the type byte `0x7F`, which is not a message type of
this source. -/
def unknownTypeFrame : List Nat :=
  [0xAA, 0x10, 0x01, 0xFF, 0xFF, 0x00, 0x01, 0x00, 0x01, 0x7F]

/-- The receiver of the unit tests constructed without storage: address
`0x2000`, the three callbacks null, then initialised. -/
def noStorageReceiver : Option WiLEDProto :=
  (new testCfg 0x2000 false false false zeroStorage).bind (initStorage testCfg)

/-- A Beacon frame of the sender `0x1000` after a reboot of it: reset counter
6, message counter 1, broadcast. -/
def newEpochBeacon : List Nat :=
  [0xAA, 0x10, 0x00, 0xFF, 0xFF, 0x00, 0x06, 0x00, 0x01, 0x01,
   0x49, 0x96, 0x02, 0xD2, 0x00, 0x00]

/-- The frame of the unit test `CorrectSetIndividualReceiveCallback`: from
`0x1111` to everybody, reset counter 1, message counter 1, type byte `0x10`,
level `0x64` for the target `0x1000`, followed by the bytes `0x0C 0x73`. -/
def setIndividualFrame : List Nat :=
  [0xAA, 0x11, 0x11, 0xFF, 0xFF, 0x00, 0x01, 0x00, 0x01, 0x10,
   0x64, 0x10, 0x00, 0x0C, 0x73, 0x00]

/-- The frame `firstBeacon` with the first byte replaced by `0x01`, which is
not the magic number. -/
def badMagicFrame : List Nat :=
  [0x01, 0x10, 0x00, 0xFF, 0xFF, 0x00, 0x01, 0x00, 0x01, 0x01,
   0x49, 0x96, 0x02, 0xD2, 0x00, 0x00]

/-- A storage whose own-reset-counter region (offsets 18 and 19 of `testCfg`)
holds `0xFFFF`, every other byte being zero. -/
def wornStorage : Storage :=
  { mem := fun a => if a = 18 ∨ a = 19 then 0xFF else 0, calls := [] }

/-- The fixed header layout in the words of the specification: the magic
number, then source, destination, reset counter and message counter, each as
two bytes with the high byte first at offsets 1, 3, 5 and 7, then the type at
offset 9. -/
def specEncodeHeader (source destination resetCounter messageCounter type : Nat) :
    List Nat :=
  [0xAA,
   source / 256 % 256, source % 256,
   destination / 256 % 256, destination % 256,
   resetCounter / 256 % 256, resetCounter % 256,
   messageCounter / 256 % 256, messageCounter % 256,
   type % 256]

/-- A Beacon frame from `0x1000` with destination 0, reset counter 1 and
message counter 1. -/
def beaconToZero : List Nat :=
  [0xAA, 0x10, 0x00, 0x00, 0x00, 0x00, 0x01, 0x00, 0x01, 0x01,
   0x49, 0x96, 0x02, 0xD2, 0x00, 0x00]

/-- The loop of the unit test `CorrectSendReceiveFourMillion`: `n` repetitions
of `sendMessageBeacon` and `copyToBuffer` on the sender followed by
`processMessage` of the produced buffer on the receiver (`uptime k` is the
uptime passed when `k` repetitions remain after the current one).  The first
component lists the validation result the receiver stored for each frame, in
sending order. -/
def deliverInOrder (cfg : Config) (uptime : Nat → Nat) :
    Nat → WiLEDProto → WiLEDProto → Option (List WiLPReturn × WiLEDProto × WiLEDProto)
  | 0, snd, rcv => some ([], snd, rcv)
  | n + 1, snd, rcv =>
    match sendMessageBeacon snd (uptime n) with
    | none => none
    | some (_, s1) =>
      match copyToBuffer cfg s1 with
      | none => none
      | some (buf, s2) =>
        match processMessage cfg rcv buf with
        | none => none
        | some (_, r2) =>
          match deliverInOrder cfg uptime n s2 r2 with
          | none => none
          | some (vs, s3, r3) =>
            some (getLastReceivedMessageCounterValidation r2 :: vs, s3, r3)

/-- A call of the public interface of an engine: `initStorage`,
`sendMessageBeacon` with an uptime, `copyToBuffer`, or `processMessage` on a
buffer. -/
inductive Op where
  | init : Op
  | beacon (inUptime : Nat) : Op
  | copy : Op
  | receive (inBuffer : List Nat) : Op

/-- The object after one call of the public interface; the return value and
the buffer handed to the caller are dropped. -/
def applyOp (cfg : Config) (s : WiLEDProto) : Op → Option WiLEDProto
  | Op.init => initStorage cfg s
  | Op.beacon u => (sendMessageBeacon s u).map Prod.snd
  | Op.copy => (copyToBuffer cfg s).map Prod.snd
  | Op.receive x => (processMessage cfg s x).map Prod.snd

/-- The object after a sequence of calls of the public interface, first call
first. -/
def runOps (cfg : Config) : List Op → WiLEDProto → Option WiLEDProto
  | [], s => some s
  | op :: ops, s => (applyOp cfg s op).bind (runOps cfg ops)

/-- The outgoing buffer between two sends: it has `MAXIMUM_MESSAGE_LENGTH`
bytes, starts with the magic number and the own address, and is zero from
offset 14 on. -/
def WiLEDProto.OutgoingClean (cfg : Config) (s : WiLEDProto) : Prop :=
  s.__outgoing_message_buffer.length = cfg.MAXIMUM_MESSAGE_LENGTH ∧
  s.__outgoing_message_buffer[0]? = some 0xAA ∧
  s.__outgoing_message_buffer[1]? = some (s.__address / 256 % 256) ∧
  s.__outgoing_message_buffer[2]? = some (s.__address % 256) ∧
  ∀ j, 14 ≤ j → j < cfg.MAXIMUM_MESSAGE_LENGTH →
    s.__outgoing_message_buffer[j]? = some 0

/-- An engine with address `0x1000` that has been initialised, has received
the frame `firstBeacon`, has built a Beacon frame and has emitted it. -/
def busyEngine : Option WiLEDProto :=
  (new testCfg 0x1000 true true true zeroStorage).bind
    (runOps testCfg [Op.init, Op.receive firstBeacon, Op.beacon 0x499602D2, Op.copy])

/-- An engine with address `0x1000` that has been initialised and has emitted
one frame without building it. -/
def idleEngine : Option WiLEDProto :=
  (new testCfg 0x1000 true true true zeroStorage).bind
    (runOps testCfg [Op.init, Op.copy])

/-! ## Lemmas on the storage writer -/

theorem bytesOf_length (arr : List Nat) : (bytesOf arr).length = 2 * arr.length := by
  induction arr with
  | nil => rfl
  | cons w ws ih =>
    have h : bytesOf (w :: ws) = w % 256 :: w / 256 % 256 :: bytesOf ws := by
      simp [bytesOf]
    rw [h]
    simp only [List.length_cons, ih]
    omega

theorem addToStorageLoop_some (p : List Nat) (off : Nat) :
    ∀ (n idx : Nat) (st : Storage), idx + n ≤ p.length →
      ∃ st2, addToStorageLoop p off n idx st = some st2 := by
  intro n
  induction n with
  | zero => intro idx st _; exact ⟨st, rfl⟩
  | succ n ih =>
    intro idx st h
    have hlt : idx < p.length := by omega
    obtain ⟨st2, h2⟩ := ih (idx + 1) (st.write (idx + off) p[idx]) (by omega)
    refine ⟨st2, ?_⟩
    simp only [addToStorageLoop, List.getElem?_eq_getElem hlt]
    exact h2

theorem addToStorage_some (s : WiLEDProto) (arr : List Nat) (off len : Nat)
    (h : len ≤ 2 * arr.length) :
    ∃ r st, __addToStorage_uint16t s arr off len = some (r, { s with storage := st }) := by
  unfold __addToStorage_uint16t
  by_cases hw : s.__storage_write_callback = true
  · obtain ⟨st2, h2⟩ := addToStorageLoop_some (bytesOf arr) off len 0 s.storage
      (by rw [bytesOf_length]; omega)
    exact ⟨WiLP_RETURN_SUCCESS, st2, by simp [hw, h2]⟩
  · refine ⟨WiLP_RETURN_NOT_INIT, s.storage, ?_⟩
    rw [if_neg hw]

theorem sizeofU16_le (arr : List Nat) : sizeofU16 arr ≤ 2 * arr.length :=
  Nat.mod_le _ _

/-! ## Lemmas on the scan of the registry -/

theorem checkLoop_skip (cfg : Config) (s : WiLEDProto) (a rc mc : Nat) :
    ∀ (k n idx : Nat),
      (∀ j, j < k → ∃ x, s.__address_array[idx + j]? = some x ∧ x ≠ a) →
      checkLoop cfg s a rc mc (k + n) idx = checkLoop cfg s a rc mc n (idx + k) := by
  intro k
  induction k with
  | zero => intro n idx _; simp
  | succ k ih =>
    intro n idx h
    obtain ⟨x, hx, hne⟩ := h 0 (by omega)
    have hstep : checkLoop cfg s a rc mc (k + 1 + n) idx
        = checkLoop cfg s a rc mc (k + n) (idx + 1) := by
      have e : k + 1 + n = (k + n) + 1 := by omega
      rw [e]
      simp only [checkLoop]
      rw [Nat.add_zero] at hx
      simp [hx, hne]
    rw [hstep, ih n (idx + 1)]
    · congr 1; omega
    · intro j hj
      have := h (j + 1) (by omega)
      have e : idx + 1 + j = idx + (j + 1) := by omega
      rw [e]; exact this

theorem check_unseen (cfg : Config) (s : WiLEDProto) (a rc mc : Nat)
    (h : s.Unseen a) :
    __checkAndUpdateMessageCounter cfg s a rc mc = checkNotFound cfg s a mc := by
  unfold __checkAndUpdateMessageCounter
  have := checkLoop_skip cfg s a rc mc s.__count_addresses 0 0
    (by intro j hj; simpa using h j hj)
  simp only [Nat.add_zero, Nat.zero_add] at this
  rw [this]
  rfl

theorem check_found (cfg : Config) (s : WiLEDProto) (a rc mc i R M : Nat)
    (h : s.HasRecord i a R M) :
    __checkAndUpdateMessageCounter cfg s a rc mc = checkMatched cfg s i rc mc := by
  obtain ⟨hi, ha, hfirst, _, _⟩ := h
  unfold __checkAndUpdateMessageCounter
  have e : s.__count_addresses = i + ((s.__count_addresses - i - 1) + 1) := by omega
  rw [e, checkLoop_skip cfg s a rc mc i _ 0 (by intro j hj; simpa using hfirst j hj)]
  simp only [Nat.zero_add, checkLoop]
  simp [ha]

/-! ## The validator returns -/

theorem checkMatched_newEpoch (cfg : Config) (s : WiLEDProto) (i R rc mc : Nat)
    (hR : s.__reset_counter_array[i]? = some R) (hi : i < s.__message_counter_array.length)
    (hc : s.__storage_commit_callback = true) (hrc : R < rc) :
    ∃ st, checkMatched cfg s i rc mc = some (WiLP_RETURN_SUCCESS,
      { s with
        __reset_counter_array := s.__reset_counter_array.set i rc
        __message_counter_array := s.__message_counter_array.set i mc
        storage := st }) := by
  obtain ⟨r, st, hst⟩ := addToStorage_some
    { s with __reset_counter_array := s.__reset_counter_array.set i rc }
    s.__address_array cfg.STORAGE_ADDRESSES_LOCATION (sizeofU16 s.__address_array)
    (sizeofU16_le _)
  refine ⟨st.commit, ?_⟩
  unfold checkMatched
  simp only [hR, if_pos hrc]
  rw [hst]
  simp [callCommit, hc, hi]

theorem checkMatched_some (cfg : Config) (s : WiLEDProto) (i rc mc : Nat)
    (hr : i < s.__reset_counter_array.length) (hm : i < s.__message_counter_array.length)
    (hc : s.__storage_commit_callback = true) :
    ∃ v s2, checkMatched cfg s i rc mc = some (v, s2) := by
  have hR : s.__reset_counter_array[i]? = some s.__reset_counter_array[i] :=
    List.getElem?_eq_getElem hr
  have hM : s.__message_counter_array[i]? = some s.__message_counter_array[i] :=
    List.getElem?_eq_getElem hm
  by_cases h1 : s.__reset_counter_array[i] < rc
  · obtain ⟨st, h⟩ := checkMatched_newEpoch cfg s i _ rc mc hR hm hc h1
    exact ⟨_, _, h⟩
  · unfold checkMatched
    simp only [hR, if_neg h1, hM]
    by_cases h2 : s.__reset_counter_array[i] ≠ rc
    · exact ⟨_, _, by rw [if_pos h2]⟩
    · rw [if_neg h2]
      by_cases h3 : s.__message_counter_array[i] < mc
      · exact ⟨_, _, by rw [if_pos h3]⟩
      · exact ⟨_, _, by rw [if_neg h3]⟩

theorem checkNotFound_room (cfg : Config) (s : WiLEDProto) (a mc : Nat)
    (hroom : s.__count_addresses < cfg.MAXIMUM_STORED_ADDRESSES)
    (ha : s.__count_addresses < s.__address_array.length)
    (hm : s.__count_addresses < s.__message_counter_array.length)
    (hc : s.__storage_commit_callback = true) :
    ∃ st, checkNotFound cfg s a mc = some (WiLP_RETURN_ADDED_ADDRESS,
      { s with
        __address_array := s.__address_array.set s.__count_addresses a
        __message_counter_array := s.__message_counter_array.set s.__count_addresses mc
        __count_addresses := (s.__count_addresses + 1) % 65536
        storage := st }) := by
  obtain ⟨r1, st1, h1⟩ := addToStorage_some
    { s with
      __address_array := s.__address_array.set s.__count_addresses a
      __message_counter_array := s.__message_counter_array.set s.__count_addresses mc
      __count_addresses := (s.__count_addresses + 1) % 65536 }
    (s.__address_array.set s.__count_addresses a) cfg.STORAGE_ADDRESSES_LOCATION
    (sizeofU16 (s.__address_array.set s.__count_addresses a)) (sizeofU16_le _)
  obtain ⟨r2, st2, h2⟩ := addToStorage_some
    { s with
      __address_array := s.__address_array.set s.__count_addresses a
      __message_counter_array := s.__message_counter_array.set s.__count_addresses mc
      __count_addresses := (s.__count_addresses + 1) % 65536
      storage := st1 }
    [(s.__count_addresses + 1) % 65536] cfg.STORAGE_COUNT_LOCATION 2 (by simp)
  refine ⟨st2.commit, ?_⟩
  unfold checkNotFound
  rw [if_pos hroom, if_pos ⟨ha, hm⟩]
  simp only []
  rw [h1]
  simp only []
  rw [h2]
  simp [callCommit, hc]

theorem checkNotFound_some (cfg : Config) (s : WiLEDProto) (a mc : Nat)
    (hs : s.Sized cfg) (hc : s.__storage_commit_callback = true) :
    ∃ v s2, checkNotFound cfg s a mc = some (v, s2) := by
  by_cases hroom : s.__count_addresses < cfg.MAXIMUM_STORED_ADDRESSES
  · obtain ⟨st, h⟩ := checkNotFound_room cfg s a mc hroom
      (by rw [hs.1]; exact hroom) (by rw [hs.2.2]; exact hroom) hc
    exact ⟨_, _, h⟩
  · exact ⟨_, _, by unfold checkNotFound; rw [if_neg hroom]⟩

theorem checkLoop_some (cfg : Config) (s : WiLEDProto) (a rc mc : Nat)
    (hs : s.Sized cfg) (hcnt : s.__count_addresses ≤ cfg.MAXIMUM_STORED_ADDRESSES)
    (hc : s.__storage_commit_callback = true) :
    ∀ (n idx : Nat), idx + n = s.__count_addresses →
      ∃ v s2, checkLoop cfg s a rc mc n idx = some (v, s2) := by
  intro n
  induction n with
  | zero => intro idx _; exact checkNotFound_some cfg s a mc hs hc
  | succ n ih =>
    intro idx h
    have hlt : idx < s.__address_array.length := by rw [hs.1]; omega
    simp only [checkLoop, List.getElem?_eq_getElem hlt]
    by_cases hx : s.__address_array[idx] = a
    · rw [if_pos hx]
      exact checkMatched_some cfg s idx rc mc (by rw [hs.2.1]; omega)
        (by rw [hs.2.2]; omega) hc
    · rw [if_neg hx]
      exact ih (idx + 1) (by omega)

theorem check_some (cfg : Config) (s : WiLEDProto) (a rc mc : Nat)
    (hs : s.Sized cfg) (hcnt : s.__count_addresses ≤ cfg.MAXIMUM_STORED_ADDRESSES)
    (hc : s.__storage_commit_callback = true) :
    ∃ v s2, __checkAndUpdateMessageCounter cfg s a rc mc = some (v, s2) :=
  checkLoop_some cfg s a rc mc hs hcnt hc _ 0 (by omega)

/-! ## What the validator leaves alone -/

theorem addToStorage_frame (s s2 : WiLEDProto) (arr : List Nat) (off len : Nat)
    (r : WiLPReturn) (h : __addToStorage_uint16t s arr off len = some (r, s2)) :
    s2 = { s with storage := s2.storage } := by
  unfold __addToStorage_uint16t at h
  split at h
  · split at h
    · exact absurd h (by simp)
    · simp only [Option.some.injEq, Prod.mk.injEq] at h
      obtain ⟨_, rfl⟩ := h
      rfl
  · simp only [Option.some.injEq, Prod.mk.injEq] at h
    obtain ⟨_, rfl⟩ := h
    rfl

theorem callCommit_frame (s s2 : WiLEDProto) (h : callCommit s = some s2) :
    s2 = { s with storage := s2.storage } := by
  unfold callCommit at h
  split at h
  · simp only [Option.some.injEq] at h
    subst h
    rfl
  · exact absurd h (by simp)

theorem sameOutsideRegistry_refl (s : WiLEDProto) : s.SameOutsideRegistry s := by
  simp [WiLEDProto.SameOutsideRegistry]

theorem checkMatched_frame (cfg : Config) (s s2 : WiLEDProto) (i rc mc : Nat)
    (v : WiLPReturn) (h : checkMatched cfg s i rc mc = some (v, s2)) :
    s.SameOutsideRegistry s2 := by
  unfold checkMatched at h
  split at h
  · exact absurd h (by simp)
  · split at h
    · dsimp only at h
      split at h
      · exact absurd h (by simp)
      · rename_i r2 s3 h3
        have f3 := addToStorage_frame _ _ _ _ _ _ h3
        split at h
        · exact absurd h (by simp)
        · rename_i s4 h4
          have f4 := callCommit_frame _ _ h4
          split at h
          · simp only [Option.some.injEq, Prod.mk.injEq] at h
            obtain ⟨_, rfl⟩ := h
            rw [f4, f3]
            simp [WiLEDProto.SameOutsideRegistry]
          · exact absurd h (by simp)
    · split at h
      · simp only [Option.some.injEq, Prod.mk.injEq] at h
        obtain ⟨_, rfl⟩ := h
        exact sameOutsideRegistry_refl _
      · split at h
        · exact absurd h (by simp)
        · split at h
          · simp only [Option.some.injEq, Prod.mk.injEq] at h
            obtain ⟨_, rfl⟩ := h
            simp [WiLEDProto.SameOutsideRegistry]
          · simp only [Option.some.injEq, Prod.mk.injEq] at h
            obtain ⟨_, rfl⟩ := h
            exact sameOutsideRegistry_refl _

theorem checkNotFound_frame (cfg : Config) (s s2 : WiLEDProto) (a mc : Nat)
    (v : WiLPReturn) (h : checkNotFound cfg s a mc = some (v, s2)) :
    s.SameOutsideRegistry s2 := by
  unfold checkNotFound at h
  split at h
  · split at h
    · dsimp only at h
      split at h
      · exact absurd h (by simp)
      · rename_i r2 s3 h3
        have f3 := addToStorage_frame _ _ _ _ _ _ h3
        split at h
        · exact absurd h (by simp)
        · rename_i r4 s4 h4
          have f4 := addToStorage_frame _ _ _ _ _ _ h4
          split at h
          · exact absurd h (by simp)
          · rename_i s5 h5
            have f5 := callCommit_frame _ _ h5
            simp only [Option.some.injEq, Prod.mk.injEq] at h
            obtain ⟨_, rfl⟩ := h
            rw [f5, f4, f3]
            simp [WiLEDProto.SameOutsideRegistry]
    · exact absurd h (by simp)
  · simp only [Option.some.injEq, Prod.mk.injEq] at h
    obtain ⟨_, rfl⟩ := h
    exact sameOutsideRegistry_refl _

theorem checkLoop_frame (cfg : Config) (s s2 : WiLEDProto) (a rc mc : Nat)
    (v : WiLPReturn) :
    ∀ (n idx : Nat), checkLoop cfg s a rc mc n idx = some (v, s2) →
      s.SameOutsideRegistry s2 := by
  intro n
  induction n with
  | zero => intro idx h; exact checkNotFound_frame cfg s s2 a mc v h
  | succ n ih =>
    intro idx h
    simp only [checkLoop] at h
    split at h
    · exact absurd h (by simp)
    · split at h
      · exact checkMatched_frame cfg s s2 idx rc mc v h
      · exact ih (idx + 1) h

theorem check_frame (cfg : Config) (s s2 : WiLEDProto) (a rc mc : Nat)
    (v : WiLPReturn) (h : __checkAndUpdateMessageCounter cfg s a rc mc = some (v, s2)) :
    s.SameOutsideRegistry s2 :=
  checkLoop_frame cfg s s2 a rc mc v _ 0 h

/-! ## The replay validator (claims C1 to C7) -/

/-- C1, evaluated at the receiver and frame of the unit test
`DetectRepeatedMessage`: the fresh receiver processes the sender's first Beacon
frame twice.  The first validation result is `WiLP_RETURN_ADDED_ADDRESS`, the
second one is `WiLP_RETURN_SUCCESS`, not `WiLP_RETURN_INVALID_MSG_CTR`; only a
third delivery of the frame is reported as replayed. -/
theorem C1_replay_accepted_on_second_delivery :
    (freshReceiver.bind fun p2 =>
      (processMessage testCfg p2 firstBeacon).bind fun r1 =>
        (processMessage testCfg r1.2 firstBeacon).bind fun r2 =>
          (processMessage testCfg r2.2 firstBeacon).map fun r3 =>
            (getLastReceivedMessageCounterValidation r1.2,
             getLastReceivedMessageCounterValidation r2.2,
             getLastReceivedMessageCounterValidation r3.2))
      = some (WiLP_RETURN_ADDED_ADDRESS, WiLP_RETURN_SUCCESS,
          WiLP_RETURN_INVALID_MSG_CTR) := by
  decide

/-- C2, evaluated on the fresh receiver: validating address `0x1000` with reset
counter 1 and message counter 1 returns `WiLP_RETURN_ADDED_ADDRESS` and puts
the address and the message counter 1 into slot 0 of the registry, but the
reset counter stored in slot 0 is still 0, not 1. -/
theorem C2_first_seen_drops_reset_counter :
    (freshReceiver.bind fun p2 =>
      (__checkAndUpdateMessageCounter testCfg p2 0x1000 1 1).map fun r =>
        (r.1, r.2.__count_addresses, r.2.__address_array[0]?,
         r.2.__message_counter_array[0]?, r.2.__reset_counter_array[0]?))
      = some (WiLP_RETURN_ADDED_ADDRESS, 1, some 0x1000, some 1, some 0) := by
  decide

/-- The first-seen path in general: with room in the registry and the commit
callback set, an unseen address is appended with the claimed message counter
and the count grows by one, while `__reset_counter_array` is left as it
was. -/
theorem check_firstSeen (cfg : Config) (s : WiLEDProto) (addr rc mc : Nat)
    (hs : s.Sized cfg) (hun : s.Unseen addr)
    (hroom : s.__count_addresses < cfg.MAXIMUM_STORED_ADDRESSES)
    (hc : s.__storage_commit_callback = true) :
    ∃ st, __checkAndUpdateMessageCounter cfg s addr rc mc =
      some (WiLP_RETURN_ADDED_ADDRESS,
        { s with
          __address_array := s.__address_array.set s.__count_addresses addr
          __message_counter_array := s.__message_counter_array.set s.__count_addresses mc
          __count_addresses := (s.__count_addresses + 1) % 65536
          storage := st }) := by
  rw [check_unseen cfg s addr rc mc hun]
  exact checkNotFound_room cfg s addr mc hroom (by rw [hs.1]; exact hroom)
    (by rw [hs.2.2]; exact hroom) hc

/-- C3 (same-epoch replay): when the registry holds a record for `addr` with
stored reset counter `R` and message counter `M`, validating `(addr, R, mc)`
with `mc ≤ M` returns `WiLP_RETURN_INVALID_MSG_CTR` and leaves the whole
object, so the address, reset-counter and message-counter arrays and
`__count_addresses` too, unchanged. -/
theorem C3_same_epoch_replay (cfg : Config) (s : WiLEDProto) (i addr R M mc : Nat)
    (h : s.HasRecord i addr R M) (hmc : mc ≤ M) :
    __checkAndUpdateMessageCounter cfg s addr R mc =
      some (WiLP_RETURN_INVALID_MSG_CTR, s) := by
  rw [check_found cfg s addr R mc i R M h]
  obtain ⟨_, _, _, hR, hM⟩ := h
  unfold checkMatched
  simp only [hR, hM, Nat.lt_irrefl, if_false, ne_eq, not_true_eq_false]
  rw [if_neg (by omega)]

theorem C3_same_epoch_replay_witness :
    __checkAndUpdateMessageCounter testCfg twoPeers 0x1000 5 7 =
      some (WiLP_RETURN_INVALID_MSG_CTR, twoPeers) :=
  C3_same_epoch_replay testCfg twoPeers 0 0x1000 5 7 7
    ⟨by decide, rfl, fun j hj => absurd hj (Nat.not_lt_zero j), rfl, rfl⟩ (by decide)

/-- C4 (same-epoch advance): when the registry holds a record for `addr` with
stored `(R, M)`, validating `(addr, R, mc)` with `mc > M` returns
`WiLP_RETURN_SUCCESS`; the only change to the object is that the message
counter of that record becomes `mc`, so afterwards the record for `addr` holds
`(R, mc)`. -/
theorem C4_same_epoch_advance (cfg : Config) (s : WiLEDProto) (i addr R M mc : Nat)
    (h : s.HasRecord i addr R M) (hmc : M < mc) :
    __checkAndUpdateMessageCounter cfg s addr R mc =
      some (WiLP_RETURN_SUCCESS,
        { s with __message_counter_array := s.__message_counter_array.set i mc }) ∧
    WiLEDProto.HasRecord
      { s with __message_counter_array := s.__message_counter_array.set i mc }
      i addr R mc := by
  rw [check_found cfg s addr R mc i R M h]
  obtain ⟨hi, ha, hfirst, hR, hM⟩ := h
  have hlen : i < s.__message_counter_array.length := by
    by_contra hcon
    rw [List.getElem?_eq_none (by omega)] at hM
    exact absurd hM (by simp)
  constructor
  · unfold checkMatched
    simp only [hR, hM, Nat.lt_irrefl, if_false, ne_eq, not_true_eq_false]
    rw [if_pos hmc]
  · exact ⟨hi, ha, hfirst, hR, by simp [hlen]⟩

theorem C4_same_epoch_advance_witness :
    __checkAndUpdateMessageCounter testCfg twoPeers 0x1000 5 8 =
      some (WiLP_RETURN_SUCCESS,
        { twoPeers with __message_counter_array := twoPeers.__message_counter_array.set 0 8 }) ∧
    WiLEDProto.HasRecord
      { twoPeers with __message_counter_array := twoPeers.__message_counter_array.set 0 8 }
      0 0x1000 5 8 :=
  C4_same_epoch_advance testCfg twoPeers 0 0x1000 5 7 8
    ⟨by decide, rfl, fun j hj => absurd hj (Nat.not_lt_zero j), rfl, rfl⟩ (by decide)

/-- C5 (new epoch wins): when the registry holds a record for `addr` with
stored `(R, M)` and the commit callback is set, validating `(addr, rc, mc)`
with `rc > R` returns `WiLP_RETURN_SUCCESS` for every `mc` (also `mc ≤ M`), and
afterwards the record for `addr` holds reset counter `rc` and message counter
`mc`. -/
theorem C5_new_epoch_wins (cfg : Config) (s : WiLEDProto) (i addr R M rc mc : Nat)
    (h : s.HasRecord i addr R M) (hc : s.__storage_commit_callback = true)
    (hrc : R < rc) :
    ∃ s2, __checkAndUpdateMessageCounter cfg s addr rc mc =
        some (WiLP_RETURN_SUCCESS, s2) ∧
      s2.HasRecord i addr rc mc := by
  rw [check_found cfg s addr rc mc i R M h]
  obtain ⟨hi, ha, hfirst, hR, hM⟩ := h
  have hlenM : i < s.__message_counter_array.length := by
    by_contra hcon
    rw [List.getElem?_eq_none (by omega)] at hM
    exact absurd hM (by simp)
  have hlenR : i < s.__reset_counter_array.length := by
    by_contra hcon
    rw [List.getElem?_eq_none (by omega)] at hR
    exact absurd hR (by simp)
  obtain ⟨st, hst⟩ := checkMatched_newEpoch cfg s i R rc mc hR hlenM hc hrc
  exact ⟨_, hst, hi, ha, hfirst, by simp [hlenR], by simp [hlenM]⟩

theorem C5_new_epoch_wins_witness :
    ∃ s2, __checkAndUpdateMessageCounter testCfg twoPeers 0x1000 6 3 =
        some (WiLP_RETURN_SUCCESS, s2) ∧
      s2.HasRecord 0 0x1000 6 3 :=
  C5_new_epoch_wins testCfg twoPeers 0 0x1000 5 7 6 3
    ⟨by decide, rfl, fun j hj => absurd hj (Nat.not_lt_zero j), rfl, rfl⟩ rfl (by decide)

/-- C6 (stale epoch): when the registry holds a record for `addr` with stored
`(R, M)`, validating `(addr, rc, mc)` with `rc < R` as natural numbers (no
wraparound: `rc = 0` against `R = 65535` included) returns
`WiLP_RETURN_INVALID_RST_CTR` for every `mc` and leaves the whole object
unchanged. -/
theorem C6_stale_epoch (cfg : Config) (s : WiLEDProto) (i addr R M rc mc : Nat)
    (h : s.HasRecord i addr R M) (hrc : rc < R) :
    __checkAndUpdateMessageCounter cfg s addr rc mc =
      some (WiLP_RETURN_INVALID_RST_CTR, s) := by
  rw [check_found cfg s addr rc mc i R M h]
  obtain ⟨_, _, _, hR, _⟩ := h
  unfold checkMatched
  simp only [hR]
  rw [if_neg (by omega), if_pos (by omega)]

theorem C6_stale_epoch_witness :
    __checkAndUpdateMessageCounter testCfg
        { twoPeers with __reset_counter_array := [65535, 2, 0, 0] } 0x1000 0 100 =
      some (WiLP_RETURN_INVALID_RST_CTR,
        { twoPeers with __reset_counter_array := [65535, 2, 0, 0] }) :=
  C6_stale_epoch testCfg { twoPeers with __reset_counter_array := [65535, 2, 0, 0] }
    0 0x1000 65535 7 0 100
    ⟨by decide, rfl, fun j hj => absurd hj (Nat.not_lt_zero j), rfl, rfl⟩ (by decide)

/-- C7 (registry full): when `__count_addresses` equals
`MAXIMUM_STORED_ADDRESSES` and `addr` is not in the registry, validating
`(addr, rc, mc)` returns `WiLP_RETURN_AT_MAX_ADDRESSES` and the object after
the call is the object before it (registry arrays, count and storage
collaborator included, nothing evicted), so on it every further validation of
`addr`, with any counters, returns `WiLP_RETURN_AT_MAX_ADDRESSES` again. -/
theorem C7_registry_full (cfg : Config) (s : WiLEDProto) (addr rc mc : Nat)
    (hfull : s.__count_addresses = cfg.MAXIMUM_STORED_ADDRESSES)
    (hun : s.Unseen addr) :
    ∃ s2, __checkAndUpdateMessageCounter cfg s addr rc mc =
        some (WiLP_RETURN_AT_MAX_ADDRESSES, s2) ∧
      s2 = s ∧
      ∀ rc2 mc2, __checkAndUpdateMessageCounter cfg s2 addr rc2 mc2 =
        some (WiLP_RETURN_AT_MAX_ADDRESSES, s2) := by
  have key : ∀ rc2 mc2, __checkAndUpdateMessageCounter cfg s addr rc2 mc2 =
      some (WiLP_RETURN_AT_MAX_ADDRESSES, s) := by
    intro rc2 mc2
    rw [check_unseen cfg s addr rc2 mc2 hun]
    unfold checkNotFound
    rw [if_neg (by omega)]
  exact ⟨s, key rc mc, rfl, key⟩

theorem C7_registry_full_witness :
    ∃ s2, __checkAndUpdateMessageCounter testCfg fullRegistry 0x4000 1 1 =
        some (WiLP_RETURN_AT_MAX_ADDRESSES, s2) ∧
      s2 = fullRegistry ∧
      ∀ rc2 mc2, __checkAndUpdateMessageCounter testCfg s2 0x4000 rc2 mc2 =
        some (WiLP_RETURN_AT_MAX_ADDRESSES, s2) :=
  C7_registry_full testCfg fullRegistry 0x4000 1 1 rfl (by
    intro j hj
    have hj4 : j < 4 := hj
    interval_cases j
    · exact ⟨0x1000, rfl, by decide⟩
    · exact ⟨0x3000, rfl, by decide⟩
    · exact ⟨0x3001, rfl, by decide⟩
    · exact ⟨0x3002, rfl, by decide⟩)

/-! ## The five outcomes of the validator -/

theorem checkMatched_outcome (cfg : Config) (s s2 : WiLEDProto) (i rc mc : Nat)
    (v : WiLPReturn) (h : checkMatched cfg s i rc mc = some (v, s2)) :
    v = WiLP_RETURN_SUCCESS ∨ v = WiLP_RETURN_ADDED_ADDRESS ∨
      v = WiLP_RETURN_INVALID_MSG_CTR ∨ v = WiLP_RETURN_INVALID_RST_CTR ∨
      v = WiLP_RETURN_AT_MAX_ADDRESSES := by
  unfold checkMatched at h
  split at h
  · exact absurd h (by simp)
  · split at h
    · dsimp only at h
      split at h
      · exact absurd h (by simp)
      · split at h
        · exact absurd h (by simp)
        · split at h
          · simp only [Option.some.injEq, Prod.mk.injEq] at h
            exact Or.inl h.1.symm
          · exact absurd h (by simp)
    · split at h
      · simp only [Option.some.injEq, Prod.mk.injEq] at h
        exact Or.inr (Or.inr (Or.inr (Or.inl h.1.symm)))
      · split at h
        · exact absurd h (by simp)
        · split at h
          · simp only [Option.some.injEq, Prod.mk.injEq] at h
            exact Or.inl h.1.symm
          · simp only [Option.some.injEq, Prod.mk.injEq] at h
            exact Or.inr (Or.inr (Or.inl h.1.symm))

theorem checkNotFound_outcome (cfg : Config) (s s2 : WiLEDProto) (a mc : Nat)
    (v : WiLPReturn) (h : checkNotFound cfg s a mc = some (v, s2)) :
    v = WiLP_RETURN_SUCCESS ∨ v = WiLP_RETURN_ADDED_ADDRESS ∨
      v = WiLP_RETURN_INVALID_MSG_CTR ∨ v = WiLP_RETURN_INVALID_RST_CTR ∨
      v = WiLP_RETURN_AT_MAX_ADDRESSES := by
  unfold checkNotFound at h
  split at h
  · split at h
    · dsimp only at h
      split at h
      · exact absurd h (by simp)
      · split at h
        · exact absurd h (by simp)
        · split at h
          · exact absurd h (by simp)
          · simp only [Option.some.injEq, Prod.mk.injEq] at h
            exact Or.inr (Or.inl h.1.symm)
    · exact absurd h (by simp)
  · simp only [Option.some.injEq, Prod.mk.injEq] at h
    exact Or.inr (Or.inr (Or.inr (Or.inr h.1.symm)))

theorem checkLoop_outcome (cfg : Config) (s s2 : WiLEDProto) (a rc mc : Nat)
    (v : WiLPReturn) :
    ∀ (n idx : Nat), checkLoop cfg s a rc mc n idx = some (v, s2) →
      v = WiLP_RETURN_SUCCESS ∨ v = WiLP_RETURN_ADDED_ADDRESS ∨
        v = WiLP_RETURN_INVALID_MSG_CTR ∨ v = WiLP_RETURN_INVALID_RST_CTR ∨
        v = WiLP_RETURN_AT_MAX_ADDRESSES := by
  intro n
  induction n with
  | zero => intro idx h; exact checkNotFound_outcome cfg s s2 a mc v h
  | succ n ih =>
    intro idx h
    simp only [checkLoop] at h
    split at h
    · exact absurd h (by simp)
    · split at h
      · exact checkMatched_outcome cfg s s2 idx rc mc v h
      · exact ih (idx + 1) h

theorem check_outcome (cfg : Config) (s s2 : WiLEDProto) (a rc mc : Nat)
    (v : WiLPReturn) (h : __checkAndUpdateMessageCounter cfg s a rc mc = some (v, s2)) :
    v = WiLP_RETURN_SUCCESS ∨ v = WiLP_RETURN_ADDED_ADDRESS ∨
      v = WiLP_RETURN_INVALID_MSG_CTR ∨ v = WiLP_RETURN_INVALID_RST_CTR ∨
      v = WiLP_RETURN_AT_MAX_ADDRESSES :=
  checkLoop_outcome cfg s s2 a rc mc v _ 0 h

/-! ## Receiving a frame (claims C8 to C10) -/

theorem getElem?_eq_some_getD (l : List Nat) (i : Nat) (h : i < l.length) :
    l[i]? = some (l.getD i 0) := by
  rw [List.getD_eq_getElem?_getD, List.getElem?_eq_getElem h]
  rfl

theorem getD_lt_256 (l : List Nat) (hb : ∀ b ∈ l, b < 256) (i : Nat) :
    l.getD i 0 < 256 := by
  by_cases h : i < l.length
  · rw [List.getD_eq_getElem _ _ h]
    exact hb _ (List.getElem_mem h)
  · rw [List.getD_eq_default _ _ (by omega)]
    decide

theorem bigEndian16 (hi lo : Nat) (h1 : hi < 256) (h2 : lo < 256) :
    ((hi <<< 8) % 65536 + lo) % 65536 = 256 * hi + lo := by
  rw [Nat.shiftLeft_eq]
  omega

/-- C8 (bad magic): for every buffer whose byte 0 is not `0xAA`, whatever its
other bytes and whatever the object held before, `processMessage` returns
`WiLP_RETURN_INVALID_BUFFER`, and afterwards `getLastReceivedSource`,
`getLastReceivedDestination`, `getLastReceivedType`,
`getLastReceivedResetCounter` and `getLastReceivedMessageCounter` all return
0. -/
theorem C8_bad_magic (cfg : Config) (s : WiLEDProto) (inBuffer : List Nat) (b0 : Nat)
    (h0 : inBuffer[0]? = some b0) (hne : b0 ≠ 0xAA) :
    ∃ s2, processMessage cfg s inBuffer = some (WiLP_RETURN_INVALID_BUFFER, s2) ∧
      getLastReceivedSource s2 = 0 ∧
      getLastReceivedDestination s2 = 0 ∧
      getLastReceivedType s2 = 0 ∧
      getLastReceivedResetCounter s2 = 0 ∧
      getLastReceivedMessageCounter s2 = 0 := by
  unfold processMessage
  simp only [h0]
  rw [if_pos hne]
  exact ⟨_, rfl, rfl, rfl, rfl, rfl, rfl⟩

theorem C8_bad_magic_witness :
    ∃ s2, processMessage testCfg twoPeers
        [0x01, 0x10, 0x00, 0xFF, 0xFF, 0, 0, 0, 0, 0, 0, 0, 0, 0, 0, 0] =
        some (WiLP_RETURN_INVALID_BUFFER, s2) ∧
      getLastReceivedSource s2 = 0 ∧
      getLastReceivedDestination s2 = 0 ∧
      getLastReceivedType s2 = 0 ∧
      getLastReceivedResetCounter s2 = 0 ∧
      getLastReceivedMessageCounter s2 = 0 :=
  C8_bad_magic testCfg twoPeers _ 0x01 rfl (by decide)

/-- C9 (misaddressed frame): for every buffer of bytes with byte 0 equal to
`0xAA` whose big-endian destination (bytes 3 and 4) is neither the own address
nor `0xFFFF`, `processMessage` returns `WiLP_RETURN_NOT_THIS_DEST`, and the
last received source, destination, reset counter, message counter and type are
the values decoded from bytes 1 to 9 of the buffer. -/
theorem C9_misaddressed (cfg : Config) (s : WiLEDProto) (inBuffer : List Nat)
    (hlen : 10 ≤ inBuffer.length) (hbytes : ∀ b ∈ inBuffer, b < 256)
    (hmagic : inBuffer[0]? = some 0xAA)
    (hown : 256 * inBuffer.getD 3 0 + inBuffer.getD 4 0 ≠ s.__address)
    (hbc : 256 * inBuffer.getD 3 0 + inBuffer.getD 4 0 ≠ 0xFFFF) :
    ∃ s2, processMessage cfg s inBuffer = some (WiLP_RETURN_NOT_THIS_DEST, s2) ∧
      getLastReceivedSource s2 = 256 * inBuffer.getD 1 0 + inBuffer.getD 2 0 ∧
      getLastReceivedDestination s2 = 256 * inBuffer.getD 3 0 + inBuffer.getD 4 0 ∧
      getLastReceivedResetCounter s2 = 256 * inBuffer.getD 5 0 + inBuffer.getD 6 0 ∧
      getLastReceivedMessageCounter s2 = 256 * inBuffer.getD 7 0 + inBuffer.getD 8 0 ∧
      getLastReceivedType s2 = inBuffer.getD 9 0 := by
  have hb := getD_lt_256 inBuffer hbytes
  have hd : (storeHeader s (inBuffer.getD 1 0) (inBuffer.getD 2 0) (inBuffer.getD 3 0)
      (inBuffer.getD 4 0) (inBuffer.getD 5 0) (inBuffer.getD 6 0) (inBuffer.getD 7 0)
      (inBuffer.getD 8 0) (inBuffer.getD 9 0)).__last_received_destination
      = 256 * inBuffer.getD 3 0 + inBuffer.getD 4 0 := bigEndian16 _ _ (hb 3) (hb 4)
  unfold processMessage
  simp only [hmagic, ne_eq, not_true_eq_false, if_false,
    getElem?_eq_some_getD inBuffer 1 (by omega), getElem?_eq_some_getD inBuffer 2 (by omega),
    getElem?_eq_some_getD inBuffer 3 (by omega), getElem?_eq_some_getD inBuffer 4 (by omega),
    getElem?_eq_some_getD inBuffer 5 (by omega), getElem?_eq_some_getD inBuffer 6 (by omega),
    getElem?_eq_some_getD inBuffer 7 (by omega), getElem?_eq_some_getD inBuffer 8 (by omega),
    getElem?_eq_some_getD inBuffer 9 (by omega)]
  rw [hd, if_pos ⟨hown, hbc⟩]
  refine ⟨_, rfl, ?_, ?_, ?_, ?_, ?_⟩
  · exact bigEndian16 _ _ (hb 1) (hb 2)
  · exact bigEndian16 _ _ (hb 3) (hb 4)
  · exact bigEndian16 _ _ (hb 5) (hb 6)
  · exact bigEndian16 _ _ (hb 7) (hb 8)
  · exact Nat.mod_eq_of_lt (hb 9)

theorem C9_misaddressed_witness :
    ∃ s2, processMessage testCfg twoPeers beaconTo3000 =
        some (WiLP_RETURN_NOT_THIS_DEST, s2) ∧
      getLastReceivedSource s2 = 256 * beaconTo3000.getD 1 0 + beaconTo3000.getD 2 0 ∧
      getLastReceivedDestination s2 =
        256 * beaconTo3000.getD 3 0 + beaconTo3000.getD 4 0 ∧
      getLastReceivedResetCounter s2 =
        256 * beaconTo3000.getD 5 0 + beaconTo3000.getD 6 0 ∧
      getLastReceivedMessageCounter s2 =
        256 * beaconTo3000.getD 7 0 + beaconTo3000.getD 8 0 ∧
      getLastReceivedType s2 = beaconTo3000.getD 9 0 :=
  C9_misaddressed testCfg twoPeers beaconTo3000 (by decide) (by decide) rfl
    (by decide) (by decide)

/-- A well-addressed Beacon frame on which the validator gives a result `v` is
accepted with `WiLP_RETURN_SUCCESS`, and `v` is stored as the last validation
result. -/
theorem processMessage_beacon (cfg : Config) (s : WiLEDProto) (inBuffer : List Nat)
    (hlen : 14 ≤ inBuffer.length) (hbytes : ∀ b ∈ inBuffer, b < 256)
    (hpay : 4 ≤ s.__last_received_payload.length)
    (hmagic : inBuffer[0]? = some 0xAA)
    (hdest : 256 * inBuffer.getD 3 0 + inBuffer.getD 4 0 = s.__address ∨
      256 * inBuffer.getD 3 0 + inBuffer.getD 4 0 = 0xFFFF)
    (htype : inBuffer[9]? = some WiLP_Beacon) (v : WiLPReturn) (s1 : WiLEDProto)
    (hchk : __checkAndUpdateMessageCounter cfg
        (storeHeader s (inBuffer.getD 1 0) (inBuffer.getD 2 0) (inBuffer.getD 3 0)
      (inBuffer.getD 4 0) (inBuffer.getD 5 0) (inBuffer.getD 6 0) (inBuffer.getD 7 0)
      (inBuffer.getD 8 0) (inBuffer.getD 9 0))
        (256 * inBuffer.getD 1 0 + inBuffer.getD 2 0)
        (256 * inBuffer.getD 5 0 + inBuffer.getD 6 0)
        (256 * inBuffer.getD 7 0 + inBuffer.getD 8 0) = some (v, s1)) :
    ∃ s2, processMessage cfg s inBuffer = some (WiLP_RETURN_SUCCESS, s2) ∧
      getLastReceivedMessageCounterValidation s2 = v := by
  have hb := getD_lt_256 inBuffer hbytes
  have h9 : inBuffer.getD 9 0 = WiLP_Beacon := by
    have := getElem?_eq_some_getD inBuffer 9 (by omega)
    rw [htype] at this
    exact (Option.some.inj this).symm
  have hd : (storeHeader s (inBuffer.getD 1 0) (inBuffer.getD 2 0) (inBuffer.getD 3 0)
      (inBuffer.getD 4 0) (inBuffer.getD 5 0) (inBuffer.getD 6 0) (inBuffer.getD 7 0)
      (inBuffer.getD 8 0) (inBuffer.getD 9 0)).__last_received_destination
      = 256 * inBuffer.getD 3 0 + inBuffer.getD 4 0 := bigEndian16 _ _ (hb 3) (hb 4)
  have hsrc : (storeHeader s (inBuffer.getD 1 0) (inBuffer.getD 2 0) (inBuffer.getD 3 0)
      (inBuffer.getD 4 0) (inBuffer.getD 5 0) (inBuffer.getD 6 0) (inBuffer.getD 7 0)
      (inBuffer.getD 8 0) (inBuffer.getD 9 0)).__last_received_source
      = 256 * inBuffer.getD 1 0 + inBuffer.getD 2 0 := bigEndian16 _ _ (hb 1) (hb 2)
  have hrc : (storeHeader s (inBuffer.getD 1 0) (inBuffer.getD 2 0) (inBuffer.getD 3 0)
      (inBuffer.getD 4 0) (inBuffer.getD 5 0) (inBuffer.getD 6 0) (inBuffer.getD 7 0)
      (inBuffer.getD 8 0) (inBuffer.getD 9 0)).__last_received_reset_counter
      = 256 * inBuffer.getD 5 0 + inBuffer.getD 6 0 := bigEndian16 _ _ (hb 5) (hb 6)
  have hmc : (storeHeader s (inBuffer.getD 1 0) (inBuffer.getD 2 0) (inBuffer.getD 3 0)
      (inBuffer.getD 4 0) (inBuffer.getD 5 0) (inBuffer.getD 6 0) (inBuffer.getD 7 0)
      (inBuffer.getD 8 0) (inBuffer.getD 9 0)).__last_received_message_counter
      = 256 * inBuffer.getD 7 0 + inBuffer.getD 8 0 := bigEndian16 _ _ (hb 7) (hb 8)
  have hown : (storeHeader s (inBuffer.getD 1 0) (inBuffer.getD 2 0) (inBuffer.getD 3 0)
      (inBuffer.getD 4 0) (inBuffer.getD 5 0) (inBuffer.getD 6 0) (inBuffer.getD 7 0)
      (inBuffer.getD 8 0) (inBuffer.getD 9 0)).__address = s.__address := rfl
  have hf := check_frame _ _ _ _ _ _ _ hchk
  have hty : s1.__last_received_type = WiLP_Beacon := by
    rw [hf.2.2.2.2.2.2.2.2.2.1]
    show inBuffer.getD 9 0 % 256 = WiLP_Beacon
    rw [h9]; rfl
  have hpl : s1.__last_received_payload = s.__last_received_payload :=
    hf.2.2.2.2.2.2.2.2.2.2.2.2.2.1
  unfold processMessage
  simp only [hmagic, ne_eq, not_true_eq_false, if_false,
    getElem?_eq_some_getD inBuffer 1 (by omega), getElem?_eq_some_getD inBuffer 2 (by omega),
    getElem?_eq_some_getD inBuffer 3 (by omega), getElem?_eq_some_getD inBuffer 4 (by omega),
    getElem?_eq_some_getD inBuffer 5 (by omega), getElem?_eq_some_getD inBuffer 6 (by omega),
    getElem?_eq_some_getD inBuffer 7 (by omega), getElem?_eq_some_getD inBuffer 8 (by omega),
    getElem?_eq_some_getD inBuffer 9 (by omega)]
  rw [hd, hown, hsrc, hrc, hmc, if_neg (by omega), hchk]
  simp only []
  rw [if_pos hty, if_pos ⟨by omega, by rw [hpl]; exact hpay⟩]
  exact ⟨_, rfl, rfl⟩

/-- C10 (the validator outcome never blocks acceptance): take an object whose
arrays have their declared size, whose count is within the capacity and whose
commit callback is set, and a buffer of at least 14 bytes with magic `0xAA`,
destination equal to the own address or `0xFFFF` and type `WiLP_Beacon`.  Then
`__checkAndUpdateMessageCounter`, called on the decoded source, reset counter
and message counter, gives a result, and whatever result `v` it gives (it is
one of Accepted, FirstSeen, Replayed, StaleResetCounter and RegistryFull),
`processMessage` returns `WiLP_RETURN_SUCCESS` and
`getLastReceivedMessageCounterValidation` then returns exactly `v`. -/
theorem C10_validator_never_blocks (cfg : Config) (s : WiLEDProto) (inBuffer : List Nat)
    (hs : s.Sized cfg) (hcnt : s.__count_addresses ≤ cfg.MAXIMUM_STORED_ADDRESSES)
    (hc : s.__storage_commit_callback = true)
    (hlen : 14 ≤ inBuffer.length) (hbytes : ∀ b ∈ inBuffer, b < 256)
    (hpay : 4 ≤ s.__last_received_payload.length)
    (hmagic : inBuffer[0]? = some 0xAA)
    (hdest : 256 * inBuffer.getD 3 0 + inBuffer.getD 4 0 = s.__address ∨
      256 * inBuffer.getD 3 0 + inBuffer.getD 4 0 = 0xFFFF)
    (htype : inBuffer[9]? = some WiLP_Beacon) :
    (∃ v s1, __checkAndUpdateMessageCounter cfg
        (storeHeader s (inBuffer.getD 1 0) (inBuffer.getD 2 0) (inBuffer.getD 3 0)
      (inBuffer.getD 4 0) (inBuffer.getD 5 0) (inBuffer.getD 6 0) (inBuffer.getD 7 0)
      (inBuffer.getD 8 0) (inBuffer.getD 9 0))
        (256 * inBuffer.getD 1 0 + inBuffer.getD 2 0)
        (256 * inBuffer.getD 5 0 + inBuffer.getD 6 0)
        (256 * inBuffer.getD 7 0 + inBuffer.getD 8 0) = some (v, s1)) ∧
    (∀ v s1, __checkAndUpdateMessageCounter cfg
        (storeHeader s (inBuffer.getD 1 0) (inBuffer.getD 2 0) (inBuffer.getD 3 0)
      (inBuffer.getD 4 0) (inBuffer.getD 5 0) (inBuffer.getD 6 0) (inBuffer.getD 7 0)
      (inBuffer.getD 8 0) (inBuffer.getD 9 0))
        (256 * inBuffer.getD 1 0 + inBuffer.getD 2 0)
        (256 * inBuffer.getD 5 0 + inBuffer.getD 6 0)
        (256 * inBuffer.getD 7 0 + inBuffer.getD 8 0) = some (v, s1) →
      (v = WiLP_RETURN_SUCCESS ∨ v = WiLP_RETURN_ADDED_ADDRESS ∨
        v = WiLP_RETURN_INVALID_MSG_CTR ∨ v = WiLP_RETURN_INVALID_RST_CTR ∨
        v = WiLP_RETURN_AT_MAX_ADDRESSES) ∧
      ∃ s2, processMessage cfg s inBuffer = some (WiLP_RETURN_SUCCESS, s2) ∧
        getLastReceivedMessageCounterValidation s2 = v) := by
  constructor
  · exact check_some cfg _ _ _ _ hs hcnt hc
  · intro v s1 hchk
    exact ⟨check_outcome _ _ _ _ _ _ _ hchk,
      processMessage_beacon cfg s inBuffer hlen hbytes hpay hmagic hdest htype v s1 hchk⟩

theorem C10_validator_never_blocks_witness :
    (∃ v s1, __checkAndUpdateMessageCounter testCfg
        (storeHeader twoPeers (firstBeacon.getD 1 0) (firstBeacon.getD 2 0)
          (firstBeacon.getD 3 0) (firstBeacon.getD 4 0) (firstBeacon.getD 5 0)
          (firstBeacon.getD 6 0) (firstBeacon.getD 7 0) (firstBeacon.getD 8 0)
          (firstBeacon.getD 9 0))
        (256 * firstBeacon.getD 1 0 + firstBeacon.getD 2 0)
        (256 * firstBeacon.getD 5 0 + firstBeacon.getD 6 0)
        (256 * firstBeacon.getD 7 0 + firstBeacon.getD 8 0) = some (v, s1)) ∧
    (∀ v s1, __checkAndUpdateMessageCounter testCfg
        (storeHeader twoPeers (firstBeacon.getD 1 0) (firstBeacon.getD 2 0)
          (firstBeacon.getD 3 0) (firstBeacon.getD 4 0) (firstBeacon.getD 5 0)
          (firstBeacon.getD 6 0) (firstBeacon.getD 7 0) (firstBeacon.getD 8 0)
          (firstBeacon.getD 9 0))
        (256 * firstBeacon.getD 1 0 + firstBeacon.getD 2 0)
        (256 * firstBeacon.getD 5 0 + firstBeacon.getD 6 0)
        (256 * firstBeacon.getD 7 0 + firstBeacon.getD 8 0) = some (v, s1) →
      (v = WiLP_RETURN_SUCCESS ∨ v = WiLP_RETURN_ADDED_ADDRESS ∨
        v = WiLP_RETURN_INVALID_MSG_CTR ∨ v = WiLP_RETURN_INVALID_RST_CTR ∨
        v = WiLP_RETURN_AT_MAX_ADDRESSES) ∧
      ∃ s2, processMessage testCfg twoPeers firstBeacon =
          some (WiLP_RETURN_SUCCESS, s2) ∧
        getLastReceivedMessageCounterValidation s2 = v) :=
  C10_validator_never_blocks testCfg twoPeers firstBeacon ⟨rfl, rfl, rfl⟩ (by decide) rfl
    (by decide) (by decide) (by decide) rfl (Or.inr (by decide)) rfl

/-! ## Lemmas on sending -/

theorem wipeLoop_spec : ∀ (n idx : Nat) (buf : List Nat), idx + n ≤ buf.length →
    ∃ w, wipeLoop n idx buf = some w ∧ w.length = buf.length ∧
      (∀ j, j < idx → w[j]? = buf[j]?) ∧
      (∀ j, idx ≤ j → j < idx + n → w[j]? = some 0) ∧
      (∀ j, idx + n ≤ j → w[j]? = buf[j]?) ∧
      ((∀ b ∈ buf, b < 256) → ∀ b ∈ w, b < 256) := by
  intro n
  induction n with
  | zero =>
    intro idx buf _
    exact ⟨buf, rfl, rfl, fun _ _ => rfl, fun j h1 h2 => absurd h2 (by omega),
      fun _ _ => rfl, fun h => h⟩
  | succ n ih =>
    intro idx buf h
    have hlt : idx < buf.length := by omega
    obtain ⟨w, hw, hlen, hlow, hzero, hhigh, hbytes⟩ :=
      ih (idx + 1) (buf.set idx 0) (by rw [List.length_set]; omega)
    refine ⟨w, ?_, ?_, ?_, ?_, ?_, ?_⟩
    · simp only [wipeLoop, setByte, if_pos hlt]
      exact hw
    · rw [hlen, List.length_set]
    · intro j hj
      rw [hlow j (by omega), List.getElem?_set_ne (by omega)]
    · intro j h1 h2
      by_cases hj : j = idx
      · subst hj
        rw [hlow j (by omega), List.getElem?_set_self hlt]
      · exact hzero j (by omega) (by omega)
    · intro j hj
      rw [hhigh j (by omega), List.getElem?_set_ne (by omega)]
    · intro hb
      apply hbytes
      intro b hmem
      rcases List.mem_or_eq_of_mem_set hmem with h1 | h1
      · exact hb b h1
      · rw [h1]; decide

theorem sendMessageBeacon_eq (s : WiLEDProto) (u : Nat)
    (hlen : 14 ≤ s.__outgoing_message_buffer.length) :
    sendMessageBeacon s u = some (WiLP_RETURN_SUCCESS,
      { s with __outgoing_message_buffer :=
          (((((((s.__outgoing_message_buffer.set 9 (WiLP_Beacon % 256)).set 3
            (0xFFFF >>> 8 % 256)).set 4 (0xFFFF % 256)).set 10
            (u >>> 24 % 256)).set 11 (u >>> 16 % 256)).set 12
            (u >>> 8 % 256)).set 13 (u % 256)) }) := by
  have h9 : 9 < s.__outgoing_message_buffer.length := by omega
  have h3 : 3 < s.__outgoing_message_buffer.length := by omega
  have h4 : 4 < s.__outgoing_message_buffer.length := by omega
  have h10 : 10 < s.__outgoing_message_buffer.length := by omega
  have h11 : 11 < s.__outgoing_message_buffer.length := by omega
  have h12 : 12 < s.__outgoing_message_buffer.length := by omega
  have h13 : 13 < s.__outgoing_message_buffer.length := by omega
  simp only [sendMessageBeacon, __setTypeByte, __setDestinationByte, __setPayloadByte,
    setByte, List.length_set, if_pos h9, if_pos h3, if_pos h4, if_pos h10, if_pos h11,
    if_pos h12, if_pos h13, Option.map_some', Nat.add_zero]

theorem copyToBuffer_eq (cfg : Config) (s : WiLEDProto)
    (hlen : s.__outgoing_message_buffer.length = cfg.MAXIMUM_MESSAGE_LENGTH)
    (h9 : 9 ≤ cfg.MAXIMUM_MESSAGE_LENGTH) (h255 : cfg.MAXIMUM_MESSAGE_LENGTH ≤ 255) :
    ∃ w, copyToBuffer cfg s = some
        ((((s.__outgoing_message_buffer.set 5 (s.__self_reset_counter >>> 8 % 256)).set 6
            (s.__self_reset_counter % 256)).set 7
            (((s.__self_message_counter + 1) % 65536) >>> 8 % 256)).set 8
            ((s.__self_message_counter + 1) % 65536 % 256),
          { s with
            __self_message_counter := (s.__self_message_counter + 1) % 65536
            __outgoing_message_buffer := w }) ∧
      w.length = cfg.MAXIMUM_MESSAGE_LENGTH ∧
      w[0]? = s.__outgoing_message_buffer[0]? ∧
      w[1]? = s.__outgoing_message_buffer[1]? ∧
      w[2]? = s.__outgoing_message_buffer[2]? ∧
      (∀ j, 3 ≤ j → j < cfg.MAXIMUM_MESSAGE_LENGTH → w[j]? = some 0) ∧
      ((∀ b ∈ s.__outgoing_message_buffer, b < 256) → ∀ b ∈ w, b < 256) := by
  have h5 : 5 < s.__outgoing_message_buffer.length := by omega
  have h6 : 6 < s.__outgoing_message_buffer.length := by omega
  have h7 : 7 < s.__outgoing_message_buffer.length := by omega
  have h8 : 8 < s.__outgoing_message_buffer.length := by omega
  obtain ⟨w, hw, hwlen, hlow, hzero, _, hbytes⟩ := wipeLoop_spec
    (cfg.MAXIMUM_MESSAGE_LENGTH - 3) 3
    ((((s.__outgoing_message_buffer.set 5 (s.__self_reset_counter >>> 8 % 256)).set 6
      (s.__self_reset_counter % 256)).set 7
      (((s.__self_message_counter + 1) % 65536) >>> 8 % 256)).set 8
      ((s.__self_message_counter + 1) % 65536 % 256))
    (by simp only [List.length_set]; omega)
  refine ⟨w, ?_, ?_, ?_, ?_, ?_, ?_, ?_⟩
  · simp only [copyToBuffer, setByte, List.length_set, if_pos h5, if_pos h6, if_pos h7,
      if_pos h8]
    rw [if_pos ⟨by omega, h255⟩, hw]
    simp only [Option.some.injEq, Prod.mk.injEq, and_true]
    apply List.take_of_length_le
    simp only [List.length_set]
    omega
  · rw [hwlen]; simp only [List.length_set]; exact hlen
  · rw [hlow 0 (by omega)]; simp
  · rw [hlow 1 (by omega)]; simp
  · rw [hlow 2 (by omega)]; simp
  · intro j h1 h2
    exact hzero j h1 (by omega)
  · intro hb
    apply hbytes
    intro b hmem
    rcases List.mem_or_eq_of_mem_set hmem with hmem | h1
    · rcases List.mem_or_eq_of_mem_set hmem with hmem | h1
      · rcases List.mem_or_eq_of_mem_set hmem with hmem | h1
        · rcases List.mem_or_eq_of_mem_set hmem with hmem | h1
          · exact hb b hmem
          · rw [h1]; exact Nat.mod_lt _ (by decide)
        · rw [h1]; exact Nat.mod_lt _ (by decide)
      · rw [h1]; exact Nat.mod_lt _ (by decide)
    · rw [h1]; exact Nat.mod_lt _ (by decide)

/-- One `sendMessageBeacon(u)` followed by `copyToBuffer`: both return, and
the bytes handed to the caller and the object left behind are as listed. -/
theorem send_copy (cfg : Config) (s : WiLEDProto) (u : Nat)
    (hlen : s.__outgoing_message_buffer.length = cfg.MAXIMUM_MESSAGE_LENGTH)
    (h14 : 14 ≤ cfg.MAXIMUM_MESSAGE_LENGTH) (h255 : cfg.MAXIMUM_MESSAGE_LENGTH ≤ 255) :
    ∃ s1 out s2, sendMessageBeacon s u = some (WiLP_RETURN_SUCCESS, s1) ∧
      copyToBuffer cfg s1 = some (out, s2) ∧
      out.length = cfg.MAXIMUM_MESSAGE_LENGTH ∧
      out[0]? = s.__outgoing_message_buffer[0]? ∧
      out[1]? = s.__outgoing_message_buffer[1]? ∧
      out[2]? = s.__outgoing_message_buffer[2]? ∧
      out[3]? = some 0xFF ∧ out[4]? = some 0xFF ∧
      out[5]? = some (s.__self_reset_counter / 256 % 256) ∧
      out[6]? = some (s.__self_reset_counter % 256) ∧
      out[7]? = some ((s.__self_message_counter + 1) % 65536 / 256) ∧
      out[8]? = some ((s.__self_message_counter + 1) % 65536 % 256) ∧
      out[9]? = some WiLP_Beacon ∧
      out[10]? = some (u / 16777216 % 256) ∧
      out[11]? = some (u / 65536 % 256) ∧
      out[12]? = some (u / 256 % 256) ∧
      out[13]? = some (u % 256) ∧
      (∀ j, 14 ≤ j → out[j]? = s.__outgoing_message_buffer[j]?) ∧
      ((∀ b ∈ s.__outgoing_message_buffer, b < 256) → ∀ b ∈ out, b < 256) ∧
      s2 = { s with
        __self_message_counter := (s.__self_message_counter + 1) % 65536
        __outgoing_message_buffer := s2.__outgoing_message_buffer } ∧
      s2.__outgoing_message_buffer.length = cfg.MAXIMUM_MESSAGE_LENGTH ∧
      s2.__outgoing_message_buffer[0]? = s.__outgoing_message_buffer[0]? ∧
      s2.__outgoing_message_buffer[1]? = s.__outgoing_message_buffer[1]? ∧
      s2.__outgoing_message_buffer[2]? = s.__outgoing_message_buffer[2]? ∧
      (∀ j, 3 ≤ j → j < cfg.MAXIMUM_MESSAGE_LENGTH →
        s2.__outgoing_message_buffer[j]? = some 0) ∧
      ((∀ b ∈ s.__outgoing_message_buffer, b < 256) →
        ∀ b ∈ s2.__outgoing_message_buffer, b < 256) := by
  have hs := sendMessageBeacon_eq s u (by omega)
  obtain ⟨w, hc, hwlen, hw0, hw1, hw2, hwz, hwb⟩ := copyToBuffer_eq cfg
    { s with __outgoing_message_buffer :=
        (((((((s.__outgoing_message_buffer.set 9 (WiLP_Beacon % 256)).set 3
          (0xFFFF >>> 8 % 256)).set 4 (0xFFFF % 256)).set 10
          (u >>> 24 % 256)).set 11 (u >>> 16 % 256)).set 12
          (u >>> 8 % 256)).set 13 (u % 256)) }
    (by simp only [List.length_set]; exact hlen) (by omega) h255
  have hsetb : ∀ (l : List Nat) (i v : Nat), (∀ b ∈ l, b < 256) →
      ∀ b ∈ l.set i (v % 256), b < 256 := by
    intro l i v hl b hmem
    rcases List.mem_or_eq_of_mem_set hmem with h | h
    · exact hl b h
    · rw [h]; exact Nat.mod_lt _ (by decide)
  have hL : 13 < s.__outgoing_message_buffer.length := by omega
  have hm : (s.__self_message_counter + 1) % 65536 / 256 % 256
      = (s.__self_message_counter + 1) % 65536 / 256 := by omega
  refine ⟨_, _, _, hs, hc, ?_, ?_, ?_, ?_, ?_, ?_, ?_, ?_, ?_, ?_, ?_, ?_, ?_, ?_, ?_,
    ?_, ?_, rfl, hwlen, ?_, ?_, ?_, hwz, ?_⟩
  · simp only [List.length_set]; exact hlen
  · simp [List.getElem?_set]
  · simp [List.getElem?_set]
  · simp [List.getElem?_set]
  · simp [List.getElem?_set]; omega
  · simp [List.getElem?_set]; omega
  · simp [List.getElem?_set, Nat.shiftRight_eq_div_pow]; omega
  · simp [List.getElem?_set]; omega
  · simp [List.getElem?_set, Nat.shiftRight_eq_div_pow]; omega
  · simp [List.getElem?_set]; omega
  · simp [List.getElem?_set, WiLP_Beacon]; omega
  · simp [List.getElem?_set, Nat.shiftRight_eq_div_pow]; omega
  · simp [List.getElem?_set, Nat.shiftRight_eq_div_pow]; omega
  · simp [List.getElem?_set, Nat.shiftRight_eq_div_pow]; omega
  · simp [List.getElem?_set]; omega
  · intro j hj
    simp only [List.getElem?_set]
    simp [show ¬ (8 = j) by omega, show ¬ (7 = j) by omega, show ¬ (6 = j) by omega,
      show ¬ (5 = j) by omega, show ¬ (13 = j) by omega, show ¬ (12 = j) by omega,
      show ¬ (11 = j) by omega, show ¬ (10 = j) by omega, show ¬ (4 = j) by omega,
      show ¬ (3 = j) by omega, show ¬ (9 = j) by omega]
  · intro hb
    exact hsetb _ _ _ (hsetb _ _ _ (hsetb _ _ _ (hsetb _ _ _ (hsetb _ _ _ (hsetb _ _ _
      (hsetb _ _ _ (hsetb _ _ _ (hsetb _ _ _ (hsetb _ _ _ (hsetb _ _ _ hb))))))))))
  · rw [hw0]; simp [List.getElem?_set]
  · rw [hw1]; simp [List.getElem?_set]
  · rw [hw2]; simp [List.getElem?_set]
  · intro hb
    apply hwb
    exact hsetb _ _ _ (hsetb _ _ _ (hsetb _ _ _ (hsetb _ _ _ (hsetb _ _ _ (hsetb _ _ _
      (hsetb _ _ _ hb))))))

/-- After `n + 1` rounds of the send loop the caller's buffer holds the own
reset counter, unchanged, and the message counter advanced by `n + 1` modulo
65536. -/
theorem sendFrames_counters (cfg : Config) (uptime : Nat → Nat)
    (h14 : 14 ≤ cfg.MAXIMUM_MESSAGE_LENGTH) (h255 : cfg.MAXIMUM_MESSAGE_LENGTH ≤ 255) :
    ∀ (n : Nat) (s : WiLEDProto) (buf0 : List Nat),
      s.__outgoing_message_buffer.length = cfg.MAXIMUM_MESSAGE_LENGTH →
      ∃ out s2, sendFrames cfg uptime (n + 1) s buf0 = some (out, s2) ∧
        out.length = cfg.MAXIMUM_MESSAGE_LENGTH ∧
        out[5]? = some (s.__self_reset_counter / 256 % 256) ∧
        out[6]? = some (s.__self_reset_counter % 256) ∧
        out[7]? = some ((s.__self_message_counter + n + 1) % 65536 / 256) ∧
        out[8]? = some ((s.__self_message_counter + n + 1) % 65536 % 256) ∧
        s2.__self_reset_counter = s.__self_reset_counter ∧
        s2.__self_message_counter = (s.__self_message_counter + n + 1) % 65536 := by
  intro n
  induction n with
  | zero =>
    intro s buf0 hlen
    obtain ⟨s1, out, s2, hsend, hcopy, holen, _, _, _, _, _, h5, h6, h7, h8, _, _, _, _,
      _, _, _, hs2, _⟩ := send_copy cfg s (uptime 0) hlen h14 h255
    refine ⟨out, s2, ?_, holen, h5, h6, h7, h8, ?_, ?_⟩
    · simp only [sendFrames, hsend, hcopy]
    · rw [hs2]
    · rw [hs2]
  | succ n ih =>
    intro s buf0 hlen
    obtain ⟨s1, out, s2, hsend, hcopy, _, _, _, _, _, _, _, _, _, _, _, _, _, _, _, _, _,
      hs2, hlen2, _⟩ := send_copy cfg s (uptime (n + 1)) hlen h14 h255
    have hr : s2.__self_reset_counter = s.__self_reset_counter := by rw [hs2]
    have hm : s2.__self_message_counter = (s.__self_message_counter + 1) % 65536 := by
      rw [hs2]
    obtain ⟨out2, s3, hrest, holen, h5, h6, h7, h8, hr3, hm3⟩ := ih s2 out hlen2
    have e : (s2.__self_message_counter + n + 1) % 65536
        = (s.__self_message_counter + (n + 1) + 1) % 65536 := by
      rw [hm]; omega
    rw [e] at h7 h8 hm3
    rw [hr] at h5 h6 hr3
    refine ⟨out2, s3, ?_, holen, h5, h6, h7, h8, hr3, hm3⟩
    have step : sendFrames cfg uptime (n + 1 + 1) s buf0
        = sendFrames cfg uptime (n + 1) s2 out := by
      rw [sendFrames]
      simp only [hsend, hcopy]
    rw [step]
    exact hrest

/-! ## Construction (claim C19) -/

theorem new_eq (cfg : Config) (a : Nat) (rcb wcb ccb : Bool) (st : Storage)
    (h3 : 3 ≤ cfg.MAXIMUM_MESSAGE_LENGTH) :
    ∃ s, new cfg a rcb wcb ccb st = some s ∧
      s.__address = (if a > 0 ∧ a < 65535 then a else 0) ∧
      s.__storage_read_callback = rcb ∧
      s.__storage_write_callback = wcb ∧
      s.__storage_commit_callback = ccb ∧
      s.storage = st ∧
      s.__self_reset_counter = 0 ∧
      s.__self_message_counter = 0 ∧
      s.__count_addresses = 0 ∧
      s.Sized cfg ∧
      s.__last_received_payload.length = cfg.MAXIMUM_MESSAGE_LENGTH ∧
      s.__outgoing_message_buffer.length = cfg.MAXIMUM_MESSAGE_LENGTH ∧
      (∀ b ∈ s.__outgoing_message_buffer, b < 256) ∧
      s.__outgoing_message_buffer[0]? = some 0xAA ∧
      s.__outgoing_message_buffer[1]? = some (s.__address / 256 % 256) ∧
      s.__outgoing_message_buffer[2]? = some (s.__address % 256) ∧
      (∀ j, 3 ≤ j → j < cfg.MAXIMUM_MESSAGE_LENGTH →
        s.__outgoing_message_buffer[j]? = some 0) := by
  have h0 : 0 < cfg.MAXIMUM_MESSAGE_LENGTH := by omega
  have h1 : 1 < cfg.MAXIMUM_MESSAGE_LENGTH := by omega
  have h2 : 2 < cfg.MAXIMUM_MESSAGE_LENGTH := by omega
  have hsetb : ∀ (l : List Nat) (i v : Nat), (∀ b ∈ l, b < 256) →
      ∀ b ∈ l.set i (v % 256), b < 256 := by
    intro l i v hl b hmem
    rcases List.mem_or_eq_of_mem_set hmem with h | h
    · exact hl b h
    · rw [h]; exact Nat.mod_lt _ (by decide)
  simp only [new, setByte, List.length_set, List.length_replicate, if_pos h0, if_pos h1,
    if_pos h2]
  refine ⟨_, rfl, rfl, rfl, rfl, rfl, rfl, rfl, rfl, rfl, ?_, ?_, ?_, ?_, ?_, ?_, ?_, ?_⟩
  · simp [WiLEDProto.Sized]
  · simp
  · simp
  · apply hsetb; apply hsetb; apply hsetb
    intro b hb
    rw [List.eq_of_mem_replicate hb]; decide
  · simp [List.getElem?_set, h0]
  · simp [List.getElem?_set, h1, Nat.shiftRight_eq_div_pow]
  · simp [List.getElem?_set, h2]
  · intro j hj1 hj2
    simp only [List.getElem?_set]
    simp [show ¬ (2 = j) by omega, show ¬ (1 = j) by omega, show ¬ (0 = j) by omega,
      List.getElem?_replicate, hj2]

/-- C19 (address validation at construction): for every 16-bit `a` the
constructor returns an object; its `__address` is `a` when `0 < a < 0xFFFF` and
0 when `a = 0` or `a = 0xFFFF`; in every case the outgoing buffer has byte 0
equal to `0xAA` and bytes 1 and 2 equal to the resulting `__address`, high
byte first. -/
theorem C19_address_validation (cfg : Config) (a : Nat) (rcb wcb ccb : Bool)
    (st : Storage) (h3 : 3 ≤ cfg.MAXIMUM_MESSAGE_LENGTH) (ha : a < 65536) :
    ∃ s, new cfg a rcb wcb ccb st = some s ∧
      (0 < a ∧ a < 0xFFFF → s.__address = a) ∧
      (a = 0 ∨ a = 0xFFFF → s.__address = 0) ∧
      s.__outgoing_message_buffer[0]? = some 0xAA ∧
      s.__outgoing_message_buffer[1]? = some (s.__address / 256) ∧
      s.__outgoing_message_buffer[2]? = some (s.__address % 256) := by
  obtain ⟨s, hs, haddr, _, _, _, _, _, _, _, _, _, _, _, hb0, hb1, hb2, _⟩ :=
    new_eq cfg a rcb wcb ccb st h3
  have hlt : s.__address < 65536 := by
    rw [haddr]; split <;> omega
  refine ⟨s, hs, ?_, ?_, hb0, ?_, hb2⟩
  · intro h
    rw [haddr, if_pos h]
  · intro h
    rw [haddr, if_neg (by omega)]
  · rw [hb1, Nat.mod_eq_of_lt (by omega)]

theorem C19_address_validation_witness :
    ∃ s, new testCfg 0x1000 true true true zeroStorage = some s ∧
      (0 < 0x1000 ∧ 0x1000 < 0xFFFF → s.__address = 0x1000) ∧
      (0x1000 = 0 ∨ 0x1000 = 0xFFFF → s.__address = 0) ∧
      s.__outgoing_message_buffer[0]? = some 0xAA ∧
      s.__outgoing_message_buffer[1]? = some (s.__address / 256) ∧
      s.__outgoing_message_buffer[2]? = some (s.__address % 256) :=
  C19_address_validation testCfg 0x1000 true true true zeroStorage (by decide) (by decide)

/-! ## Lemmas on the storage reader and on `initStorage` -/

theorem restoreLoop_mem (off : Nat) : ∀ (n idx : Nat) (st : Storage),
    (restoreLoop off n idx st).2.mem = st.mem := by
  intro n
  induction n with
  | zero => intro idx st; rfl
  | succ n ih =>
    intro idx st
    simp only [restoreLoop]
    rw [ih]
    rfl

theorem restoreLoop_fst (off : Nat) : ∀ (n idx : Nat) (st : Storage),
    (restoreLoop off n idx st).1 = st.bytesAt off idx n := by
  intro n
  induction n with
  | zero => intro idx st; rfl
  | succ n ih =>
    intro idx st
    simp only [restoreLoop, Storage.bytesAt, List.range_succ_eq_map, List.map_cons,
      List.map_map]
    rw [ih]
    simp only [Storage.bytesAt, Storage.read, Nat.add_zero]
    congr 1
    apply List.map_congr_left
    intro k _
    simp only [Function.comp]
    congr 3
    omega

theorem restoreLoop_word (off o : Nat) (n idx : Nat) (st : Storage) :
    (restoreLoop off n idx st).2.word o = st.word o := by
  simp only [Storage.word, restoreLoop_mem]

theorem restoreLoop_bytesAt (off o i k : Nat) (n idx : Nat) (st : Storage) :
    (restoreLoop off n idx st).2.bytesAt o i k = st.bytesAt o i k := by
  simp only [Storage.bytesAt, restoreLoop_mem]

theorem restore_eq (s : WiLEDProto) (arr : List Nat) (off len : Nat)
    (hr : s.__storage_read_callback = true) (hlen : len ≤ 2 * arr.length) :
    __restoreFromStorage_uint16t s arr off len = some (WiLP_RETURN_SUCCESS,
      wordsOf (s.storage.bytesAt off 0 len ++ (bytesOf arr).drop len),
      { s with storage := (restoreLoop off len 0 s.storage).2 }) := by
  unfold __restoreFromStorage_uint16t
  rw [if_pos hr, if_pos (by rw [bytesOf_length]; exact hlen)]
  simp only [restoreLoop_fst]

theorem restore_word (s : WiLEDProto) (x off : Nat)
    (hr : s.__storage_read_callback = true) :
    __restoreFromStorage_uint16t s [x] off 2 = some (WiLP_RETURN_SUCCESS,
      [s.storage.word off],
      { s with storage := (restoreLoop off 2 0 s.storage).2 }) := by
  rw [restore_eq s [x] off 2 hr (by simp)]
  simp [Storage.bytesAt, Storage.word, bytesOf, wordsOf, List.range_succ]

theorem addWord_eq (s : WiLEDProto) (x off : Nat)
    (hw : s.__storage_write_callback = true) :
    __addToStorage_uint16t s [x] off 2 = some (WiLP_RETURN_SUCCESS,
      { s with storage :=
          (s.storage.write off (x % 256)).write (1 + off) (x / 256 % 256) }) := by
  unfold __addToStorage_uint16t
  rw [if_pos hw]
  simp [addToStorageLoop, bytesOf, Nat.add_comm]

/-- What lines 55 to 61 of `initStorage` do when all three callbacks are set:
the registry arrays, the count and the own reset counter are loaded, the own
reset counter is incremented, its two bytes are written back and the commit
callback is the last call made. -/
theorem initStorageBody_eq (cfg : Config) (s : WiLEDProto)
    (hr : s.__storage_read_callback = true) (hw : s.__storage_write_callback = true)
    (hc : s.__storage_commit_callback = true) :
    ∃ st, initStorageBody cfg s = some { s with
        __address_array := wordsOf
          (s.storage.bytesAt cfg.STORAGE_ADDRESSES_LOCATION 0 (sizeofU16 s.__address_array)
            ++ (bytesOf s.__address_array).drop (sizeofU16 s.__address_array))
        __reset_counter_array := wordsOf
          (s.storage.bytesAt cfg.STORAGE_RESET_LOCATION 0
              (sizeofU16 s.__reset_counter_array)
            ++ (bytesOf s.__reset_counter_array).drop (sizeofU16 s.__reset_counter_array))
        __count_addresses := s.storage.word cfg.STORAGE_COUNT_LOCATION
        __self_reset_counter :=
          (s.storage.word cfg.STORAGE_SELF_RESET_LOCATION + 1) % 65536
        storage := st } ∧
      (∀ a, st.mem a =
        if a = (1 + cfg.STORAGE_SELF_RESET_LOCATION) % 65536 then
          (s.storage.word cfg.STORAGE_SELF_RESET_LOCATION + 1) % 65536 / 256 % 256
        else if a = cfg.STORAGE_SELF_RESET_LOCATION % 65536 then
          (s.storage.word cfg.STORAGE_SELF_RESET_LOCATION + 1) % 65536 % 256
        else s.storage.mem a) ∧
      ∃ earlier, st.calls =
        StorageCall.commit ::
        StorageCall.write ((1 + cfg.STORAGE_SELF_RESET_LOCATION) % 65536)
          ((s.storage.word cfg.STORAGE_SELF_RESET_LOCATION + 1) % 65536 / 256 % 256) ::
        StorageCall.write (cfg.STORAGE_SELF_RESET_LOCATION % 65536)
          ((s.storage.word cfg.STORAGE_SELF_RESET_LOCATION + 1) % 65536 % 256) ::
        earlier := by
  unfold initStorageBody
  rw [restore_eq s _ _ _ hr (sizeofU16_le _)]
  simp only []
  rw [restore_eq _ _ _ _ (by exact hr) (sizeofU16_le _)]
  simp only []
  rw [restore_word _ _ _ (by exact hr)]
  simp only [List.headD_cons]
  rw [restore_word _ _ _ (by exact hr)]
  simp only [List.headD_cons]
  rw [addWord_eq _ _ _ (by exact hw)]
  simp only [callCommit]
  rw [if_pos (by exact hc)]
  simp only [restoreLoop_word, restoreLoop_bytesAt]
  refine ⟨_, rfl, ?_, ?_⟩
  · intro a
    simp only [Storage.commit, Storage.write, restoreLoop_mem, restoreLoop_word,
      Nat.mod_mod]
  · simp only [Storage.commit, Storage.write, restoreLoop_word, Nat.mod_mod]
    exact ⟨_, rfl⟩

theorem word_after_init (cfg : Config) (st st0 : Storage) (v : Nat) (hv : v < 65536)
    (hmem : ∀ a, st.mem a =
      if a = (1 + cfg.STORAGE_SELF_RESET_LOCATION) % 65536 then v / 256 % 256
      else if a = cfg.STORAGE_SELF_RESET_LOCATION % 65536 then v % 256
      else st0.mem a) :
    st.word cfg.STORAGE_SELF_RESET_LOCATION = v := by
  have hne : cfg.STORAGE_SELF_RESET_LOCATION % 65536
      ≠ (1 + cfg.STORAGE_SELF_RESET_LOCATION) % 65536 := by omega
  simp only [Storage.word, hmem, if_neg hne, if_true]
  omega

/-- C16 (boot epoch): with all three callbacks set and whatever the storage
holds, lines 55 to 61 of `initStorage` return an object whose
`__self_reset_counter` is the 16-bit value read from
`STORAGE_SELF_RESET_LOCATION` plus 1 modulo 65536; that value is what the
storage holds at `STORAGE_SELF_RESET_LOCATION` afterwards, and the last three
calls made are the two byte writes and then the commit.  `initStorage` returns
this object when the loaded count is within the address array (its debug
output reads `__address_array[idx]` for every `idx` below the count).  A
second initialisation of any object over the resulting storage obtains the
first own reset counter plus 1 modulo 65536. -/
theorem C16_boot_epoch (cfg : Config) (s : WiLEDProto)
    (hr : s.__storage_read_callback = true) (hw : s.__storage_write_callback = true)
    (hc : s.__storage_commit_callback = true) :
    ∃ s7, initStorageBody cfg s = some s7 ∧
      s7.__self_reset_counter =
        (s.storage.word cfg.STORAGE_SELF_RESET_LOCATION + 1) % 65536 ∧
      s7.storage.word cfg.STORAGE_SELF_RESET_LOCATION = s7.__self_reset_counter ∧
      (∃ earlier, s7.storage.calls =
        StorageCall.commit ::
        StorageCall.write ((1 + cfg.STORAGE_SELF_RESET_LOCATION) % 65536)
          (s7.__self_reset_counter / 256 % 256) ::
        StorageCall.write (cfg.STORAGE_SELF_RESET_LOCATION % 65536)
          (s7.__self_reset_counter % 256) :: earlier) ∧
      (s7.__count_addresses ≤ s7.__address_array.length → initStorage cfg s = some s7) ∧
      ∀ s8 : WiLEDProto, s8.__storage_read_callback = true →
        s8.__storage_write_callback = true → s8.__storage_commit_callback = true →
        s8.storage = s7.storage →
        ∃ t, initStorageBody cfg s8 = some t ∧
          t.__self_reset_counter = (s7.__self_reset_counter + 1) % 65536 := by
  obtain ⟨st, hbody, hmem, hcalls⟩ := initStorageBody_eq cfg s hr hw hc
  have hword := word_after_init cfg st s.storage
    ((s.storage.word cfg.STORAGE_SELF_RESET_LOCATION + 1) % 65536)
    (Nat.mod_lt _ (by decide)) hmem
  refine ⟨_, hbody, rfl, hword, hcalls, ?_, ?_⟩
  · intro hcount
    unfold initStorage
    rw [if_pos ⟨hc, hw⟩, hbody]
    simp only []
    rw [if_pos hcount]
  · intro s8 hr8 hw8 hc8 hst
    obtain ⟨st8, hbody8, _, _⟩ := initStorageBody_eq cfg s8 hr8 hw8 hc8
    refine ⟨_, hbody8, ?_⟩
    show (s8.storage.word cfg.STORAGE_SELF_RESET_LOCATION + 1) % 65536 = _
    rw [hst]
    show (st.word cfg.STORAGE_SELF_RESET_LOCATION + 1) % 65536 = _
    rw [hword]

theorem C16_boot_epoch_witness :
    ∃ s7, initStorageBody testCfg twoPeers = some s7 ∧
      s7.__self_reset_counter =
        (twoPeers.storage.word testCfg.STORAGE_SELF_RESET_LOCATION + 1) % 65536 ∧
      s7.storage.word testCfg.STORAGE_SELF_RESET_LOCATION = s7.__self_reset_counter ∧
      (∃ earlier, s7.storage.calls =
        StorageCall.commit ::
        StorageCall.write ((1 + testCfg.STORAGE_SELF_RESET_LOCATION) % 65536)
          (s7.__self_reset_counter / 256 % 256) ::
        StorageCall.write (testCfg.STORAGE_SELF_RESET_LOCATION % 65536)
          (s7.__self_reset_counter % 256) :: earlier) ∧
      (s7.__count_addresses ≤ s7.__address_array.length →
        initStorage testCfg twoPeers = some s7) ∧
      ∀ s8 : WiLEDProto, s8.__storage_read_callback = true →
        s8.__storage_write_callback = true → s8.__storage_commit_callback = true →
        s8.storage = s7.storage →
        ∃ t, initStorageBody testCfg s8 = some t ∧
          t.__self_reset_counter = (s7.__self_reset_counter + 1) % 65536 :=
  C16_boot_epoch testCfg twoPeers rfl rfl rfl

/-- An engine constructed with all three callbacks over storage that reads
all zeros and then initialised: it exists, its own reset counter is 1, its own
message counter 0, its registry empty and its outgoing buffer as the
constructor left it. -/
theorem fresh_engine (cfg : Config) (a : Nat) (st : Storage)
    (h3 : 3 ≤ cfg.MAXIMUM_MESSAGE_LENGTH) (hzero : ∀ x, st.mem x = 0) :
    ∃ e, (new cfg a true true true st).bind (initStorage cfg) = some e ∧
      e.__address = (if a > 0 ∧ a < 65535 then a else 0) ∧
      e.__self_reset_counter = 1 ∧
      e.__self_message_counter = 0 ∧
      e.__count_addresses = 0 ∧
      e.__storage_commit_callback = true ∧
      e.__last_received_payload.length = cfg.MAXIMUM_MESSAGE_LENGTH ∧
      e.OutgoingReady cfg ∧
      (∀ j, 3 ≤ j → j < cfg.MAXIMUM_MESSAGE_LENGTH →
        e.__outgoing_message_buffer[j]? = some 0) := by
  obtain ⟨s, hs, haddr, hr, hw, hc, hst, _, hm, _, _, hpl, hlen, hb, hb0, hb1, hb2, hz⟩ :=
    new_eq cfg a true true true st h3
  obtain ⟨st7, hbody, _, _⟩ := initStorageBody_eq cfg s hr hw hc
  have hw0 : ∀ o, s.storage.word o = 0 := by
    intro o
    simp only [Storage.word, hst, hzero]
  rw [hs, Option.some_bind]
  unfold initStorage
  rw [if_pos ⟨hc, hw⟩, hbody]
  simp only []
  rw [if_pos (by simp only [hw0]; exact Nat.zero_le _)]
  refine ⟨_, rfl, haddr, ?_, hm, ?_, hc, hpl, ⟨hlen, hb, hb0, hb1, hb2⟩, hz⟩
  · show (s.storage.word cfg.STORAGE_SELF_RESET_LOCATION + 1) % 65536 = 1
    rw [hw0]
  · show s.storage.word cfg.STORAGE_COUNT_LOCATION = 0
    rw [hw0]

/-! ## Sending (claims C12, C13, C14 and C20) -/

/-- C12 (send counters before wrap): an engine constructed with all three
callbacks over storage that reads all zeros and initialised by `initStorage`
exists, and for every `N` with `1 ≤ N ≤ 65535`, after `N` repetitions of
`sendMessageBeacon` followed by `copyToBuffer` the output buffer carries reset
counter 1 in bytes 5 and 6 and message counter `N` in bytes 7 and 8, high byte
first (for `N = 1`: reset counter 1 and message counter 1). -/
theorem C12_send_counters_before_wrap (cfg : Config) (a : Nat) (st : Storage)
    (uptime : Nat → Nat) (buf0 : List Nat) (N : Nat)
    (h14 : 14 ≤ cfg.MAXIMUM_MESSAGE_LENGTH) (h255 : cfg.MAXIMUM_MESSAGE_LENGTH ≤ 255)
    (hzero : ∀ x, st.mem x = 0) (hN1 : 1 ≤ N) (hN : N ≤ 65535) :
    ∃ e, (new cfg a true true true st).bind (initStorage cfg) = some e ∧
      ∃ out e2, sendFrames cfg uptime N e buf0 = some (out, e2) ∧
        out[5]? = some 0 ∧ out[6]? = some 1 ∧
        out[7]? = some (N / 256) ∧ out[8]? = some (N % 256) := by
  obtain ⟨e, he, _, hr, hm, _, _, _, hready, _⟩ :=
    fresh_engine cfg a st (by omega) hzero
  obtain ⟨out, e2, hsend, _, h5, h6, h7, h8, _, _⟩ :=
    sendFrames_counters cfg uptime h14 h255 (N - 1) e buf0 hready.1
  have eN : N - 1 + 1 = N := by omega
  have ec : (e.__self_message_counter + (N - 1) + 1) % 65536 = N := by
    rw [hm]; omega
  rw [eN] at hsend
  rw [ec] at h7 h8
  rw [hr] at h5 h6
  exact ⟨e, he, out, e2, hsend, h5, h6, h7, h8⟩

theorem C12_send_counters_before_wrap_witness :
    ∃ e, (new testCfg 0x1000 true true true zeroStorage).bind (initStorage testCfg)
        = some e ∧
      ∃ out e2, sendFrames testCfg (fun _ => 1234567890) 65535 e (List.replicate 16 0)
          = some (out, e2) ∧
        out[5]? = some 0 ∧ out[6]? = some 1 ∧
        out[7]? = some (65535 / 256) ∧ out[8]? = some (65535 % 256) :=
  C12_send_counters_before_wrap testCfg 0x1000 zeroStorage (fun _ => 1234567890)
    (List.replicate 16 0) 65535 (by decide) (by decide) (fun _ => rfl) (by decide)
    (by decide)

/-- C13, evaluated on the sender of the unit tests `Correct65536MessageCounter`
and `Correct65537MessageCounter`: the 65536th frame carries message counter 0
and reset counter 1 (the tests expect 1 and 2), the 65537th frame carries
message counter 1 and reset counter 1 (the tests expect 2 and 2), and the own
reset counter is still 1 afterwards. -/
theorem C13_no_wrap_handling :
    ∃ e, freshSender = some e ∧
      (∃ out e2, sendFrames testCfg (fun _ => 1234567890) 65536 e (List.replicate 16 0)
          = some (out, e2) ∧
        out[5]? = some 0 ∧ out[6]? = some 1 ∧ out[7]? = some 0 ∧ out[8]? = some 0 ∧
        e2.__self_reset_counter = 1) ∧
      (∃ out e2, sendFrames testCfg (fun _ => 1234567890) 65537 e (List.replicate 16 0)
          = some (out, e2) ∧
        out[5]? = some 0 ∧ out[6]? = some 1 ∧ out[7]? = some 0 ∧ out[8]? = some 1 ∧
        e2.__self_reset_counter = 1) := by
  obtain ⟨e, he, _, hr, hm, _, _, _, hready, _⟩ :=
    fresh_engine testCfg 0x1000 zeroStorage (by decide) (fun _ => rfl)
  refine ⟨e, he, ?_, ?_⟩
  · obtain ⟨out, e2, hsend, _, h5, h6, h7, h8, hr2, _⟩ :=
      sendFrames_counters testCfg (fun _ => 1234567890) (by decide) (by decide) 65535 e
        (List.replicate 16 0) hready.1
    rw [hm] at h7 h8
    rw [hr] at h5 h6 hr2
    exact ⟨out, e2, hsend, h5, h6, h7, h8, hr2⟩
  · obtain ⟨out, e2, hsend, _, h5, h6, h7, h8, hr2, _⟩ :=
      sendFrames_counters testCfg (fun _ => 1234567890) (by decide) (by decide) 65536 e
        (List.replicate 16 0) hready.1
    rw [hm] at h7 h8
    rw [hr] at h5 h6 hr2
    exact ⟨out, e2, hsend, h5, h6, h7, h8, hr2⟩

/-- C14 (wire layout of a sent Beacon): for an object with 16-bit address `a`,
own reset counter `r` and own message counter `m`, whose outgoing buffer is as
the constructor or the previous `copyToBuffer` left it, and every 32-bit
uptime `u`, `sendMessageBeacon(u)` followed by `copyToBuffer` returns a buffer
with byte 0 = `0xAA`, bytes 1 and 2 = `a`, bytes 3 and 4 = `0xFF 0xFF`, bytes 5
and 6 = `r`, bytes 7 and 8 = `(m + 1) mod 65536`, byte 9 = `0x01` and bytes 10
to 13 = `u`, every field high byte first; the outgoing buffer is then again as
required. -/
theorem C14_beacon_wire_layout (cfg : Config) (s : WiLEDProto) (u : Nat)
    (h14 : 14 ≤ cfg.MAXIMUM_MESSAGE_LENGTH) (h255 : cfg.MAXIMUM_MESSAGE_LENGTH ≤ 255)
    (hready : s.OutgoingReady cfg) (ha : s.__address < 65536)
    (hr : s.__self_reset_counter < 65536) (hu : u < 4294967296) :
    ∃ s1 out s2, sendMessageBeacon s u = some (WiLP_RETURN_SUCCESS, s1) ∧
      copyToBuffer cfg s1 = some (out, s2) ∧
      out[0]? = some 0xAA ∧
      out[1]? = some (s.__address / 256) ∧
      out[2]? = some (s.__address % 256) ∧
      out[3]? = some 0xFF ∧ out[4]? = some 0xFF ∧
      out[5]? = some (s.__self_reset_counter / 256) ∧
      out[6]? = some (s.__self_reset_counter % 256) ∧
      out[7]? = some ((s.__self_message_counter + 1) % 65536 / 256) ∧
      out[8]? = some ((s.__self_message_counter + 1) % 65536 % 256) ∧
      out[9]? = some 0x01 ∧
      out[10]? = some (u / 16777216) ∧
      out[11]? = some (u / 65536 % 256) ∧
      out[12]? = some (u / 256 % 256) ∧
      out[13]? = some (u % 256) ∧
      s2.OutgoingReady cfg := by
  obtain ⟨hlen, hb, hb0, hb1, hb2⟩ := hready
  obtain ⟨s1, out, s2, hsend, hcopy, _, h0, h1, h2, h3, h4, h5, h6, h7, h8, h9, h10, h11,
    h12, h13, _, _, hs2, hlen2, hw0, hw1, hw2, _, hwb⟩ := send_copy cfg s u hlen h14 h255
  have haddr2 : s2.__address = s.__address := by rw [hs2]
  refine ⟨s1, out, s2, hsend, hcopy, ?_, ?_, ?_, h3, h4, ?_, h6, h7, h8, h9, ?_, h11, h12,
    h13, ?_⟩
  · rw [h0, hb0]
  · rw [h1, hb1, Nat.mod_eq_of_lt (by omega)]
  · rw [h2, hb2]
  · rw [h5, Nat.mod_eq_of_lt (by omega)]
  · rw [h10, Nat.mod_eq_of_lt (by omega)]
  · refine ⟨hlen2, hwb hb, ?_, ?_, ?_⟩
    · rw [hw0, hb0]
    · rw [hw1, hb1, haddr2]
    · rw [hw2, hb2, haddr2]

/-- C20, evaluated on the sender and uptime of the unit test
`CorrectBeaconMessageSend` (address `0x1000`, reset counter 1, message counter
1, uptime `0x499602D2`): the buffer handed to the caller ends in `0x00 0x00` at
offsets 14 and 15, where the test expects the checksum bytes `0x67 0xAE`. -/
theorem C20_no_checksum_appended :
    (freshSender.bind fun p1 =>
      (sendMessageBeacon p1 0x499602D2).bind fun r =>
        (copyToBuffer testCfg r.2).map fun c => c.1)
      = some [0xAA, 0x10, 0x00, 0xFF, 0xFF, 0x00, 0x01, 0x00, 0x01, 0x01,
          0x49, 0x96, 0x02, 0xD2, 0x00, 0x00] := by
  decide

theorem C14_beacon_wire_layout_witness :
    ∃ s1 out s2, sendMessageBeacon twoPeers 0x499602D2 = some (WiLP_RETURN_SUCCESS, s1) ∧
      copyToBuffer testCfg s1 = some (out, s2) ∧
      out[0]? = some 0xAA ∧
      out[1]? = some (twoPeers.__address / 256) ∧
      out[2]? = some (twoPeers.__address % 256) ∧
      out[3]? = some 0xFF ∧ out[4]? = some 0xFF ∧
      out[5]? = some (twoPeers.__self_reset_counter / 256) ∧
      out[6]? = some (twoPeers.__self_reset_counter % 256) ∧
      out[7]? = some ((twoPeers.__self_message_counter + 1) % 65536 / 256) ∧
      out[8]? = some ((twoPeers.__self_message_counter + 1) % 65536 % 256) ∧
      out[9]? = some 0x01 ∧
      out[10]? = some (0x499602D2 / 16777216) ∧
      out[11]? = some (0x499602D2 / 65536 % 256) ∧
      out[12]? = some (0x499602D2 / 256 % 256) ∧
      out[13]? = some (0x499602D2 % 256) ∧
      s2.OutgoingReady testCfg :=
  C14_beacon_wire_layout testCfg twoPeers 0x499602D2 (by decide) (by decide)
    ⟨rfl, by decide, rfl, rfl, rfl⟩ (by decide) (by decide) (by decide)

/-! ## Receiving, continued (claims C11 and C15) -/

/-- What `processMessage` does with a frame that passes the magic and
destination checks, once the validator has given `(v, s1)`: everything after
line 109. -/
theorem processMessage_checked (cfg : Config) (s : WiLEDProto) (inBuffer : List Nat)
    (hlen : 10 ≤ inBuffer.length) (hbytes : ∀ b ∈ inBuffer, b < 256)
    (hmagic : inBuffer[0]? = some 0xAA)
    (hdest : 256 * inBuffer.getD 3 0 + inBuffer.getD 4 0 = s.__address ∨
      256 * inBuffer.getD 3 0 + inBuffer.getD 4 0 = 0xFFFF)
    (v : WiLPReturn) (s1 : WiLEDProto)
    (hchk : __checkAndUpdateMessageCounter cfg
        (storeHeader s (inBuffer.getD 1 0) (inBuffer.getD 2 0) (inBuffer.getD 3 0)
          (inBuffer.getD 4 0) (inBuffer.getD 5 0) (inBuffer.getD 6 0) (inBuffer.getD 7 0)
          (inBuffer.getD 8 0) (inBuffer.getD 9 0))
        (256 * inBuffer.getD 1 0 + inBuffer.getD 2 0)
        (256 * inBuffer.getD 5 0 + inBuffer.getD 6 0)
        (256 * inBuffer.getD 7 0 + inBuffer.getD 8 0) = some (v, s1)) :
    processMessage cfg s inBuffer =
      if s1.__last_received_type = WiLP_Beacon then
        if 10 + 4 ≤ inBuffer.length ∧ 4 ≤ s1.__last_received_payload.length then
          some (WiLP_RETURN_SUCCESS, { s1 with
            __last_received_message_counter_validation := v
            __last_received_payload_length := 4
            __last_received_payload :=
              (inBuffer.drop 10).take 4 ++ s1.__last_received_payload.drop 4 })
        else none
      else
        some (WiLP_RETURN_UNKNOWN_TYPE, { s1 with
          __last_received_message_counter_validation := v
          __last_received_payload_length := 0 }) := by
  have hb := getD_lt_256 inBuffer hbytes
  have hd : (storeHeader s (inBuffer.getD 1 0) (inBuffer.getD 2 0) (inBuffer.getD 3 0)
          (inBuffer.getD 4 0) (inBuffer.getD 5 0) (inBuffer.getD 6 0) (inBuffer.getD 7 0)
          (inBuffer.getD 8 0) (inBuffer.getD 9 0)).__last_received_destination
      = 256 * inBuffer.getD 3 0 + inBuffer.getD 4 0 := bigEndian16 _ _ (hb 3) (hb 4)
  have hsrc : (storeHeader s (inBuffer.getD 1 0) (inBuffer.getD 2 0) (inBuffer.getD 3 0)
          (inBuffer.getD 4 0) (inBuffer.getD 5 0) (inBuffer.getD 6 0) (inBuffer.getD 7 0)
          (inBuffer.getD 8 0) (inBuffer.getD 9 0)).__last_received_source
      = 256 * inBuffer.getD 1 0 + inBuffer.getD 2 0 := bigEndian16 _ _ (hb 1) (hb 2)
  have hrc : (storeHeader s (inBuffer.getD 1 0) (inBuffer.getD 2 0) (inBuffer.getD 3 0)
          (inBuffer.getD 4 0) (inBuffer.getD 5 0) (inBuffer.getD 6 0) (inBuffer.getD 7 0)
          (inBuffer.getD 8 0) (inBuffer.getD 9 0)).__last_received_reset_counter
      = 256 * inBuffer.getD 5 0 + inBuffer.getD 6 0 := bigEndian16 _ _ (hb 5) (hb 6)
  have hmc : (storeHeader s (inBuffer.getD 1 0) (inBuffer.getD 2 0) (inBuffer.getD 3 0)
          (inBuffer.getD 4 0) (inBuffer.getD 5 0) (inBuffer.getD 6 0) (inBuffer.getD 7 0)
          (inBuffer.getD 8 0) (inBuffer.getD 9 0)).__last_received_message_counter
      = 256 * inBuffer.getD 7 0 + inBuffer.getD 8 0 := bigEndian16 _ _ (hb 7) (hb 8)
  have hown : (storeHeader s (inBuffer.getD 1 0) (inBuffer.getD 2 0) (inBuffer.getD 3 0)
          (inBuffer.getD 4 0) (inBuffer.getD 5 0) (inBuffer.getD 6 0) (inBuffer.getD 7 0)
          (inBuffer.getD 8 0) (inBuffer.getD 9 0)).__address = s.__address := rfl
  unfold processMessage
  simp only [hmagic, ne_eq, not_true_eq_false, if_false,
    getElem?_eq_some_getD inBuffer 1 (by omega), getElem?_eq_some_getD inBuffer 2 (by omega),
    getElem?_eq_some_getD inBuffer 3 (by omega), getElem?_eq_some_getD inBuffer 4 (by omega),
    getElem?_eq_some_getD inBuffer 5 (by omega), getElem?_eq_some_getD inBuffer 6 (by omega),
    getElem?_eq_some_getD inBuffer 7 (by omega), getElem?_eq_some_getD inBuffer 8 (by omega),
    getElem?_eq_some_getD inBuffer 9 (by omega)]
  rw [hd, hown, hsrc, hrc, hmc, if_neg (by omega), hchk]

/-- The header fields that `storeHeader` records survive the validator. -/
theorem header_after_check (cfg : Config) (s : WiLEDProto) (inBuffer : List Nat)
    (hbytes : ∀ b ∈ inBuffer, b < 256) (v : WiLPReturn) (s1 : WiLEDProto)
    (hchk : __checkAndUpdateMessageCounter cfg
        (storeHeader s (inBuffer.getD 1 0) (inBuffer.getD 2 0) (inBuffer.getD 3 0)
          (inBuffer.getD 4 0) (inBuffer.getD 5 0) (inBuffer.getD 6 0) (inBuffer.getD 7 0)
          (inBuffer.getD 8 0) (inBuffer.getD 9 0))
        (256 * inBuffer.getD 1 0 + inBuffer.getD 2 0)
        (256 * inBuffer.getD 5 0 + inBuffer.getD 6 0)
        (256 * inBuffer.getD 7 0 + inBuffer.getD 8 0) = some (v, s1)) :
    s1.__last_received_source = 256 * inBuffer.getD 1 0 + inBuffer.getD 2 0 ∧
    s1.__last_received_destination = 256 * inBuffer.getD 3 0 + inBuffer.getD 4 0 ∧
    s1.__last_received_reset_counter = 256 * inBuffer.getD 5 0 + inBuffer.getD 6 0 ∧
    s1.__last_received_message_counter = 256 * inBuffer.getD 7 0 + inBuffer.getD 8 0 ∧
    s1.__last_received_type = inBuffer.getD 9 0 ∧
    s1.__last_received_payload = s.__last_received_payload := by
  have hb := getD_lt_256 inBuffer hbytes
  have hf := check_frame _ _ _ _ _ _ _ hchk
  obtain ⟨_, _, _, _, _, _, _, f8, f9, f10, f11, f12, _, f14, _⟩ := hf
  refine ⟨?_, ?_, ?_, ?_, ?_, ?_⟩
  · rw [f9]; exact bigEndian16 _ _ (hb 1) (hb 2)
  · rw [f8]; exact bigEndian16 _ _ (hb 3) (hb 4)
  · rw [f11]; exact bigEndian16 _ _ (hb 5) (hb 6)
  · rw [f12]; exact bigEndian16 _ _ (hb 7) (hb 8)
  · rw [f10]; exact Nat.mod_eq_of_lt (hb 9)
  · rw [f14]; rfl

theorem getD_of_getElem? (l : List Nat) (i x : Nat) (h : l[i]? = some x) :
    l.getD i 0 = x := by
  rw [List.getD_eq_getElem?_getD, h]
  rfl

/-- C11 (unknown type): take an object whose arrays have their declared size,
whose count is within the capacity and whose commit callback is set, and a
buffer of at least 10 bytes with magic `0xAA`, destination equal to the own
address or `0xFFFF` and a type byte other than `WiLP_Beacon`, the only type
this source recognises.  Then the validator runs on the decoded source, reset
counter and message counter and gives some `(v, s1)`, and `processMessage`
returns `WiLP_RETURN_UNKNOWN_TYPE` with the header fields recorded as last
received, `v` stored as the validation result, the registry and storage as the
validator left them in `s1`, payload length 0 and the last received payload
unchanged.  Ten bytes suffice: no payload byte of the buffer is read. -/
theorem C11_unknown_type (cfg : Config) (s : WiLEDProto) (inBuffer : List Nat)
    (hs : s.Sized cfg) (hcnt : s.__count_addresses ≤ cfg.MAXIMUM_STORED_ADDRESSES)
    (hc : s.__storage_commit_callback = true)
    (hlen : 10 ≤ inBuffer.length) (hbytes : ∀ b ∈ inBuffer, b < 256)
    (hmagic : inBuffer[0]? = some 0xAA)
    (hdest : 256 * inBuffer.getD 3 0 + inBuffer.getD 4 0 = s.__address ∨
      256 * inBuffer.getD 3 0 + inBuffer.getD 4 0 = 0xFFFF)
    (htype : inBuffer.getD 9 0 ≠ WiLP_Beacon) :
    ∃ v s1 s2, __checkAndUpdateMessageCounter cfg
        (storeHeader s (inBuffer.getD 1 0) (inBuffer.getD 2 0) (inBuffer.getD 3 0)
          (inBuffer.getD 4 0) (inBuffer.getD 5 0) (inBuffer.getD 6 0) (inBuffer.getD 7 0)
          (inBuffer.getD 8 0) (inBuffer.getD 9 0))
        (256 * inBuffer.getD 1 0 + inBuffer.getD 2 0)
        (256 * inBuffer.getD 5 0 + inBuffer.getD 6 0)
        (256 * inBuffer.getD 7 0 + inBuffer.getD 8 0) = some (v, s1) ∧
      processMessage cfg s inBuffer = some (WiLP_RETURN_UNKNOWN_TYPE, s2) ∧
      getLastReceivedSource s2 = 256 * inBuffer.getD 1 0 + inBuffer.getD 2 0 ∧
      getLastReceivedDestination s2 = 256 * inBuffer.getD 3 0 + inBuffer.getD 4 0 ∧
      getLastReceivedResetCounter s2 = 256 * inBuffer.getD 5 0 + inBuffer.getD 6 0 ∧
      getLastReceivedMessageCounter s2 = 256 * inBuffer.getD 7 0 + inBuffer.getD 8 0 ∧
      getLastReceivedType s2 = inBuffer.getD 9 0 ∧
      getLastReceivedMessageCounterValidation s2 = v ∧
      s2.__address_array = s1.__address_array ∧
      s2.__reset_counter_array = s1.__reset_counter_array ∧
      s2.__message_counter_array = s1.__message_counter_array ∧
      s2.__count_addresses = s1.__count_addresses ∧
      s2.storage = s1.storage ∧
      s2.__last_received_payload_length = 0 ∧
      s2.__last_received_payload = s.__last_received_payload := by
  obtain ⟨v, s1, hchk⟩ := check_some cfg
    (storeHeader s (inBuffer.getD 1 0) (inBuffer.getD 2 0) (inBuffer.getD 3 0)
          (inBuffer.getD 4 0) (inBuffer.getD 5 0) (inBuffer.getD 6 0) (inBuffer.getD 7 0)
          (inBuffer.getD 8 0) (inBuffer.getD 9 0))
    (256 * inBuffer.getD 1 0 + inBuffer.getD 2 0)
    (256 * inBuffer.getD 5 0 + inBuffer.getD 6 0)
    (256 * inBuffer.getD 7 0 + inBuffer.getD 8 0) hs hcnt hc
  obtain ⟨hsrc, hdst, hrc, hmc, hty, hpl⟩ := header_after_check cfg s inBuffer hbytes v s1 hchk
  have hpm := processMessage_checked cfg s inBuffer hlen hbytes hmagic hdest v s1 hchk
  rw [if_neg (by rw [hty]; exact htype)] at hpm
  exact ⟨v, s1, _, hchk, hpm, hsrc, hdst, hrc, hmc, hty, rfl, rfl, rfl, rfl, rfl, rfl, rfl,
    hpl⟩

theorem C11_unknown_type_witness :
    ∃ v s1 s2, __checkAndUpdateMessageCounter testCfg
        (storeHeader twoPeers (unknownTypeFrame.getD 1 0) (unknownTypeFrame.getD 2 0)
          (unknownTypeFrame.getD 3 0) (unknownTypeFrame.getD 4 0)
          (unknownTypeFrame.getD 5 0) (unknownTypeFrame.getD 6 0)
          (unknownTypeFrame.getD 7 0) (unknownTypeFrame.getD 8 0)
          (unknownTypeFrame.getD 9 0))
        (256 * unknownTypeFrame.getD 1 0 + unknownTypeFrame.getD 2 0)
        (256 * unknownTypeFrame.getD 5 0 + unknownTypeFrame.getD 6 0)
        (256 * unknownTypeFrame.getD 7 0 + unknownTypeFrame.getD 8 0) = some (v, s1) ∧
      processMessage testCfg twoPeers unknownTypeFrame
        = some (WiLP_RETURN_UNKNOWN_TYPE, s2) ∧
      getLastReceivedSource s2
        = 256 * unknownTypeFrame.getD 1 0 + unknownTypeFrame.getD 2 0 ∧
      getLastReceivedDestination s2
        = 256 * unknownTypeFrame.getD 3 0 + unknownTypeFrame.getD 4 0 ∧
      getLastReceivedResetCounter s2
        = 256 * unknownTypeFrame.getD 5 0 + unknownTypeFrame.getD 6 0 ∧
      getLastReceivedMessageCounter s2
        = 256 * unknownTypeFrame.getD 7 0 + unknownTypeFrame.getD 8 0 ∧
      getLastReceivedType s2 = unknownTypeFrame.getD 9 0 ∧
      getLastReceivedMessageCounterValidation s2 = v ∧
      s2.__address_array = s1.__address_array ∧
      s2.__reset_counter_array = s1.__reset_counter_array ∧
      s2.__message_counter_array = s1.__message_counter_array ∧
      s2.__count_addresses = s1.__count_addresses ∧
      s2.storage = s1.storage ∧
      s2.__last_received_payload_length = 0 ∧
      s2.__last_received_payload = twoPeers.__last_received_payload :=
  C11_unknown_type testCfg twoPeers unknownTypeFrame ⟨rfl, rfl, rfl⟩ (by decide) rfl
    (by decide) (by decide) rfl (Or.inr (by decide)) (by decide)

/-- C15 (send and receive round trip): let a sender with 16-bit address `a`,
own reset counter `r` and own message counter `m` produce `buf` by
`sendMessageBeacon(u)` followed by `copyToBuffer`.  On any receiver, whatever
its own address and registry contents (arrays of declared size, count within
the capacity, commit callback set), `processMessage(buf)` returns
`WiLP_RETURN_SUCCESS`, and the receiver's last received source is `a`, the
destination `0xFFFF`, the type `WiLP_Beacon`, the reset counter `r` and the
message counter `(m + 1) mod 65536`, the values the sender wrote. -/
theorem C15_send_receive_round_trip (cfg : Config) (snd rcv : WiLEDProto) (u : Nat)
    (h14 : 14 ≤ cfg.MAXIMUM_MESSAGE_LENGTH) (h255 : cfg.MAXIMUM_MESSAGE_LENGTH ≤ 255)
    (hready : snd.OutgoingReady cfg) (ha : snd.__address < 65536)
    (hr : snd.__self_reset_counter < 65536)
    (hs : rcv.Sized cfg) (hcnt : rcv.__count_addresses ≤ cfg.MAXIMUM_STORED_ADDRESSES)
    (hc : rcv.__storage_commit_callback = true)
    (hpay : 4 ≤ rcv.__last_received_payload.length) :
    ∃ s1 buf s2, sendMessageBeacon snd u = some (WiLP_RETURN_SUCCESS, s1) ∧
      copyToBuffer cfg s1 = some (buf, s2) ∧
      ∃ r2, processMessage cfg rcv buf = some (WiLP_RETURN_SUCCESS, r2) ∧
        getLastReceivedSource r2 = snd.__address ∧
        getLastReceivedDestination r2 = 0xFFFF ∧
        getLastReceivedType r2 = WiLP_Beacon ∧
        getLastReceivedResetCounter r2 = snd.__self_reset_counter ∧
        getLastReceivedMessageCounter r2 = (snd.__self_message_counter + 1) % 65536 := by
  obtain ⟨hlen, hb, hb0, hb1, hb2⟩ := hready
  obtain ⟨s1, buf, s2, hsend, hcopy, holen, h0, h1, h2, h3, h4, h5, h6, h7, h8, h9, _, _,
    _, _, _, hob, _⟩ := send_copy cfg snd u hlen h14 h255
  rw [hb0] at h0
  rw [hb1] at h1
  rw [hb2] at h2
  have g1 := getD_of_getElem? _ _ _ h1
  have g2 := getD_of_getElem? _ _ _ h2
  have g3 := getD_of_getElem? _ _ _ h3
  have g4 := getD_of_getElem? _ _ _ h4
  have g5 := getD_of_getElem? _ _ _ h5
  have g6 := getD_of_getElem? _ _ _ h6
  have g7 := getD_of_getElem? _ _ _ h7
  have g8 := getD_of_getElem? _ _ _ h8
  have g9 := getD_of_getElem? _ _ _ h9
  have hbytes := hob hb
  have hdest : 256 * buf.getD 3 0 + buf.getD 4 0 = rcv.__address ∨
      256 * buf.getD 3 0 + buf.getD 4 0 = 0xFFFF := Or.inr (by rw [g3, g4])
  obtain ⟨v, r1, hchk⟩ := check_some cfg
    (storeHeader rcv (buf.getD 1 0) (buf.getD 2 0) (buf.getD 3 0) (buf.getD 4 0)
      (buf.getD 5 0) (buf.getD 6 0) (buf.getD 7 0) (buf.getD 8 0) (buf.getD 9 0))
    (256 * buf.getD 1 0 + buf.getD 2 0) (256 * buf.getD 5 0 + buf.getD 6 0)
    (256 * buf.getD 7 0 + buf.getD 8 0) hs hcnt hc
  obtain ⟨hsrc, hdst, hrc, hmc, hty, hpl⟩ := header_after_check cfg rcv buf hbytes v r1 hchk
  have hpm := processMessage_checked cfg rcv buf (by omega) hbytes h0 hdest v r1 hchk
  rw [if_pos (by rw [hty, g9]), if_pos ⟨by omega, by rw [hpl]; exact hpay⟩] at hpm
  refine ⟨s1, buf, s2, hsend, hcopy, _, hpm, ?_, ?_, ?_, ?_, ?_⟩
  · show r1.__last_received_source = _
    rw [hsrc, g1, g2]; omega
  · show r1.__last_received_destination = _
    rw [hdst, g3, g4]
  · show r1.__last_received_type = _
    rw [hty, g9]
  · show r1.__last_received_reset_counter = _
    rw [hrc, g5, g6]; omega
  · show r1.__last_received_message_counter = _
    rw [hmc, g7, g8]; omega

theorem C15_send_receive_round_trip_witness :
    ∃ s1 buf s2, sendMessageBeacon twoPeers 0x499602D2 = some (WiLP_RETURN_SUCCESS, s1) ∧
      copyToBuffer testCfg s1 = some (buf, s2) ∧
      ∃ r2, processMessage testCfg fullRegistry buf = some (WiLP_RETURN_SUCCESS, r2) ∧
        getLastReceivedSource r2 = twoPeers.__address ∧
        getLastReceivedDestination r2 = 0xFFFF ∧
        getLastReceivedType r2 = WiLP_Beacon ∧
        getLastReceivedResetCounter r2 = twoPeers.__self_reset_counter ∧
        getLastReceivedMessageCounter r2 = (twoPeers.__self_message_counter + 1) % 65536 :=
  C15_send_receive_round_trip testCfg twoPeers fullRegistry 0x499602D2 (by decide)
    (by decide) ⟨rfl, by decide, rfl, rfl, rfl⟩ (by decide) (by decide) ⟨rfl, rfl, rfl⟩
    (by decide) rfl (by decide)

/-! ## Persistence of the registry (claims C17 and C18) -/

theorem bytesOf_cons (w : Nat) (ws : List Nat) :
    bytesOf (w :: ws) = w % 256 :: w / 256 % 256 :: bytesOf ws := by
  simp [bytesOf]

theorem wordsOf_bytesOf (arr : List Nat) (h : ∀ x ∈ arr, x < 65536) :
    wordsOf (bytesOf arr) = arr := by
  induction arr with
  | nil => rfl
  | cons w ws ih =>
    rw [bytesOf_cons, wordsOf, ih (fun x hx => h x (List.mem_cons_of_mem _ hx))]
    have hw : w < 65536 := h w (List.mem_cons_self _ _)
    congr 1
    omega

theorem bytesOf_lt (arr : List Nat) : ∀ b ∈ bytesOf arr, b < 256 := by
  induction arr with
  | nil => intro b hb; simp [bytesOf] at hb
  | cons w ws ih =>
    intro b hb
    rw [bytesOf_cons] at hb
    rcases List.mem_cons.mp hb with h | hb
    · rw [h]; exact Nat.mod_lt _ (by decide)
    · rcases List.mem_cons.mp hb with h | hb
      · rw [h]; exact Nat.mod_lt _ (by decide)
      · exact ih b hb

/-- What the loop of `__addToStorage_uint16t` leaves in the store when it does
not wrap around the 16-bit offset space onto itself. -/
theorem addToStorageLoop_mem (p : List Nat) (off : Nat) :
    ∀ (n idx : Nat) (st st2 : Storage), n ≤ 65536 →
      addToStorageLoop p off n idx st = some st2 →
      (∀ k, k < n → ∃ b, p[idx + k]? = some b ∧
        st2.mem ((idx + k + off) % 65536) = b % 256) ∧
      (∀ a, (∀ k, k < n → a ≠ (idx + k + off) % 65536) → st2.mem a = st.mem a) := by
  intro n
  induction n with
  | zero =>
    intro idx st st2 _ h
    simp only [addToStorageLoop, Option.some.injEq] at h
    subst h
    exact ⟨fun k hk => absurd hk (by omega), fun _ _ => rfl⟩
  | succ n ih =>
    intro idx st st2 hn h
    simp only [addToStorageLoop] at h
    split at h
    · exact absurd h (by simp)
    · rename_i b hb
      obtain ⟨hwritten, hother⟩ := ih (idx + 1) (st.write (idx + off) b) st2 (by omega) h
      constructor
      · intro k hk
        by_cases hk0 : k = 0
        · subst hk0
          refine ⟨b, by simpa using hb, ?_⟩
          rw [hother _ (by intro k2 hk2; omega)]
          simp [Storage.write]
        · obtain ⟨b2, hb2, hm2⟩ := hwritten (k - 1) (by omega)
          have e1 : idx + 1 + (k - 1) = idx + k := by omega
          rw [e1] at hb2 hm2
          exact ⟨b2, hb2, hm2⟩
      · intro a ha
        rw [hother a (by
          intro k2 hk2
          have := ha (k2 + 1) (by omega)
          have e : idx + (k2 + 1) + off = idx + 1 + k2 + off := by omega
          rw [e] at this
          exact this)]
        have h0 := ha 0 (by omega)
        simp only [Nat.add_zero] at h0
        simp [Storage.write, h0]

theorem bytesAt_eq (st : Storage) (p : List Nat) (off n : Nat) (hlen : p.length = n)
    (hb : ∀ b ∈ p, b < 256)
    (h : ∀ k, k < n → ∃ b, p[k]? = some b ∧ st.mem ((k + off) % 65536) = b % 256) :
    st.bytesAt off 0 n = p := by
  apply List.ext_getElem?
  intro k
  by_cases hk : k < n
  · obtain ⟨b, hb1, hb2⟩ := h k hk
    have hlt : b < 256 := hb b (List.getElem?_mem hb1)
    simp only [Storage.bytesAt, List.getElem?_map, List.getElem?_range hk, Option.map_some',
      Nat.zero_add]
    rw [hb1, hb2]
    congr 1
    omega
  · rw [List.getElem?_eq_none (by simp [Storage.bytesAt]; omega),
      List.getElem?_eq_none (by omega)]

/-- The first-seen branch with the write and commit callbacks set, with the
storage it leaves spelled out: the whole address array is written, then the
two bytes of the count, then the commit callback is called. -/
theorem checkNotFound_stored (cfg : Config) (s : WiLEDProto) (a mc : Nat)
    (hroom : s.__count_addresses < cfg.MAXIMUM_STORED_ADDRESSES)
    (ha : s.__count_addresses < s.__address_array.length)
    (hm : s.__count_addresses < s.__message_counter_array.length)
    (hw : s.__storage_write_callback = true)
    (hc : s.__storage_commit_callback = true) :
    ∃ st1, addToStorageLoop (bytesOf (s.__address_array.set s.__count_addresses a))
        cfg.STORAGE_ADDRESSES_LOCATION
        (sizeofU16 (s.__address_array.set s.__count_addresses a)) 0 s.storage = some st1 ∧
      checkNotFound cfg s a mc = some (WiLP_RETURN_ADDED_ADDRESS,
        { s with
          __address_array := s.__address_array.set s.__count_addresses a
          __message_counter_array := s.__message_counter_array.set s.__count_addresses mc
          __count_addresses := (s.__count_addresses + 1) % 65536
          storage :=
            ((st1.write cfg.STORAGE_COUNT_LOCATION
                ((s.__count_addresses + 1) % 65536 % 256)).write
              (1 + cfg.STORAGE_COUNT_LOCATION)
                ((s.__count_addresses + 1) % 65536 / 256 % 256)).commit }) := by
  obtain ⟨st1, h1⟩ := addToStorageLoop_some
    (bytesOf (s.__address_array.set s.__count_addresses a)) cfg.STORAGE_ADDRESSES_LOCATION
    (sizeofU16 (s.__address_array.set s.__count_addresses a)) 0 s.storage
    (by rw [bytesOf_length]; have := sizeofU16_le (s.__address_array.set s.__count_addresses a)
        omega)
  refine ⟨st1, h1, ?_⟩
  unfold checkNotFound
  rw [if_pos hroom, if_pos ⟨ha, hm⟩]
  simp only []
  have e1 : __addToStorage_uint16t
      { s with
        __address_array := s.__address_array.set s.__count_addresses a
        __message_counter_array := s.__message_counter_array.set s.__count_addresses mc
        __count_addresses := (s.__count_addresses + 1) % 65536 }
      (s.__address_array.set s.__count_addresses a) cfg.STORAGE_ADDRESSES_LOCATION
      (sizeofU16 (s.__address_array.set s.__count_addresses a))
      = some (WiLP_RETURN_SUCCESS,
        { s with
          __address_array := s.__address_array.set s.__count_addresses a
          __message_counter_array := s.__message_counter_array.set s.__count_addresses mc
          __count_addresses := (s.__count_addresses + 1) % 65536
          storage := st1 }) := by
    unfold __addToStorage_uint16t
    rw [if_pos (by exact hw)]
    simp only []
    rw [h1]
  rw [e1]
  simp only []
  rw [addWord_eq _ _ _ (by exact hw)]
  simp only [callCommit]
  rw [if_pos (by exact hc)]

theorem wordsOf_length : ∀ (n : Nat) (l : List Nat), l.length = 2 * n →
    (wordsOf l).length = n := by
  intro n
  induction n with
  | zero =>
    intro l h
    have : l = [] := List.length_eq_zero.mp (by omega)
    subst this
    rfl
  | succ n ih =>
    intro l h
    match l, h with
    | a :: b :: rest, h =>
      simp only [wordsOf, List.length_cons]
      rw [ih rest (by simp only [List.length_cons] at h; omega)]

theorem bytesAt_length (st : Storage) (off idx n : Nat) :
    (st.bytesAt off idx n).length = n := by
  simp [Storage.bytesAt]

theorem checkMatched_not_added (cfg : Config) (s s2 : WiLEDProto) (i rc mc : Nat)
    (v : WiLPReturn) (h : checkMatched cfg s i rc mc = some (v, s2)) :
    v ≠ WiLP_RETURN_ADDED_ADDRESS := by
  unfold checkMatched at h
  split at h
  · exact absurd h (by simp)
  · split at h
    · dsimp only at h
      split at h
      · exact absurd h (by simp)
      · split at h
        · exact absurd h (by simp)
        · split at h
          · simp only [Option.some.injEq, Prod.mk.injEq] at h
            rw [← h.1]; decide
          · exact absurd h (by simp)
    · split at h
      · simp only [Option.some.injEq, Prod.mk.injEq] at h
        rw [← h.1]; decide
      · split at h
        · exact absurd h (by simp)
        · split at h
          · simp only [Option.some.injEq, Prod.mk.injEq] at h
            rw [← h.1]; decide
          · simp only [Option.some.injEq, Prod.mk.injEq] at h
            rw [← h.1]; decide

/-- A validation of an address that has a record in the registry gives a
result, and the result is not `WiLP_RETURN_ADDED_ADDRESS`. -/
theorem check_known_not_added (cfg : Config) (s : WiLEDProto) (i addr R M : Nat)
    (h : s.HasRecord i addr R M) (hc : s.__storage_commit_callback = true)
    (rc mc : Nat) :
    ∃ v t, __checkAndUpdateMessageCounter cfg s addr rc mc = some (v, t) ∧
      v ≠ WiLP_RETURN_ADDED_ADDRESS := by
  rw [check_found cfg s addr rc mc i R M h]
  obtain ⟨_, _, _, hR, hM⟩ := h
  have hlenM : i < s.__message_counter_array.length := by
    by_contra hcon
    rw [List.getElem?_eq_none (by omega)] at hM
    exact absurd hM (by simp)
  have hlenR : i < s.__reset_counter_array.length := by
    by_contra hcon
    rw [List.getElem?_eq_none (by omega)] at hR
    exact absurd hR (by simp)
  obtain ⟨v, t, hvt⟩ := checkMatched_some cfg s i rc mc hlenR hlenM hc
  exact ⟨v, t, hvt, checkMatched_not_added cfg _ _ _ _ _ _ hvt⟩

/-- C18 (registry membership survives reboot): take an object with arrays of
declared size holding 16-bit addresses, with the write and commit callbacks
set, and persisted regions for the address table and the count that lie in
the 16-bit offset space and do not overlap.  A validation of an unseen 16-bit
address `addr` with room in the registry returns `WiLP_RETURN_ADDED_ADDRESS`;
every object with all three callbacks that is then initialised by
`initStorage` over the resulting storage has the same `__count_addresses` and
the same `__address_array`, and each validation it makes of `addr` returns a
result other than `WiLP_RETURN_ADDED_ADDRESS`. -/
theorem C18_membership_survives_reboot (cfg : Config) (s : WiLEDProto) (addr rc mc : Nat)
    (hs : s.Sized cfg) (hun : s.Unseen addr)
    (hroom : s.__count_addresses < cfg.MAXIMUM_STORED_ADDRESSES)
    (hw : s.__storage_write_callback = true) (hc : s.__storage_commit_callback = true)
    (hu16 : ∀ x ∈ s.__address_array, x < 65536) (haddr : addr < 65536)
    (hmax : 2 * cfg.MAXIMUM_STORED_ADDRESSES < 65536)
    (hA : cfg.STORAGE_ADDRESSES_LOCATION + 2 * cfg.MAXIMUM_STORED_ADDRESSES ≤ 65536)
    (hC : cfg.STORAGE_COUNT_LOCATION + 2 ≤ 65536)
    (hdisj : cfg.STORAGE_ADDRESSES_LOCATION + 2 * cfg.MAXIMUM_STORED_ADDRESSES
        ≤ cfg.STORAGE_COUNT_LOCATION ∨
      cfg.STORAGE_COUNT_LOCATION + 2 ≤ cfg.STORAGE_ADDRESSES_LOCATION) :
    ∃ s1, __checkAndUpdateMessageCounter cfg s addr rc mc =
        some (WiLP_RETURN_ADDED_ADDRESS, s1) ∧
      ∀ s8 : WiLEDProto, s8.Sized cfg → s8.__storage_read_callback = true →
        s8.__storage_write_callback = true → s8.__storage_commit_callback = true →
        s8.storage = s1.storage →
        ∃ s9, initStorage cfg s8 = some s9 ∧
          s9.__count_addresses = s1.__count_addresses ∧
          s9.__address_array = s1.__address_array ∧
          ∀ rc2 mc2, ∃ v t, __checkAndUpdateMessageCounter cfg s9 addr rc2 mc2 =
              some (v, t) ∧ v ≠ WiLP_RETURN_ADDED_ADDRESS := by
  obtain ⟨hsA, hsR, hsM⟩ := hs
  have hcl : s.__count_addresses < s.__address_array.length := by rw [hsA]; exact hroom
  obtain ⟨st1, hloop, hnf⟩ := checkNotFound_stored cfg s addr mc hroom hcl
    (by rw [hsM]; exact hroom) hw hc
  rw [check_unseen cfg s addr rc mc hun]
  refine ⟨_, hnf, ?_⟩
  intro s8 hs8 hr8 hw8 hc8 hst
  obtain ⟨hs8A, hs8R, hs8M⟩ := hs8
  have hst : s8.storage =
      ((st1.write cfg.STORAGE_COUNT_LOCATION
          ((s.__count_addresses + 1) % 65536 % 256)).write
        (1 + cfg.STORAGE_COUNT_LOCATION)
          ((s.__count_addresses + 1) % 65536 / 256 % 256)).commit := hst
  -- the address table as written
  have hlenA : (s.__address_array.set s.__count_addresses addr).length
      = cfg.MAXIMUM_STORED_ADDRESSES := by rw [List.length_set]; exact hsA
  have hsz : sizeofU16 (s.__address_array.set s.__count_addresses addr)
      = 2 * cfg.MAXIMUM_STORED_ADDRESSES := by
    unfold sizeofU16; rw [hlenA]; omega
  have hsz8 : sizeofU16 s8.__address_array = 2 * cfg.MAXIMUM_STORED_ADDRESSES := by
    unfold sizeofU16; rw [hs8A]; omega
  have hsz8R : sizeofU16 s8.__reset_counter_array = 2 * cfg.MAXIMUM_STORED_ADDRESSES := by
    unfold sizeofU16; rw [hs8R]; omega
  rw [hsz] at hloop
  obtain ⟨hwritten, _⟩ := addToStorageLoop_mem _ _ _ _ _ _ (by omega) hloop
  have hmemA : ∀ k, k < 2 * cfg.MAXIMUM_STORED_ADDRESSES →
      ∃ b, (bytesOf (s.__address_array.set s.__count_addresses addr))[k]? = some b ∧
        s8.storage.mem ((k + cfg.STORAGE_ADDRESSES_LOCATION) % 65536) = b % 256 := by
    intro k hk
    obtain ⟨b, hb1, hb2⟩ := hwritten k hk
    rw [Nat.zero_add] at hb1 hb2
    refine ⟨b, hb1, ?_⟩
    rw [hst, ← hb2]
    simp only [Storage.commit, Storage.write]
    rw [if_neg (by omega), if_neg (by omega)]
  have hbytes : s8.storage.bytesAt cfg.STORAGE_ADDRESSES_LOCATION 0
      (2 * cfg.MAXIMUM_STORED_ADDRESSES)
      = bytesOf (s.__address_array.set s.__count_addresses addr) :=
    bytesAt_eq _ _ _ _ (by rw [bytesOf_length, hlenA]) (bytesOf_lt _) hmemA
  have hu16set : ∀ x ∈ s.__address_array.set s.__count_addresses addr, x < 65536 := by
    intro x hx
    rcases List.mem_or_eq_of_mem_set hx with h | h
    · exact hu16 x h
    · rw [h]; exact haddr
  have hwordC : s8.storage.word cfg.STORAGE_COUNT_LOCATION
      = (s.__count_addresses + 1) % 65536 := by
    have hne : cfg.STORAGE_COUNT_LOCATION % 65536
        ≠ (1 + cfg.STORAGE_COUNT_LOCATION) % 65536 := by omega
    rw [hst]
    simp only [Storage.word, Storage.commit, Storage.write, if_neg hne, if_true]
    omega
  obtain ⟨st9, hbody, _, _⟩ := initStorageBody_eq cfg s8 hr8 hw8 hc8
  rw [hsz8, hsz8R, hbytes, hwordC,
    List.drop_eq_nil_of_le (by rw [bytesOf_length, hs8A]),
    List.drop_eq_nil_of_le (by rw [bytesOf_length, hs8R]), List.append_nil, List.append_nil,
    wordsOf_bytesOf _ hu16set] at hbody
  have hcnt1 : (s.__count_addresses + 1) % 65536 = s.__count_addresses + 1 := by omega
  unfold initStorage
  rw [if_pos ⟨hc8, hw8⟩, hbody]
  simp only []
  rw [if_pos (by rw [hlenA]; omega)]
  refine ⟨_, rfl, rfl, rfl, ?_⟩
  intro rc2 mc2
  have hRlen : (wordsOf (s8.storage.bytesAt cfg.STORAGE_RESET_LOCATION 0
      (2 * cfg.MAXIMUM_STORED_ADDRESSES))).length = cfg.MAXIMUM_STORED_ADDRESSES :=
    wordsOf_length _ _ (bytesAt_length _ _ _ _)
  have hrec : WiLEDProto.HasRecord
      { s8 with
        __address_array := s.__address_array.set s.__count_addresses addr
        __reset_counter_array := wordsOf (s8.storage.bytesAt cfg.STORAGE_RESET_LOCATION 0
          (2 * cfg.MAXIMUM_STORED_ADDRESSES))
        __count_addresses := (s.__count_addresses + 1) % 65536
        __self_reset_counter :=
          (s8.storage.word cfg.STORAGE_SELF_RESET_LOCATION + 1) % 65536
        storage := st9 }
      s.__count_addresses addr
      ((wordsOf (s8.storage.bytesAt cfg.STORAGE_RESET_LOCATION 0
        (2 * cfg.MAXIMUM_STORED_ADDRESSES))).getD s.__count_addresses 0)
      (s8.__message_counter_array.getD s.__count_addresses 0) := by
    refine ⟨?_, ?_, ?_, ?_, ?_⟩
    · show s.__count_addresses < (s.__count_addresses + 1) % 65536
      omega
    · show (s.__address_array.set s.__count_addresses addr)[s.__count_addresses]? = _
      rw [List.getElem?_set_self hcl]
    · intro j hj
      show ∃ x, (s.__address_array.set s.__count_addresses addr)[j]? = some x ∧ x ≠ addr
      rw [List.getElem?_set_ne (by omega)]
      exact hun j hj
    · exact getElem?_eq_some_getD _ _ (by rw [hRlen]; exact hroom)
    · exact getElem?_eq_some_getD _ _ (by rw [hs8M]; exact hroom)
  exact check_known_not_added cfg _ _ addr _ _ hrec hc8 rc2 mc2

theorem C18_membership_survives_reboot_witness :
    ∃ s1, __checkAndUpdateMessageCounter testCfg twoPeers 0x4000 1 1 =
        some (WiLP_RETURN_ADDED_ADDRESS, s1) ∧
      ∀ s8 : WiLEDProto, s8.Sized testCfg → s8.__storage_read_callback = true →
        s8.__storage_write_callback = true → s8.__storage_commit_callback = true →
        s8.storage = s1.storage →
        ∃ s9, initStorage testCfg s8 = some s9 ∧
          s9.__count_addresses = s1.__count_addresses ∧
          s9.__address_array = s1.__address_array ∧
          ∀ rc2 mc2, ∃ v t, __checkAndUpdateMessageCounter testCfg s9 0x4000 rc2 mc2 =
              some (v, t) ∧ v ≠ WiLP_RETURN_ADDED_ADDRESS :=
  C18_membership_survives_reboot testCfg twoPeers 0x4000 1 1 ⟨rfl, rfl, rfl⟩
    (by
      intro j hj
      have hj2 : j < 2 := hj
      interval_cases j
      · exact ⟨0x1000, rfl, by decide⟩
      · exact ⟨0x3000, rfl, by decide⟩)
    (by decide) rfl rfl (by decide) (by decide) (by decide) (by decide) (by decide)
    (Or.inl (by decide))

/-- C17, evaluated: the fresh receiver learns the peer `0x1000` and then
accepts reset counter 5 from it on the peer-rebooted path (result
`WiLP_RETURN_SUCCESS`, stored reset counter 5, commit called).  A new engine
constructed over the resulting storage and initialised by `initStorage` has the
peer in its registry (count 1, address `0x1000` in slot 0) with stored reset
counter 0, not 5, and validating reset counter 3 from that peer returns
`WiLP_RETURN_SUCCESS`, not `WiLP_RETURN_INVALID_RST_CTR`. -/
theorem C17_peer_epoch_not_persisted :
    (freshReceiver.bind fun r0 =>
      (__checkAndUpdateMessageCounter testCfg r0 0x1000 1 1).bind fun a1 =>
        (__checkAndUpdateMessageCounter testCfg a1.2 0x1000 5 1).bind fun a2 =>
          ((new testCfg 0x2000 true true true a2.2.storage).bind
              (initStorage testCfg)).bind fun r3 =>
            (__checkAndUpdateMessageCounter testCfg r3 0x1000 3 1).map fun a4 =>
              (a2.1, a2.2.__reset_counter_array[0]?, a2.2.storage.calls.head?,
               r3.__count_addresses, r3.__address_array[0]?,
               r3.__reset_counter_array[0]?, a4.1))
      = some (WiLP_RETURN_SUCCESS, some 5, some StorageCall.commit,
          1, some 0x1000, some 0, WiLP_RETURN_SUCCESS) := by
  rfl

/-! ## What the validator does to the registry -/

/-- The matched branch, case by case: what it returns and what it changes. -/
theorem checkMatched_effect (cfg : Config) (s s2 : WiLEDProto) (i rc mc : Nat)
    (v : WiLPReturn) (h : checkMatched cfg s i rc mc = some (v, s2)) :
    s2.__address_array = s.__address_array ∧
    s2.__count_addresses = s.__count_addresses ∧
    ∃ R, s.__reset_counter_array[i]? = some R ∧
      ((R < rc ∧ v = WiLP_RETURN_SUCCESS ∧ i < s.__message_counter_array.length ∧
          s2.__reset_counter_array = s.__reset_counter_array.set i rc ∧
          s2.__message_counter_array = s.__message_counter_array.set i mc) ∨
       (rc < R ∧ v = WiLP_RETURN_INVALID_RST_CTR ∧ s2 = s) ∨
       (R = rc ∧ ∃ M, s.__message_counter_array[i]? = some M ∧
          ((M < mc ∧ v = WiLP_RETURN_SUCCESS ∧
              s2.__reset_counter_array = s.__reset_counter_array ∧
              s2.__message_counter_array = s.__message_counter_array.set i mc) ∨
           (mc ≤ M ∧ v = WiLP_RETURN_INVALID_MSG_CTR ∧ s2 = s)))) := by
  unfold checkMatched at h
  split at h
  · exact absurd h (by simp)
  · rename_i R hR
    split at h
    · rename_i hlt
      dsimp only at h
      split at h
      · exact absurd h (by simp)
      · rename_i r2 s3 h3
        have f3 := addToStorage_frame _ _ _ _ _ _ h3
        split at h
        · exact absurd h (by simp)
        · rename_i s4 h4
          have f4 := callCommit_frame _ _ h4
          split at h
          · rename_i hi
            simp only [Option.some.injEq, Prod.mk.injEq] at h
            obtain ⟨hv, rfl⟩ := h
            rw [f4, f3] at hi ⊢
            exact ⟨rfl, rfl, R, hR, Or.inl ⟨hlt, hv.symm, hi, rfl, rfl⟩⟩
          · exact absurd h (by simp)
    · rename_i hnlt
      split at h
      · rename_i hne
        simp only [Option.some.injEq, Prod.mk.injEq] at h
        obtain ⟨hv, rfl⟩ := h
        exact ⟨rfl, rfl, R, hR, Or.inr (Or.inl ⟨by omega, hv.symm, rfl⟩)⟩
      · rename_i heq
        have hRrc : R = rc := by
          by_contra hcon
          exact heq hcon
        split at h
        · exact absurd h (by simp)
        · rename_i M hM
          split at h
          · rename_i hmlt
            simp only [Option.some.injEq, Prod.mk.injEq] at h
            obtain ⟨hv, rfl⟩ := h
            exact ⟨rfl, rfl, R, hR, Or.inr (Or.inr ⟨hRrc, M, hM,
              Or.inl ⟨hmlt, hv.symm, rfl, rfl⟩⟩)⟩
          · rename_i hmge
            simp only [Option.some.injEq, Prod.mk.injEq] at h
            obtain ⟨hv, rfl⟩ := h
            exact ⟨rfl, rfl, R, hR, Or.inr (Or.inr ⟨hRrc, M, hM,
              Or.inr ⟨by omega, hv.symm, rfl⟩⟩)⟩

/-- The branch after the loop, case by case. -/
theorem checkNotFound_effect (cfg : Config) (s s2 : WiLEDProto) (a mc : Nat)
    (v : WiLPReturn) (h : checkNotFound cfg s a mc = some (v, s2)) :
    (s.__count_addresses < cfg.MAXIMUM_STORED_ADDRESSES ∧
      s.__count_addresses < s.__address_array.length ∧
      s.__count_addresses < s.__message_counter_array.length ∧
      v = WiLP_RETURN_ADDED_ADDRESS ∧
      s2.__address_array = s.__address_array.set s.__count_addresses a ∧
      s2.__message_counter_array = s.__message_counter_array.set s.__count_addresses mc ∧
      s2.__reset_counter_array = s.__reset_counter_array ∧
      s2.__count_addresses = (s.__count_addresses + 1) % 65536) ∨
    (cfg.MAXIMUM_STORED_ADDRESSES ≤ s.__count_addresses ∧
      v = WiLP_RETURN_AT_MAX_ADDRESSES ∧ s2 = s) := by
  unfold checkNotFound at h
  split at h
  · rename_i hroom
    split at h
    · rename_i hlen
      dsimp only at h
      split at h
      · exact absurd h (by simp)
      · rename_i r2 s3 h3
        have f3 := addToStorage_frame _ _ _ _ _ _ h3
        split at h
        · exact absurd h (by simp)
        · rename_i r4 s4 h4
          have f4 := addToStorage_frame _ _ _ _ _ _ h4
          split at h
          · exact absurd h (by simp)
          · rename_i s5 h5
            have f5 := callCommit_frame _ _ h5
            simp only [Option.some.injEq, Prod.mk.injEq] at h
            obtain ⟨hv, rfl⟩ := h
            rw [f5, f4, f3]
            exact Or.inl ⟨hroom, hlen.1, hlen.2, hv.symm, rfl, rfl, rfl, rfl⟩
    · exact absurd h (by simp)
  · rename_i hfull
    simp only [Option.some.injEq, Prod.mk.injEq] at h
    obtain ⟨hv, rfl⟩ := h
    exact Or.inr ⟨by omega, hv.symm, rfl⟩

theorem checkLoop_cases (cfg : Config) (s s2 : WiLEDProto) (a rc mc : Nat)
    (v : WiLPReturn) :
    ∀ (n idx : Nat), idx + n = s.__count_addresses →
      (∀ j, j < idx → ∃ x, s.__address_array[j]? = some x ∧ x ≠ a) →
      checkLoop cfg s a rc mc n idx = some (v, s2) →
      (∃ i, i < s.__count_addresses ∧ s.__address_array[i]? = some a ∧
          (∀ j, j < i → ∃ x, s.__address_array[j]? = some x ∧ x ≠ a) ∧
          checkMatched cfg s i rc mc = some (v, s2)) ∨
      (s.Unseen a ∧ checkNotFound cfg s a mc = some (v, s2)) := by
  intro n
  induction n with
  | zero =>
    intro idx hidx hbefore h
    refine Or.inr ⟨?_, h⟩
    intro j hj
    exact hbefore j (by omega)
  | succ n ih =>
    intro idx hidx hbefore h
    simp only [checkLoop] at h
    split at h
    · exact absurd h (by simp)
    · rename_i x hx
      split at h
      · rename_i hxa
        exact Or.inl ⟨idx, by omega, by rw [hx, hxa], hbefore, h⟩
      · rename_i hxa
        apply ih (idx + 1) (by omega) _ h
        intro j hj
        by_cases hji : j = idx
        · subst hji
          exact ⟨x, hx, hxa⟩
        · exact hbefore j (by omega)

/-- Every result of the validator comes from the matched branch at the first
index holding the address, or from the branch after the loop with the address
unseen. -/
theorem check_cases (cfg : Config) (s s2 : WiLEDProto) (a rc mc : Nat) (v : WiLPReturn)
    (h : __checkAndUpdateMessageCounter cfg s a rc mc = some (v, s2)) :
    (∃ i, i < s.__count_addresses ∧ s.__address_array[i]? = some a ∧
        (∀ j, j < i → ∃ x, s.__address_array[j]? = some x ∧ x ≠ a) ∧
        checkMatched cfg s i rc mc = some (v, s2)) ∨
    (s.Unseen a ∧ checkNotFound cfg s a mc = some (v, s2)) :=
  checkLoop_cases cfg s s2 a rc mc v _ 0 (by omega)
    (fun j hj => absurd hj (Nat.not_lt_zero j)) h

theorem unseen_not_mem (s : WiLEDProto) (a : Nat) (h : s.Unseen a) :
    a ∉ s.__address_array.take s.__count_addresses := by
  intro hmem
  rw [List.mem_take_iff_getElem] at hmem
  obtain ⟨i, hm, hi⟩ := hmem
  obtain ⟨x, hx, hne⟩ := h i (by omega)
  rw [List.getElem?_eq_getElem (by omega)] at hx
  exact hne (by rw [← Option.some.inj hx, hi])

theorem nodup_take_set (l : List Nat) (c a : Nat) (hc : c < l.length)
    (hnd : (l.take c).Nodup) (hn : a ∉ l.take c) : ((l.set c a).take (c + 1)).Nodup := by
  have e : (l.set c a).take (c + 1) = l.take c ++ [a] := by
    rw [List.take_succ, List.getElem?_set_self hc, List.set_take,
      List.set_eq_of_length_le (by simp)]
    rfl
  rw [e]
  exact List.Nodup.append hnd (List.nodup_singleton a) (List.disjoint_singleton.2 hn)

/-- Every result of `processMessage`, by the line that returns it. -/
theorem processMessage_cases (cfg : Config) (s s3 : WiLEDProto) (inBuffer : List Nat)
    (r : WiLPReturn) (h : processMessage cfg s inBuffer = some (r, s3)) :
    (r = WiLP_RETURN_INVALID_BUFFER ∧ s3 = { s with
        __last_received_destination := 0
        __last_received_source := 0
        __last_received_type := 0
        __last_received_reset_counter := 0
        __last_received_message_counter := 0 }) ∨
    (∃ b1 b2 b3 b4 b5 b6 b7 b8 b9, r = WiLP_RETURN_NOT_THIS_DEST ∧
      s3 = storeHeader s b1 b2 b3 b4 b5 b6 b7 b8 b9) ∨
    (∃ b1 b2 b3 b4 b5 b6 b7 b8 b9 v s1,
      __checkAndUpdateMessageCounter cfg (storeHeader s b1 b2 b3 b4 b5 b6 b7 b8 b9)
        (storeHeader s b1 b2 b3 b4 b5 b6 b7 b8 b9).__last_received_source
        (storeHeader s b1 b2 b3 b4 b5 b6 b7 b8 b9).__last_received_reset_counter
        (storeHeader s b1 b2 b3 b4 b5 b6 b7 b8 b9).__last_received_message_counter
        = some (v, s1) ∧
      ((r = WiLP_RETURN_SUCCESS ∧ s3 = { s1 with
          __last_received_message_counter_validation := v
          __last_received_payload_length := 4
          __last_received_payload :=
            (inBuffer.drop 10).take 4 ++ s1.__last_received_payload.drop 4 }) ∨
       (r = WiLP_RETURN_UNKNOWN_TYPE ∧ s3 = { s1 with
          __last_received_message_counter_validation := v
          __last_received_payload_length := 0 }))) := by
  unfold processMessage at h
  split at h
  · exact absurd h (by simp)
  · split at h
    · simp only [Option.some.injEq, Prod.mk.injEq] at h
      exact Or.inl ⟨h.1.symm, h.2.symm⟩
    · split at h
      · rename_i b1 b2 b3 b4 b5 b6 b7 b8 b9 _ _ _ _ _ _ _ _ _
        dsimp only at h
        split at h
        · simp only [Option.some.injEq, Prod.mk.injEq] at h
          exact Or.inr (Or.inl ⟨b1, b2, b3, b4, b5, b6, b7, b8, b9, h.1.symm, h.2.symm⟩)
        · split at h
          · exact absurd h (by simp)
          · rename_i v s1 hchk
            refine Or.inr (Or.inr ⟨b1, b2, b3, b4, b5, b6, b7, b8, b9, v, s1, hchk, ?_⟩)
            split at h
            · split at h
              · simp only [Option.some.injEq, Prod.mk.injEq] at h
                exact Or.inl ⟨h.1.symm, h.2.symm⟩
              · exact absurd h (by simp)
            · simp only [Option.some.injEq, Prod.mk.injEq] at h
              exact Or.inr ⟨h.1.symm, h.2.symm⟩
      · exact absurd h (by simp)

/-- The validator keeps the sizes of the three registry arrays. -/
theorem check_lengths (cfg : Config) (s s2 : WiLEDProto) (a rc mc : Nat) (v : WiLPReturn)
    (h : __checkAndUpdateMessageCounter cfg s a rc mc = some (v, s2)) :
    s2.__address_array.length = s.__address_array.length ∧
    s2.__reset_counter_array.length = s.__reset_counter_array.length ∧
    s2.__message_counter_array.length = s.__message_counter_array.length := by
  rcases check_cases cfg s s2 a rc mc v h with ⟨i, _, _, _, hm⟩ | ⟨_, hnf⟩
  · obtain ⟨hA, _, R, _, hcase⟩ := checkMatched_effect cfg s s2 i rc mc v hm
    rcases hcase with ⟨_, _, _, hR2, hM2⟩ | ⟨_, _, rfl⟩ | ⟨_, M, _, hcase2⟩
    · rw [hA, hR2, hM2]; simp
    · exact ⟨rfl, rfl, rfl⟩
    · rcases hcase2 with ⟨_, _, hR2, hM2⟩ | ⟨_, _, rfl⟩
      · rw [hA, hR2, hM2]; simp
      · exact ⟨rfl, rfl, rfl⟩
  · rcases checkNotFound_effect cfg s s2 a mc v hnf with
      ⟨_, _, _, _, hA, hM2, hR2, _⟩ | ⟨_, _, rfl⟩
    · rw [hA, hR2, hM2]; simp
    · exact ⟨rfl, rfl, rfl⟩

/-- The validator keeps the count within the capacity and the registered
addresses pairwise distinct. -/
theorem check_wellformed (cfg : Config) (s s2 : WiLEDProto) (a rc mc : Nat) (v : WiLPReturn)
    (hcnt : s.__count_addresses ≤ cfg.MAXIMUM_STORED_ADDRESSES)
    (hnd : (s.__address_array.take s.__count_addresses).Nodup)
    (h : __checkAndUpdateMessageCounter cfg s a rc mc = some (v, s2)) :
    s2.__count_addresses ≤ cfg.MAXIMUM_STORED_ADDRESSES ∧
    (s2.__address_array.take s2.__count_addresses).Nodup := by
  rcases check_cases cfg s s2 a rc mc v h with ⟨i, _, _, _, hm⟩ | ⟨hun, hnf⟩
  · obtain ⟨hA, hC, _⟩ := checkMatched_effect cfg s s2 i rc mc v hm
    rw [hA, hC]
    exact ⟨hcnt, hnd⟩
  · rcases checkNotFound_effect cfg s s2 a mc v hnf with
      ⟨hroom, hlen, _, _, hA, _, _, hC⟩ | ⟨_, _, rfl⟩
    · rw [hA, hC]
      by_cases hwrap : s.__count_addresses + 1 < 65536
      · rw [Nat.mod_eq_of_lt hwrap]
        exact ⟨hroom, nodup_take_set _ _ _ hlen hnd (unseen_not_mem s a hun)⟩
      · have hlt : (s.__count_addresses + 1) % 65536 < s.__count_addresses := by omega
        refine ⟨by omega, ?_⟩
        rw [List.take_set_of_lt _ _ hlt]
        have e : List.take ((s.__count_addresses + 1) % 65536)
            (List.take s.__count_addresses s.__address_array)
            = List.take ((s.__count_addresses + 1) % 65536) s.__address_array := by
          rw [List.take_take, Nat.min_eq_left (Nat.le_of_lt hlt)]
        rw [← e]
        exact hnd.sublist (List.take_sublist _ _)
    · exact ⟨hcnt, hnd⟩

/-! ## Registry invariants (claims C28, C29 and C30) -/

/-- C28 (registry well-formedness is preserved): let `__count_addresses` be at
most `MAXIMUM_STORED_ADDRESSES` and the first `__count_addresses` entries of
`__address_array` pairwise distinct.  Then `__checkAndUpdateMessageCounter`
returns on any input (arrays of declared size, commit callback set), and after
every call of it, and after every call of `processMessage` on any buffer, both
facts still hold. -/
theorem C28_registry_wellformed_preserved (cfg : Config) (s : WiLEDProto) (a rc mc : Nat)
    (hs : s.Sized cfg) (hc : s.__storage_commit_callback = true)
    (hcnt : s.__count_addresses ≤ cfg.MAXIMUM_STORED_ADDRESSES)
    (hnd : (s.__address_array.take s.__count_addresses).Nodup) :
    (∃ v s2, __checkAndUpdateMessageCounter cfg s a rc mc = some (v, s2)) ∧
    (∀ v s2, __checkAndUpdateMessageCounter cfg s a rc mc = some (v, s2) →
      s2.__count_addresses ≤ cfg.MAXIMUM_STORED_ADDRESSES ∧
      (s2.__address_array.take s2.__count_addresses).Nodup) ∧
    (∀ inBuffer r s3, processMessage cfg s inBuffer = some (r, s3) →
      s3.__count_addresses ≤ cfg.MAXIMUM_STORED_ADDRESSES ∧
      (s3.__address_array.take s3.__count_addresses).Nodup) := by
  refine ⟨check_some cfg s a rc mc hs hcnt hc, ?_, ?_⟩
  · intro v s2 h
    exact check_wellformed cfg s s2 a rc mc v hcnt hnd h
  · intro inBuffer r s3 h
    rcases processMessage_cases cfg s s3 inBuffer r h with ⟨_, rfl⟩ |
      ⟨b1, b2, b3, b4, b5, b6, b7, b8, b9, _, rfl⟩ |
      ⟨b1, b2, b3, b4, b5, b6, b7, b8, b9, v, s1, hchk, hres⟩
    · exact ⟨hcnt, hnd⟩
    · exact ⟨hcnt, hnd⟩
    · have hw := check_wellformed cfg _ s1 _ _ _ v (by exact hcnt) (by exact hnd) hchk
      rcases hres with ⟨_, rfl⟩ | ⟨_, rfl⟩
      · exact hw
      · exact hw

theorem C28_registry_wellformed_preserved_witness :
    (∃ v s2, __checkAndUpdateMessageCounter testCfg twoPeers 0x4000 1 1 = some (v, s2)) ∧
    (∀ v s2, __checkAndUpdateMessageCounter testCfg twoPeers 0x4000 1 1 = some (v, s2) →
      s2.__count_addresses ≤ testCfg.MAXIMUM_STORED_ADDRESSES ∧
      (s2.__address_array.take s2.__count_addresses).Nodup) ∧
    (∀ inBuffer r s3, processMessage testCfg twoPeers inBuffer = some (r, s3) →
      s3.__count_addresses ≤ testCfg.MAXIMUM_STORED_ADDRESSES ∧
      (s3.__address_array.take s3.__count_addresses).Nodup) :=
  C28_registry_wellformed_preserved testCfg twoPeers 0x4000 1 1 ⟨rfl, rfl, rfl⟩ rfl
    (by decide) (by decide)

/-- C29 (the registry is append-only): with a capacity that fits the 16-bit
count, `__checkAndUpdateMessageCounter` returns on any input (arrays of
declared size, count within capacity, commit callback set), and for every
call: `__count_addresses` afterwards is unchanged or larger by exactly 1; every
address stored below the old count is unchanged at the same index; the count
has grown exactly when the outcome is `WiLP_RETURN_ADDED_ADDRESS`, and then
the new address sits at the index equal to the old count. -/
theorem C29_registry_append_only (cfg : Config) (s : WiLEDProto) (a rc mc : Nat)
    (hs : s.Sized cfg) (hc : s.__storage_commit_callback = true)
    (hcnt : s.__count_addresses ≤ cfg.MAXIMUM_STORED_ADDRESSES)
    (hcap : cfg.MAXIMUM_STORED_ADDRESSES < 65536) :
    (∃ v s2, __checkAndUpdateMessageCounter cfg s a rc mc = some (v, s2)) ∧
    ∀ v s2, __checkAndUpdateMessageCounter cfg s a rc mc = some (v, s2) →
      (s2.__count_addresses = s.__count_addresses ∨
        s2.__count_addresses = s.__count_addresses + 1) ∧
      (∀ j, j < s.__count_addresses → s2.__address_array[j]? = s.__address_array[j]?) ∧
      (s2.__count_addresses = s.__count_addresses + 1 ↔ v = WiLP_RETURN_ADDED_ADDRESS) ∧
      (v = WiLP_RETURN_ADDED_ADDRESS →
        s2.__address_array[s.__count_addresses]? = some a) := by
  refine ⟨check_some cfg s a rc mc hs hcnt hc, ?_⟩
  intro v s2 h
  rcases check_cases cfg s s2 a rc mc v h with ⟨i, _, _, _, hm⟩ | ⟨_, hnf⟩
  · obtain ⟨hA, hC, _⟩ := checkMatched_effect cfg s s2 i rc mc v hm
    have hv := checkMatched_not_added cfg s s2 i rc mc v hm
    refine ⟨Or.inl hC, fun j _ => by rw [hA], ?_, fun h2 => absurd h2 hv⟩
    constructor
    · intro h2; omega
    · intro h2; exact absurd h2 hv
  · rcases checkNotFound_effect cfg s s2 a mc v hnf with
      ⟨hroom, hlen, _, hv, hA, _, _, hC⟩ | ⟨_, hv, rfl⟩
    · have hC2 : s2.__count_addresses = s.__count_addresses + 1 := by rw [hC]; omega
      refine ⟨Or.inr hC2, ?_, ⟨fun _ => hv, fun _ => hC2⟩, ?_⟩
      · intro j hj
        rw [hA, List.getElem?_set_ne (by omega)]
      · intro _
        rw [hA, List.getElem?_set_self hlen]
    · refine ⟨Or.inl rfl, fun _ _ => rfl, ?_, ?_⟩
      · constructor
        · intro h2; omega
        · intro h2; rw [hv] at h2; exact absurd h2 (by decide)
      · intro h2; rw [hv] at h2; exact absurd h2 (by decide)

theorem C29_registry_append_only_witness :
    (∃ v s2, __checkAndUpdateMessageCounter testCfg twoPeers 0x4000 1 1 = some (v, s2)) ∧
    ∀ v s2, __checkAndUpdateMessageCounter testCfg twoPeers 0x4000 1 1 = some (v, s2) →
      (s2.__count_addresses = twoPeers.__count_addresses ∨
        s2.__count_addresses = twoPeers.__count_addresses + 1) ∧
      (∀ j, j < twoPeers.__count_addresses →
        s2.__address_array[j]? = twoPeers.__address_array[j]?) ∧
      (s2.__count_addresses = twoPeers.__count_addresses + 1 ↔
        v = WiLP_RETURN_ADDED_ADDRESS) ∧
      (v = WiLP_RETURN_ADDED_ADDRESS →
        s2.__address_array[twoPeers.__count_addresses]? = some 0x4000) :=
  C29_registry_append_only testCfg twoPeers 0x4000 1 1 ⟨rfl, rfl, rfl⟩ rfl (by decide)
    (by decide)

/-- C30 (per-peer counters are lexicographically monotone): let the registry
hold a record for `addr` with stored reset counter `R` and message counter `M`.
`__checkAndUpdateMessageCounter` returns on any input `(a, rc, mc)` (arrays of
declared size, count within a capacity that fits the 16-bit count, commit
callback set), and after every call the record for `addr` holds a pair
`(R2, M2)` that is lexicographically at least `(R, M)`, and strictly greater
exactly when the call was for that peer (`a = addr`) and returned
`WiLP_RETURN_SUCCESS`. -/
theorem C30_counters_lexicographically_monotone (cfg : Config) (s : WiLEDProto)
    (i addr R M a rc mc : Nat)
    (hs : s.Sized cfg) (hc : s.__storage_commit_callback = true)
    (hcnt : s.__count_addresses ≤ cfg.MAXIMUM_STORED_ADDRESSES)
    (hcap : cfg.MAXIMUM_STORED_ADDRESSES < 65536)
    (hrec : s.HasRecord i addr R M) :
    (∃ v s2, __checkAndUpdateMessageCounter cfg s a rc mc = some (v, s2)) ∧
    ∀ v s2, __checkAndUpdateMessageCounter cfg s a rc mc = some (v, s2) →
      ∃ R2 M2, s2.HasRecord i addr R2 M2 ∧
        (R < R2 ∨ (R2 = R ∧ M ≤ M2)) ∧
        ((R < R2 ∨ (R2 = R ∧ M < M2)) ↔ (a = addr ∧ v = WiLP_RETURN_SUCCESS)) := by
  refine ⟨check_some cfg s a rc mc hs hcnt hc, ?_⟩
  intro v s2 h
  obtain ⟨hi, hai, hfirst, hRi, hMi⟩ := hrec
  have hlenM : i < s.__message_counter_array.length := by
    by_contra hcon
    rw [List.getElem?_eq_none (by omega)] at hMi
    exact absurd hMi (by simp)
  have hlenR : i < s.__reset_counter_array.length := by
    by_contra hcon
    rw [List.getElem?_eq_none (by omega)] at hRi
    exact absurd hRi (by simp)
  rcases check_cases cfg s s2 a rc mc v h with ⟨k, hk, hak, hkfirst, hm⟩ | ⟨hun, hnf⟩
  · obtain ⟨hA, hC, Rk, hRk, hcase⟩ := checkMatched_effect cfg s s2 k rc mc v hm
    by_cases haa : a = addr
    · -- the call is for this peer: the scan stops at its record
      have hki : k = i := by
        rcases Nat.lt_trichotomy k i with hlt | heq | hgt
        · obtain ⟨x, hx, hne⟩ := hfirst k hlt
          rw [hak] at hx
          exact absurd (Option.some.inj hx).symm (by rw [haa]; exact hne)
        · exact heq
        · obtain ⟨x, hx, hne⟩ := hkfirst i hgt
          rw [hai] at hx
          exact absurd (Option.some.inj hx).symm (by rw [haa] at hne; exact hne)
      subst hki
      rw [hRi] at hRk
      have hRR : Rk = R := (Option.some.inj hRk).symm
      subst hRR
      rcases hcase with ⟨hlt, hv, _, hR2, hM2⟩ | ⟨hlt, hv, rfl⟩ | ⟨heq, Mk, hMk, hcase2⟩
      · refine ⟨rc, mc, ⟨by rw [hC]; exact hi, by rw [hA]; exact hai,
          by rw [hA]; exact hfirst, by rw [hR2, List.getElem?_set_self hlenR],
          by rw [hM2, List.getElem?_set_self hlenM]⟩, Or.inl hlt, ?_⟩
        exact ⟨fun _ => ⟨haa, hv⟩, fun _ => Or.inl hlt⟩
      · refine ⟨Rk, M, ⟨hi, hai, hfirst, hRi, hMi⟩, Or.inr ⟨rfl, Nat.le_refl _⟩, ?_⟩
        constructor
        · intro h2; omega
        · intro h2; rw [hv] at h2; exact absurd h2.2 (by decide)
      · rw [hMi] at hMk
        have hMM : Mk = M := (Option.some.inj hMk).symm
        subst hMM
        rcases hcase2 with ⟨hlt, hv, hR2, hM2⟩ | ⟨hle, hv, rfl⟩
        · refine ⟨Rk, mc, ⟨by rw [hC]; exact hi, by rw [hA]; exact hai,
            by rw [hA]; exact hfirst, by rw [hR2]; exact hRi,
            by rw [hM2, List.getElem?_set_self hlenM]⟩,
            Or.inr ⟨rfl, Nat.le_of_lt hlt⟩, ?_⟩
          exact ⟨fun _ => ⟨haa, hv⟩, fun _ => Or.inr ⟨rfl, hlt⟩⟩
        · refine ⟨Rk, Mk, ⟨hi, hai, hfirst, hRi, hMi⟩, Or.inr ⟨rfl, Nat.le_refl _⟩, ?_⟩
          constructor
          · intro h2; omega
          · intro h2; rw [hv] at h2; exact absurd h2.2 (by decide)
    · -- the call is for another peer: its record sits at another index
      have hki : k ≠ i := by
        intro hki
        rw [hki, hai] at hak
        exact haa (Option.some.inj hak).symm
      have hkeep : s2.__reset_counter_array[i]? = some R ∧
          s2.__message_counter_array[i]? = some M := by
        rcases hcase with ⟨_, _, _, hR2, hM2⟩ | ⟨_, _, rfl⟩ | ⟨_, Mk, _, hcase2⟩
        · rw [hR2, hM2, List.getElem?_set_ne hki, List.getElem?_set_ne hki]
          exact ⟨hRi, hMi⟩
        · exact ⟨hRi, hMi⟩
        · rcases hcase2 with ⟨_, _, hR2, hM2⟩ | ⟨_, _, rfl⟩
          · rw [hR2, hM2, List.getElem?_set_ne hki]
            exact ⟨hRi, hMi⟩
          · exact ⟨hRi, hMi⟩
      refine ⟨R, M, ⟨by rw [hC]; exact hi, by rw [hA]; exact hai,
        by rw [hA]; exact hfirst, hkeep.1, hkeep.2⟩, Or.inr ⟨rfl, Nat.le_refl _⟩, ?_⟩
      constructor
      · intro h2; omega
      · intro h2; exact absurd h2.1 haa
  · -- the address of the call is unseen, so it is not this peer
    have haa : a ≠ addr := by
      intro haa
      obtain ⟨x, hx, hne⟩ := hun i hi
      rw [hai] at hx
      exact hne (by rw [← Option.some.inj hx, haa])
    rcases checkNotFound_effect cfg s s2 a mc v hnf with
      ⟨hroom, hlen, _, hv, hA, hM2, hR2, hC⟩ | ⟨_, hv, rfl⟩
    · have hne : s.__count_addresses ≠ i := by omega
      refine ⟨R, M, ⟨by rw [hC]; omega, by rw [hA, List.getElem?_set_ne hne]; exact hai,
        ?_, by rw [hR2]; exact hRi, by rw [hM2, List.getElem?_set_ne hne]; exact hMi⟩,
        Or.inr ⟨rfl, Nat.le_refl _⟩, ?_⟩
      · intro j hj
        rw [hA, List.getElem?_set_ne (by omega)]
        exact hfirst j hj
      · constructor
        · intro h2; omega
        · intro h2; exact absurd h2.1 haa
    · refine ⟨R, M, ⟨hi, hai, hfirst, hRi, hMi⟩, Or.inr ⟨rfl, Nat.le_refl _⟩, ?_⟩
      constructor
      · intro h2; omega
      · intro h2; exact absurd h2.1 haa

theorem C30_counters_lexicographically_monotone_witness :
    (∃ v s2, __checkAndUpdateMessageCounter testCfg twoPeers 0x1000 6 1 = some (v, s2)) ∧
    ∀ v s2, __checkAndUpdateMessageCounter testCfg twoPeers 0x1000 6 1 = some (v, s2) →
      ∃ R2 M2, s2.HasRecord 0 0x1000 R2 M2 ∧
        (5 < R2 ∨ (R2 = 5 ∧ 7 ≤ M2)) ∧
        ((5 < R2 ∨ (R2 = 5 ∧ 7 < M2)) ↔ (0x1000 = 0x1000 ∧ v = WiLP_RETURN_SUCCESS)) :=
  C30_counters_lexicographically_monotone testCfg twoPeers 0 0x1000 5 7 0x1000 6 1
    ⟨rfl, rfl, rfl⟩ rfl (by decide) (by decide)
    ⟨by decide, rfl, fun j hj => absurd hj (Nat.not_lt_zero j), rfl, rfl⟩

/-! ## Finalising the outgoing frame (claim C24) -/

/-- C24 (finalising resets the outgoing frame): for an object whose outgoing
buffer is as the constructor or an earlier `copyToBuffer` left it,
`copyToBuffer` returns and leaves an outgoing buffer with byte 0 = `0xAA`,
bytes 1 and 2 = the own address and every byte from offset 3 to
`MAXIMUM_MESSAGE_LENGTH - 1` equal to 0.  A second `copyToBuffer` with no
builder call in between then hands out a frame with destination bytes 0, type
byte 0 and zero bytes from offset 10 on, carrying the next message counter
value, and the own message counter has advanced once more. -/
theorem C24_finalising_resets_outgoing (cfg : Config) (s : WiLEDProto)
    (h10 : 10 ≤ cfg.MAXIMUM_MESSAGE_LENGTH) (h255 : cfg.MAXIMUM_MESSAGE_LENGTH ≤ 255)
    (hready : s.OutgoingReady cfg) :
    ∃ out s2, copyToBuffer cfg s = some (out, s2) ∧
      s2.__outgoing_message_buffer[0]? = some 0xAA ∧
      s2.__outgoing_message_buffer[1]? = some (s.__address / 256 % 256) ∧
      s2.__outgoing_message_buffer[2]? = some (s.__address % 256) ∧
      (∀ j, 3 ≤ j → j < cfg.MAXIMUM_MESSAGE_LENGTH →
        s2.__outgoing_message_buffer[j]? = some 0) ∧
      s2.__self_message_counter = (s.__self_message_counter + 1) % 65536 ∧
      ∃ out2 s3, copyToBuffer cfg s2 = some (out2, s3) ∧
        out2[3]? = some 0 ∧ out2[4]? = some 0 ∧
        out2[7]? = some ((s2.__self_message_counter + 1) % 65536 / 256) ∧
        out2[8]? = some ((s2.__self_message_counter + 1) % 65536 % 256) ∧
        out2[9]? = some 0 ∧
        (∀ j, 10 ≤ j → j < cfg.MAXIMUM_MESSAGE_LENGTH → out2[j]? = some 0) ∧
        s3.__self_message_counter = (s2.__self_message_counter + 1) % 65536 := by
  obtain ⟨hlen, hb, hb0, hb1, hb2⟩ := hready
  obtain ⟨w, hcopy, hwlen, hw0, hw1, hw2, hwz, _⟩ :=
    copyToBuffer_eq cfg s hlen (by omega) h255
  obtain ⟨w2, hcopy2, _⟩ := copyToBuffer_eq cfg
    { s with
      __self_message_counter := (s.__self_message_counter + 1) % 65536
      __outgoing_message_buffer := w } hwlen (by omega) h255
  have hwl : 9 < w.length := by omega
  refine ⟨_, _, hcopy, by rw [hw0, hb0], by rw [hw1, hb1], by rw [hw2, hb2], hwz, rfl,
    _, _, hcopy2, ?_, ?_, ?_, ?_, ?_, ?_, rfl⟩
  · simp only [List.getElem?_set]
    simp [hwz 3 (by omega) (by omega)]
  · simp only [List.getElem?_set]
    simp [hwz 4 (by omega) (by omega)]
  · simp [List.getElem?_set, Nat.shiftRight_eq_div_pow]; omega
  · simp [List.getElem?_set]; omega
  · simp only [List.getElem?_set]
    simp [hwz 9 (by omega) (by omega)]
  · intro j hj1 hj2
    simp only [List.getElem?_set]
    simp [show ¬ (8 = j) by omega, show ¬ (7 = j) by omega, show ¬ (6 = j) by omega,
      show ¬ (5 = j) by omega, hwz j (by omega) hj2]

theorem C24_finalising_resets_outgoing_witness :
    ∃ out s2, copyToBuffer testCfg twoPeers = some (out, s2) ∧
      s2.__outgoing_message_buffer[0]? = some 0xAA ∧
      s2.__outgoing_message_buffer[1]? = some (twoPeers.__address / 256 % 256) ∧
      s2.__outgoing_message_buffer[2]? = some (twoPeers.__address % 256) ∧
      (∀ j, 3 ≤ j → j < testCfg.MAXIMUM_MESSAGE_LENGTH →
        s2.__outgoing_message_buffer[j]? = some 0) ∧
      s2.__self_message_counter = (twoPeers.__self_message_counter + 1) % 65536 ∧
      ∃ out2 s3, copyToBuffer testCfg s2 = some (out2, s3) ∧
        out2[3]? = some 0 ∧ out2[4]? = some 0 ∧
        out2[7]? = some ((s2.__self_message_counter + 1) % 65536 / 256) ∧
        out2[8]? = some ((s2.__self_message_counter + 1) % 65536 % 256) ∧
        out2[9]? = some 0 ∧
        (∀ j, 10 ≤ j → j < testCfg.MAXIMUM_MESSAGE_LENGTH → out2[j]? = some 0) ∧
        s3.__self_message_counter = (s2.__self_message_counter + 1) % 65536 :=
  C24_finalising_resets_outgoing testCfg twoPeers (by decide) (by decide)
    ⟨rfl, by decide, rfl, rfl, rfl⟩


/-! ## Operation without storage callbacks (claim C21) -/

/-- C21, evaluated at the receiver constructed with the three storage callbacks
null: `initStorage` leaves the own reset counter at 0 and the registry empty,
but `processMessage` on the first Beacon frame of the unseen peer `0x1000` has
no result, because `__checkAndUpdateMessageCounter` calls the null commit
callback; the same happens for the known peer `0x1000` of `twoPeers` (stored
reset counter 5) announcing reset counter 6 when the callbacks are null.  With
only the commit callback present the first call returns `WiLP_RETURN_SUCCESS`. -/
theorem C21_null_commit_callback_called :
    (noStorageReceiver.map fun e =>
      (e.__self_reset_counter, e.__count_addresses, e.__address_array,
       __checkAndUpdateMessageCounter testCfg e 0x1000 1 1,
       processMessage testCfg e firstBeacon,
       (processMessage testCfg { e with __storage_commit_callback := true }
          firstBeacon).map Prod.fst))
      = some (0, 0, [0, 0, 0, 0], none, none, some WiLP_RETURN_SUCCESS) ∧
    processMessage testCfg
      { twoPeers with
        __storage_read_callback := false
        __storage_write_callback := false
        __storage_commit_callback := false } newEpochBeacon = none := by
  constructor
  · rfl
  · rfl

/-! ## The return value for a repeated frame (claim C22) -/

/-- C22, evaluated at the receiver and frame of the unit test
`DetectRepeatedMessage`: the fresh receiver returns `WiLP_RETURN_SUCCESS` for
the first Beacon frame of `0x1000`, and for the identical buffer again it
returns `WiLP_RETURN_SUCCESS`, not `WiLP_RETURN_INVALID_MSG_CTR`; the stored
validation result of the second call is `WiLP_RETURN_SUCCESS` too.  The
last-received source, destination, type, reset counter and message counter
equal the values in the frame. -/
theorem C22_repeated_frame_returns_success :
    (freshReceiver.bind fun p2 =>
      (processMessage testCfg p2 firstBeacon).bind fun r1 =>
        (processMessage testCfg r1.2 firstBeacon).map fun r2 =>
          (r1.1, r2.1, getLastReceivedMessageCounterValidation r2.2,
           getLastReceivedSource r2.2, getLastReceivedDestination r2.2,
           getLastReceivedType r2.2, getLastReceivedResetCounter r2.2,
           getLastReceivedMessageCounter r2.2))
      = some (WiLP_RETURN_SUCCESS, WiLP_RETURN_SUCCESS, WiLP_RETURN_SUCCESS,
          0x1000, 0xFFFF, WiLP_Beacon, 1, 1) := by
  rfl

/-! ## The recognised message types (claim C23) -/

/-- C23, evaluated at the receiver and frame of the unit test
`CorrectSetIndividualReceiveCallback`: the fresh engine with address `0x1000`
processes the well-formed broadcast frame with type byte `0x10`.
`getLastReceivedType` returns `0x10`, but the return value is
`WiLP_RETURN_UNKNOWN_TYPE`, not `WiLP_RETURN_SUCCESS`; the same holds with the
type bytes `0x11` and `0x12`. -/
theorem C23_set_individual_types_unknown :
    (freshSender.bind fun p1 =>
      (processMessage testCfg p1 setIndividualFrame).bind fun r1 =>
        (processMessage testCfg p1 (setIndividualFrame.set 9 0x11)).bind fun r2 =>
          (processMessage testCfg p1 (setIndividualFrame.set 9 0x12)).map fun r3 =>
            (r1.1, getLastReceivedType r1.2, r2.1, getLastReceivedType r2.2,
             r3.1, getLastReceivedType r3.2))
      = some (WiLP_RETURN_UNKNOWN_TYPE, 0x10, WiLP_RETURN_UNKNOWN_TYPE, 0x11,
          WiLP_RETURN_UNKNOWN_TYPE, 0x12) := by
  rfl


/-! ## What a bad magic number clears (claim C26) -/

/-- C26, counterexample: the fresh receiver processes the first Beacon frame of
`0x1000` and then the same bytes with the first byte `0x01`.  The second call
returns `WiLP_RETURN_INVALID_BUFFER` and the five header fields read 0, but the
stored validation result is still `WiLP_RETURN_ADDED_ADDRESS` (initially it is
`WiLP_RETURN_SUCCESS`), the stored payload still starts with the uptime bytes
`49 96 02 D2` and the stored payload length is still 4. -/
theorem C26_bad_magic_keeps_validation_and_payload :
    (freshReceiver.bind fun p2 =>
      (processMessage testCfg p2 firstBeacon).bind fun r1 =>
        (processMessage testCfg r1.2 badMagicFrame).map fun r2 =>
          (getLastReceivedMessageCounterValidation p2, r2.1,
           getLastReceivedMessageCounterValidation r2.2,
           r2.2.__last_received_payload.take 4, r2.2.__last_received_payload_length,
           getLastReceivedSource r2.2, getLastReceivedDestination r2.2,
           getLastReceivedType r2.2, getLastReceivedResetCounter r2.2,
           getLastReceivedMessageCounter r2.2))
      = some (WiLP_RETURN_SUCCESS, WiLP_RETURN_INVALID_BUFFER, WiLP_RETURN_ADDED_ADDRESS,
          [0x49, 0x96, 0x02, 0xD2], 4, 0, 0, 0, 0, 0) := by
  rfl

/-- C26 (amended: a bad magic number clears the five header fields only): for
every buffer whose byte 0 is not `0xAA`, `processMessage` returns
`WiLP_RETURN_INVALID_BUFFER`; afterwards the last received source,
destination, type, reset counter and message counter are 0, while the stored
validation result, the stored payload and the stored payload length are what
they were before the call. -/
theorem C26_bad_magic_clears_header_only (cfg : Config) (s : WiLEDProto)
    (inBuffer : List Nat) (b0 : Nat)
    (h0 : inBuffer[0]? = some b0) (hne : b0 ≠ 0xAA) :
    ∃ s2, processMessage cfg s inBuffer = some (WiLP_RETURN_INVALID_BUFFER, s2) ∧
      getLastReceivedSource s2 = 0 ∧
      getLastReceivedDestination s2 = 0 ∧
      getLastReceivedType s2 = 0 ∧
      getLastReceivedResetCounter s2 = 0 ∧
      getLastReceivedMessageCounter s2 = 0 ∧
      getLastReceivedMessageCounterValidation s2 =
        getLastReceivedMessageCounterValidation s ∧
      s2.__last_received_payload = s.__last_received_payload ∧
      s2.__last_received_payload_length = s.__last_received_payload_length := by
  unfold processMessage
  simp only [h0]
  rw [if_pos hne]
  exact ⟨_, rfl, rfl, rfl, rfl, rfl, rfl, rfl, rfl, rfl⟩

theorem C26_bad_magic_clears_header_only_witness :
    ∃ s2, processMessage testCfg fullRegistry badMagicFrame =
        some (WiLP_RETURN_INVALID_BUFFER, s2) ∧
      getLastReceivedSource s2 = 0 ∧
      getLastReceivedDestination s2 = 0 ∧
      getLastReceivedType s2 = 0 ∧
      getLastReceivedResetCounter s2 = 0 ∧
      getLastReceivedMessageCounter s2 = 0 ∧
      getLastReceivedMessageCounterValidation s2 =
        getLastReceivedMessageCounterValidation fullRegistry ∧
      s2.__last_received_payload = fullRegistry.__last_received_payload ∧
      s2.__last_received_payload_length = fullRegistry.__last_received_payload_length :=
  C26_bad_magic_clears_header_only testCfg fullRegistry badMagicFrame 0x01 rfl (by decide)

/-! ## The own reset counter (claim C27) -/

theorem setTypeByte_self_reset (s s2 : WiLEDProto) (t : Nat)
    (h : __setTypeByte s t = some s2) :
    s2.__self_reset_counter = s.__self_reset_counter := by
  unfold __setTypeByte at h
  cases hb : setByte s.__outgoing_message_buffer 9 t with
  | none => rw [hb] at h; exact absurd h (by simp)
  | some b =>
    rw [hb] at h
    simp only [Option.map_some', Option.some.injEq] at h
    rw [← h]

theorem setDestinationByte_self_reset (s s2 : WiLEDProto) (d : Nat)
    (h : __setDestinationByte s d = some s2) :
    s2.__self_reset_counter = s.__self_reset_counter := by
  unfold __setDestinationByte at h
  split at h
  · exact absurd h (by simp)
  · rename_i b1 _
    cases hb : setByte b1 4 d with
    | none => rw [hb] at h; exact absurd h (by simp)
    | some b =>
      rw [hb] at h
      simp only [Option.map_some', Option.some.injEq] at h
      rw [← h]

theorem setPayloadByte_self_reset (s s2 : WiLEDProto) (o p : Nat)
    (h : __setPayloadByte s o p = some s2) :
    s2.__self_reset_counter = s.__self_reset_counter := by
  unfold __setPayloadByte at h
  cases hb : setByte s.__outgoing_message_buffer (10 + o) p with
  | none => rw [hb] at h; exact absurd h (by simp)
  | some b =>
    rw [hb] at h
    simp only [Option.map_some', Option.some.injEq] at h
    rw [← h]

/-- The builder `sendMessageBeacon` leaves the own reset counter alone. -/
theorem sendMessageBeacon_self_reset (s s2 : WiLEDProto) (u : Nat) (r : WiLPReturn)
    (h : sendMessageBeacon s u = some (r, s2)) :
    s2.__self_reset_counter = s.__self_reset_counter := by
  unfold sendMessageBeacon at h
  split at h
  · exact absurd h (by simp)
  · rename_i t1 h1
    split at h
    · exact absurd h (by simp)
    · rename_i t2 h2
      split at h
      · exact absurd h (by simp)
      · rename_i t3 h3
        split at h
        · exact absurd h (by simp)
        · rename_i t4 h4
          split at h
          · exact absurd h (by simp)
          · rename_i t5 h5
            split at h
            · exact absurd h (by simp)
            · rename_i t6 h6
              simp only [Option.some.injEq, Prod.mk.injEq] at h
              rw [← h.2, setPayloadByte_self_reset _ _ _ _ h6,
                setPayloadByte_self_reset _ _ _ _ h5, setPayloadByte_self_reset _ _ _ _ h4,
                setPayloadByte_self_reset _ _ _ _ h3, setDestinationByte_self_reset _ _ _ h2,
                setTypeByte_self_reset _ _ _ h1]

/-- The finaliser `copyToBuffer` leaves the own reset counter alone. -/
theorem copyToBuffer_self_reset (cfg : Config) (s s2 : WiLEDProto) (out : List Nat)
    (h : copyToBuffer cfg s = some (out, s2)) :
    s2.__self_reset_counter = s.__self_reset_counter := by
  unfold copyToBuffer at h
  split at h
  · exact absurd h (by simp)
  · split at h
    · exact absurd h (by simp)
    · dsimp only at h
      split at h
      · exact absurd h (by simp)
      · split at h
        · exact absurd h (by simp)
        · split at h
          · split at h
            · exact absurd h (by simp)
            · simp only [Option.some.injEq, Prod.mk.injEq] at h
              rw [← h.2]
          · exact absurd h (by simp)

/-- The receiver `processMessage` leaves the own reset counter alone. -/
theorem processMessage_self_reset (cfg : Config) (s s3 : WiLEDProto) (inBuffer : List Nat)
    (r : WiLPReturn) (h : processMessage cfg s inBuffer = some (r, s3)) :
    s3.__self_reset_counter = s.__self_reset_counter := by
  rcases processMessage_cases cfg s s3 inBuffer r h with ⟨_, rfl⟩ |
    ⟨b1, b2, b3, b4, b5, b6, b7, b8, b9, _, rfl⟩ |
    ⟨b1, b2, b3, b4, b5, b6, b7, b8, b9, v, s1, hchk, hres⟩
  · rfl
  · rfl
  · obtain ⟨_, _, _, _, _, f6, _⟩ := check_frame _ _ _ _ _ _ _ hchk
    rcases hres with ⟨_, rfl⟩ | ⟨_, rfl⟩
    · exact f6
    · exact f6

/-- C27, counterexample: over a storage that holds 65535 as the own reset
counter, the engine constructed with address `0x2000` and initialised has the
own reset counter 0, which is less than the persisted 65535. -/
theorem C27_own_reset_counter_wraps :
    wornStorage.word testCfg.STORAGE_SELF_RESET_LOCATION = 65535 ∧
    ((new testCfg 0x2000 true true true wornStorage).bind (initStorage testCfg)).map
      (fun e => e.__self_reset_counter) = some 0 := by
  constructor
  · rfl
  · rfl

/-- C27 (amended: the own reset counter does not decrease below the wrap): for
every persisted value `v < 65535` of the own reset counter and all three
callbacks set, lines 55 to 61 of `initStorage` return with the own reset
counter `v + 1`, which is not less than `v` (and `initStorage` returns this
object when the loaded count is within the address array); and for every
object, `sendMessageBeacon`, `copyToBuffer` and `processMessage` leave the own
reset counter as it is. -/
theorem C27_own_reset_counter_never_decreases (cfg : Config) (s : WiLEDProto)
    (hr : s.__storage_read_callback = true) (hw : s.__storage_write_callback = true)
    (hc : s.__storage_commit_callback = true)
    (hv : s.storage.word cfg.STORAGE_SELF_RESET_LOCATION < 65535) :
    ∃ s7, initStorageBody cfg s = some s7 ∧
      s7.__self_reset_counter = s.storage.word cfg.STORAGE_SELF_RESET_LOCATION + 1 ∧
      s.storage.word cfg.STORAGE_SELF_RESET_LOCATION ≤ s7.__self_reset_counter ∧
      (s7.__count_addresses ≤ s7.__address_array.length → initStorage cfg s = some s7) ∧
      ∀ t : WiLEDProto,
        (∀ u r t2, sendMessageBeacon t u = some (r, t2) →
          t2.__self_reset_counter = t.__self_reset_counter) ∧
        (∀ out t2, copyToBuffer cfg t = some (out, t2) →
          t2.__self_reset_counter = t.__self_reset_counter) ∧
        (∀ inBuffer r t2, processMessage cfg t inBuffer = some (r, t2) →
          t2.__self_reset_counter = t.__self_reset_counter) := by
  obtain ⟨st, hbody, _, _⟩ := initStorageBody_eq cfg s hr hw hc
  have e : (s.storage.word cfg.STORAGE_SELF_RESET_LOCATION + 1) % 65536
      = s.storage.word cfg.STORAGE_SELF_RESET_LOCATION + 1 := Nat.mod_eq_of_lt (by omega)
  refine ⟨_, hbody, e, ?_, ?_, ?_⟩
  · show _ ≤ (s.storage.word cfg.STORAGE_SELF_RESET_LOCATION + 1) % 65536
    rw [e]; omega
  · intro hcount
    unfold initStorage
    rw [if_pos ⟨hc, hw⟩, hbody]
    simp only []
    rw [if_pos hcount]
  · intro t
    exact ⟨fun u r t2 h => sendMessageBeacon_self_reset t t2 u r h,
      fun out t2 h => copyToBuffer_self_reset cfg t t2 out h,
      fun x r t2 h => processMessage_self_reset cfg t t2 x r h⟩

theorem C27_own_reset_counter_never_decreases_witness :
    ∃ s7, initStorageBody testCfg twoPeers = some s7 ∧
      s7.__self_reset_counter =
        twoPeers.storage.word testCfg.STORAGE_SELF_RESET_LOCATION + 1 ∧
      twoPeers.storage.word testCfg.STORAGE_SELF_RESET_LOCATION ≤ s7.__self_reset_counter ∧
      (s7.__count_addresses ≤ s7.__address_array.length →
        initStorage testCfg twoPeers = some s7) ∧
      ∀ t : WiLEDProto,
        (∀ u r t2, sendMessageBeacon t u = some (r, t2) →
          t2.__self_reset_counter = t.__self_reset_counter) ∧
        (∀ out t2, copyToBuffer testCfg t = some (out, t2) →
          t2.__self_reset_counter = t.__self_reset_counter) ∧
        (∀ inBuffer r t2, processMessage testCfg t inBuffer = some (r, t2) →
          t2.__self_reset_counter = t.__self_reset_counter) :=
  C27_own_reset_counter_never_decreases testCfg twoPeers rfl rfl rfl (by decide)


/-! ## Decoding and re-encoding the header (claim C25) -/

theorem take10_eq (x : List Nat) (hlen : 10 ≤ x.length) :
    x.take 10 = [x.getD 0 0, x.getD 1 0, x.getD 2 0, x.getD 3 0, x.getD 4 0,
      x.getD 5 0, x.getD 6 0, x.getD 7 0, x.getD 8 0, x.getD 9 0] := by
  match x, hlen with
  | a0 :: a1 :: a2 :: a3 :: a4 :: a5 :: a6 :: a7 :: a8 :: a9 :: rest, _ => rfl

/-- On a buffer with the magic number, whatever `processMessage` returns, the
five header fields afterwards are those that `storeHeader` records. -/
theorem processMessage_header (cfg : Config) (s s3 : WiLEDProto) (inBuffer : List Nat)
    (r : WiLPReturn) (hlen : 10 ≤ inBuffer.length) (hbytes : ∀ b ∈ inBuffer, b < 256)
    (hmagic : inBuffer[0]? = some 0xAA)
    (h : processMessage cfg s inBuffer = some (r, s3)) :
    s3.__last_received_source = 256 * inBuffer.getD 1 0 + inBuffer.getD 2 0 ∧
    s3.__last_received_destination = 256 * inBuffer.getD 3 0 + inBuffer.getD 4 0 ∧
    s3.__last_received_reset_counter = 256 * inBuffer.getD 5 0 + inBuffer.getD 6 0 ∧
    s3.__last_received_message_counter = 256 * inBuffer.getD 7 0 + inBuffer.getD 8 0 ∧
    s3.__last_received_type = inBuffer.getD 9 0 := by
  have hb := getD_lt_256 inBuffer hbytes
  unfold processMessage at h
  simp only [hmagic, ne_eq, not_true_eq_false, if_false,
    getElem?_eq_some_getD inBuffer 1 (by omega), getElem?_eq_some_getD inBuffer 2 (by omega),
    getElem?_eq_some_getD inBuffer 3 (by omega), getElem?_eq_some_getD inBuffer 4 (by omega),
    getElem?_eq_some_getD inBuffer 5 (by omega), getElem?_eq_some_getD inBuffer 6 (by omega),
    getElem?_eq_some_getD inBuffer 7 (by omega), getElem?_eq_some_getD inBuffer 8 (by omega),
    getElem?_eq_some_getD inBuffer 9 (by omega)] at h
  have hstore : ∀ t : WiLEDProto,
      (storeHeader s (inBuffer.getD 1 0) (inBuffer.getD 2 0) (inBuffer.getD 3 0)
        (inBuffer.getD 4 0) (inBuffer.getD 5 0) (inBuffer.getD 6 0) (inBuffer.getD 7 0)
        (inBuffer.getD 8 0) (inBuffer.getD 9 0)).SameOutsideRegistry t →
      t.__last_received_source = 256 * inBuffer.getD 1 0 + inBuffer.getD 2 0 ∧
      t.__last_received_destination = 256 * inBuffer.getD 3 0 + inBuffer.getD 4 0 ∧
      t.__last_received_reset_counter = 256 * inBuffer.getD 5 0 + inBuffer.getD 6 0 ∧
      t.__last_received_message_counter = 256 * inBuffer.getD 7 0 + inBuffer.getD 8 0 ∧
      t.__last_received_type = inBuffer.getD 9 0 := by
    intro t hf
    obtain ⟨_, _, _, _, _, _, _, f8, f9, f10, f11, f12, _⟩ := hf
    refine ⟨?_, ?_, ?_, ?_, ?_⟩
    · rw [f9]; exact bigEndian16 _ _ (hb 1) (hb 2)
    · rw [f8]; exact bigEndian16 _ _ (hb 3) (hb 4)
    · rw [f11]; exact bigEndian16 _ _ (hb 5) (hb 6)
    · rw [f12]; exact bigEndian16 _ _ (hb 7) (hb 8)
    · rw [f10]; exact Nat.mod_eq_of_lt (hb 9)
  split at h
  · simp only [Option.some.injEq, Prod.mk.injEq] at h
    rw [← h.2]
    exact hstore _ (sameOutsideRegistry_refl _)
  · split at h
    · exact absurd h (by simp)
    · rename_i v s1 hchk
      have hf := hstore s1 (check_frame _ _ _ _ _ _ _ hchk)
      split at h
      · split at h
        · simp only [Option.some.injEq, Prod.mk.injEq] at h
          rw [← h.2]
          exact hf
        · exact absurd h (by simp)
      · simp only [Option.some.injEq, Prod.mk.injEq] at h
        rw [← h.2]
        exact hf

/-- On a buffer of at least 14 bytes with the magic number, `processMessage`
returns (arrays of declared size, count within capacity, commit callback set,
room for the payload). -/
theorem processMessage_some (cfg : Config) (s : WiLEDProto) (inBuffer : List Nat)
    (hlen : 14 ≤ inBuffer.length) (hbytes : ∀ b ∈ inBuffer, b < 256)
    (hmagic : inBuffer[0]? = some 0xAA)
    (hs : s.Sized cfg) (hcnt : s.__count_addresses ≤ cfg.MAXIMUM_STORED_ADDRESSES)
    (hc : s.__storage_commit_callback = true)
    (hp : 4 ≤ s.__last_received_payload.length) :
    ∃ r s3, processMessage cfg s inBuffer = some (r, s3) := by
  have hb := getD_lt_256 inBuffer hbytes
  by_cases hdest : 256 * inBuffer.getD 3 0 + inBuffer.getD 4 0 = s.__address ∨
      256 * inBuffer.getD 3 0 + inBuffer.getD 4 0 = 0xFFFF
  · obtain ⟨v, s1, hchk⟩ := check_some cfg
      (storeHeader s (inBuffer.getD 1 0) (inBuffer.getD 2 0) (inBuffer.getD 3 0)
        (inBuffer.getD 4 0) (inBuffer.getD 5 0) (inBuffer.getD 6 0) (inBuffer.getD 7 0)
        (inBuffer.getD 8 0) (inBuffer.getD 9 0))
      (256 * inBuffer.getD 1 0 + inBuffer.getD 2 0)
      (256 * inBuffer.getD 5 0 + inBuffer.getD 6 0)
      (256 * inBuffer.getD 7 0 + inBuffer.getD 8 0) hs hcnt hc
    have hpay := (header_after_check cfg s inBuffer hbytes v s1 hchk).2.2.2.2.2
    rw [processMessage_checked cfg s inBuffer (by omega) hbytes hmagic hdest v s1 hchk]
    by_cases ht : s1.__last_received_type = WiLP_Beacon
    · rw [if_pos ht, if_pos ⟨by omega, by rw [hpay]; exact hp⟩]
      exact ⟨_, _, rfl⟩
    · rw [if_neg ht]
      exact ⟨_, _, rfl⟩
  · have hd : (storeHeader s (inBuffer.getD 1 0) (inBuffer.getD 2 0) (inBuffer.getD 3 0)
          (inBuffer.getD 4 0) (inBuffer.getD 5 0) (inBuffer.getD 6 0) (inBuffer.getD 7 0)
          (inBuffer.getD 8 0) (inBuffer.getD 9 0)).__last_received_destination
        = 256 * inBuffer.getD 3 0 + inBuffer.getD 4 0 := bigEndian16 _ _ (hb 3) (hb 4)
    have hown : (storeHeader s (inBuffer.getD 1 0) (inBuffer.getD 2 0) (inBuffer.getD 3 0)
          (inBuffer.getD 4 0) (inBuffer.getD 5 0) (inBuffer.getD 6 0) (inBuffer.getD 7 0)
          (inBuffer.getD 8 0) (inBuffer.getD 9 0)).__address = s.__address := rfl
    unfold processMessage
    simp only [hmagic, ne_eq, not_true_eq_false, if_false,
      getElem?_eq_some_getD inBuffer 1 (by omega), getElem?_eq_some_getD inBuffer 2 (by omega),
      getElem?_eq_some_getD inBuffer 3 (by omega), getElem?_eq_some_getD inBuffer 4 (by omega),
      getElem?_eq_some_getD inBuffer 5 (by omega), getElem?_eq_some_getD inBuffer 6 (by omega),
      getElem?_eq_some_getD inBuffer 7 (by omega), getElem?_eq_some_getD inBuffer 8 (by omega),
      getElem?_eq_some_getD inBuffer 9 (by omega)]
    rw [hd, hown, if_pos (by omega)]
    exact ⟨_, _, rfl⟩

/-- The first ten bytes that `sendMessageBeacon` followed by `copyToBuffer`
emit are the fixed layout of the specification, filled with the own address,
the broadcast destination, the own reset counter, the next message counter and
the Beacon type. -/
theorem send_copy_header (cfg : Config) (t : WiLEDProto) (u : Nat)
    (hready : t.OutgoingReady cfg)
    (h14 : 14 ≤ cfg.MAXIMUM_MESSAGE_LENGTH) (h255 : cfg.MAXIMUM_MESSAGE_LENGTH ≤ 255) :
    ∃ s1 out s2, sendMessageBeacon t u = some (WiLP_RETURN_SUCCESS, s1) ∧
      copyToBuffer cfg s1 = some (out, s2) ∧
      out.take 10 = specEncodeHeader t.__address 0xFFFF t.__self_reset_counter
        ((t.__self_message_counter + 1) % 65536) WiLP_Beacon := by
  obtain ⟨hlen, _, hb0, hb1, hb2⟩ := hready
  obtain ⟨s1, out, s2, hsend, hcopy, holen, o0, o1, o2, o3, o4, o5, o6, o7, o8, o9, _⟩ :=
    send_copy cfg t u hlen h14 h255
  rw [hb0] at o0
  rw [hb1] at o1
  rw [hb2] at o2
  refine ⟨s1, out, s2, hsend, hcopy, ?_⟩
  have hm : (t.__self_message_counter + 1) % 65536 / 256 % 256
      = (t.__self_message_counter + 1) % 65536 / 256 := by omega
  rw [take10_eq out (by omega), getD_of_getElem? out 0 _ o0, getD_of_getElem? out 1 _ o1,
    getD_of_getElem? out 2 _ o2, getD_of_getElem? out 3 _ o3, getD_of_getElem? out 4 _ o4,
    getD_of_getElem? out 5 _ o5, getD_of_getElem? out 6 _ o6, getD_of_getElem? out 7 _ o7,
    getD_of_getElem? out 8 _ o8, getD_of_getElem? out 9 _ o9]
  unfold specEncodeHeader
  rw [hm]
  rfl

/-- C25 (header decode/encode round trip): for every buffer `x` of at least 14
bytes with `x[0] = 0xAA`, `processMessage` returns (arrays of declared size,
count within capacity, commit callback set, room for the payload), and
whatever it returns, re-encoding the source, destination, reset counter,
message counter and type it has extracted, in the fixed layout of the
specification (`specEncodeHeader`), reproduces bytes 0 to 9 of `x` exactly.
The layout is the one the sending side of the source writes: the first ten
bytes emitted by `sendMessageBeacon` followed by `copyToBuffer` are
`specEncodeHeader` of the own address, `0xFFFF`, the own reset counter, the
next message counter and the Beacon type. -/
theorem C25_header_round_trip (cfg : Config) (s : WiLEDProto) (x : List Nat)
    (hlen : 14 ≤ x.length) (hbytes : ∀ b ∈ x, b < 256) (hmagic : x[0]? = some 0xAA)
    (hs : s.Sized cfg) (hcnt : s.__count_addresses ≤ cfg.MAXIMUM_STORED_ADDRESSES)
    (hc : s.__storage_commit_callback = true)
    (hp : 4 ≤ s.__last_received_payload.length) :
    (∃ r s2, processMessage cfg s x = some (r, s2)) ∧
    (∀ r s2, processMessage cfg s x = some (r, s2) →
      specEncodeHeader (getLastReceivedSource s2) (getLastReceivedDestination s2)
        (getLastReceivedResetCounter s2) (getLastReceivedMessageCounter s2)
        (getLastReceivedType s2) = x.take 10) ∧
    (∀ (t : WiLEDProto) (u : Nat), t.OutgoingReady cfg →
      14 ≤ cfg.MAXIMUM_MESSAGE_LENGTH → cfg.MAXIMUM_MESSAGE_LENGTH ≤ 255 →
      ∃ s1 out s2, sendMessageBeacon t u = some (WiLP_RETURN_SUCCESS, s1) ∧
        copyToBuffer cfg s1 = some (out, s2) ∧
        out.take 10 = specEncodeHeader t.__address 0xFFFF t.__self_reset_counter
          ((t.__self_message_counter + 1) % 65536) WiLP_Beacon) := by
  refine ⟨processMessage_some cfg s x hlen hbytes hmagic hs hcnt hc hp, ?_,
    fun t u hready h14 h255 => send_copy_header cfg t u hready h14 h255⟩
  intro r s2 h
  have hb := getD_lt_256 x hbytes
  obtain ⟨e1, e2, e3, e4, e5⟩ :=
    processMessage_header cfg s s2 x r (by omega) hbytes hmagic h
  have h0 : x.getD 0 0 = 0xAA := getD_of_getElem? x 0 0xAA hmagic
  have b1 := hb 1
  have b2 := hb 2
  have b3 := hb 3
  have b4 := hb 4
  have b5 := hb 5
  have b6 := hb 6
  have b7 := hb 7
  have b8 := hb 8
  have b9 := hb 9
  rw [take10_eq x (by omega), h0]
  unfold specEncodeHeader getLastReceivedSource getLastReceivedDestination
    getLastReceivedResetCounter getLastReceivedMessageCounter getLastReceivedType
  rw [e1, e2, e3, e4, e5]
  have d1 : (256 * x.getD 1 0 + x.getD 2 0) / 256 % 256 = x.getD 1 0 := by omega
  have d2 : (256 * x.getD 1 0 + x.getD 2 0) % 256 = x.getD 2 0 := by omega
  have d3 : (256 * x.getD 3 0 + x.getD 4 0) / 256 % 256 = x.getD 3 0 := by omega
  have d4 : (256 * x.getD 3 0 + x.getD 4 0) % 256 = x.getD 4 0 := by omega
  have d5 : (256 * x.getD 5 0 + x.getD 6 0) / 256 % 256 = x.getD 5 0 := by omega
  have d6 : (256 * x.getD 5 0 + x.getD 6 0) % 256 = x.getD 6 0 := by omega
  have d7 : (256 * x.getD 7 0 + x.getD 8 0) / 256 % 256 = x.getD 7 0 := by omega
  have d8 : (256 * x.getD 7 0 + x.getD 8 0) % 256 = x.getD 8 0 := by omega
  have d9 : x.getD 9 0 % 256 = x.getD 9 0 := by omega
  rw [d1, d2, d3, d4, d5, d6, d7, d8, d9]

theorem C25_header_round_trip_witness :
    (∃ r s2, processMessage testCfg twoPeers newEpochBeacon = some (r, s2)) ∧
    (∀ r s2, processMessage testCfg twoPeers newEpochBeacon = some (r, s2) →
      specEncodeHeader (getLastReceivedSource s2) (getLastReceivedDestination s2)
        (getLastReceivedResetCounter s2) (getLastReceivedMessageCounter s2)
        (getLastReceivedType s2) = newEpochBeacon.take 10) ∧
    (∀ (t : WiLEDProto) (u : Nat), t.OutgoingReady testCfg →
      14 ≤ testCfg.MAXIMUM_MESSAGE_LENGTH → testCfg.MAXIMUM_MESSAGE_LENGTH ≤ 255 →
      ∃ s1 out s2, sendMessageBeacon t u = some (WiLP_RETURN_SUCCESS, s1) ∧
        copyToBuffer testCfg s1 = some (out, s2) ∧
        out.take 10 = specEncodeHeader t.__address 0xFFFF t.__self_reset_counter
          ((t.__self_message_counter + 1) % 65536) WiLP_Beacon) :=
  C25_header_round_trip testCfg twoPeers newEpochBeacon (by decide) (by decide) rfl
    ⟨rfl, rfl, rfl⟩ (by decide) rfl (by decide)


/-! ## Relations between calls of the validator (claims C33 and C34) -/

/-- A record that holds exactly the claimed counters rejects the claim as a
replay and leaves the object as it is. -/
theorem check_replay (cfg : Config) (s : WiLEDProto) (i a rc mc : Nat)
    (h : s.HasRecord i a rc mc) :
    __checkAndUpdateMessageCounter cfg s a rc mc =
      some (WiLP_RETURN_INVALID_MSG_CTR, s) := by
  rw [check_found cfg s a rc mc i rc mc h]
  obtain ⟨_, _, _, hR, hM⟩ := h
  unfold checkMatched
  simp only [hR, hM, Nat.lt_irrefl, if_false, ne_eq, not_true_eq_false]

/-- After an accepted call the registry holds the claimed counters for the
address. -/
theorem check_accepted_record (cfg : Config) (s s2 : WiLEDProto) (a rc mc : Nat)
    (h : __checkAndUpdateMessageCounter cfg s a rc mc = some (WiLP_RETURN_SUCCESS, s2)) :
    ∃ i, s2.HasRecord i a rc mc := by
  rcases check_cases cfg s s2 a rc mc _ h with ⟨i, hi, hai, hfirst, hm⟩ | ⟨_, hnf⟩
  · obtain ⟨hA, hC, R, hR, hcase⟩ := checkMatched_effect cfg s s2 i rc mc _ hm
    have hlenR : i < s.__reset_counter_array.length := by
      by_contra hcon
      rw [List.getElem?_eq_none (by omega)] at hR
      exact absurd hR (by simp)
    refine ⟨i, by rw [hC]; exact hi, by rw [hA]; exact hai, by rw [hA]; exact hfirst, ?_⟩
    rcases hcase with ⟨_, _, hlenM, hR2, hM2⟩ | ⟨_, hv, _⟩ | ⟨hRrc, M, hM, hcase2⟩
    · rw [hR2, hM2]
      exact ⟨List.getElem?_set_self hlenR, List.getElem?_set_self hlenM⟩
    · exact absurd hv (by decide)
    · rcases hcase2 with ⟨_, _, hR2, hM2⟩ | ⟨_, hv, _⟩
      · have hlenM : i < s.__message_counter_array.length := by
          by_contra hcon
          rw [List.getElem?_eq_none (by omega)] at hM
          exact absurd hM (by simp)
        rw [hR2, hM2]
        exact ⟨by rw [hR, hRrc], List.getElem?_set_self hlenM⟩
      · exact absurd hv (by decide)
  · rcases checkNotFound_effect cfg s s2 a mc _ hnf with
      ⟨_, _, _, hv, _⟩ | ⟨_, hv, _⟩
    · exact absurd hv (by decide)
    · exact absurd hv (by decide)

/-- C33 (accepted, then replayed): for every object and input `(addr, rc, mc)`
on which `__checkAndUpdateMessageCounter` returns `WiLP_RETURN_SUCCESS`, an
immediately following call with the same `(addr, rc, mc)` returns
`WiLP_RETURN_INVALID_MSG_CTR` and leaves the whole object, so the registry too,
unchanged. -/
theorem C33_accepted_then_replayed (cfg : Config) (s s2 : WiLEDProto) (addr rc mc : Nat)
    (h : __checkAndUpdateMessageCounter cfg s addr rc mc =
      some (WiLP_RETURN_SUCCESS, s2)) :
    __checkAndUpdateMessageCounter cfg s2 addr rc mc =
      some (WiLP_RETURN_INVALID_MSG_CTR, s2) := by
  obtain ⟨i, hrec⟩ := check_accepted_record cfg s s2 addr rc mc h
  exact check_replay cfg s2 i addr rc mc hrec

theorem C33_accepted_then_replayed_witness :
    __checkAndUpdateMessageCounter testCfg twoPeers 0x1000 5 8 =
      some (WiLP_RETURN_SUCCESS,
        { twoPeers with __message_counter_array := [8, 9, 0, 0] }) ∧
    __checkAndUpdateMessageCounter testCfg
        { twoPeers with __message_counter_array := [8, 9, 0, 0] } 0x1000 5 8 =
      some (WiLP_RETURN_INVALID_MSG_CTR,
        { twoPeers with __message_counter_array := [8, 9, 0, 0] }) :=
  ⟨rfl, C33_accepted_then_replayed testCfg twoPeers
    { twoPeers with __message_counter_array := [8, 9, 0, 0] } 0x1000 5 8 rfl⟩

/-- C34 (validation touches only the matching peer): for every call
`__checkAndUpdateMessageCounter(addr, rc, mc)` (which returns when the arrays
have their declared size, the count is within the capacity and the commit
callback is set), every registry entry below the count whose address differs
from `addr` has the same address, stored reset counter and stored message
counter after the call as before.  Distinctness of the addresses is not
needed. -/
theorem C34_validation_touches_only_matching_peer (cfg : Config) (s : WiLEDProto)
    (addr rc mc : Nat)
    (hs : s.Sized cfg) (hc : s.__storage_commit_callback = true)
    (hcnt : s.__count_addresses ≤ cfg.MAXIMUM_STORED_ADDRESSES) :
    (∃ v s2, __checkAndUpdateMessageCounter cfg s addr rc mc = some (v, s2)) ∧
    ∀ v s2, __checkAndUpdateMessageCounter cfg s addr rc mc = some (v, s2) →
      ∀ j x, j < s.__count_addresses → s.__address_array[j]? = some x → x ≠ addr →
        s2.__address_array[j]? = some x ∧
        s2.__reset_counter_array[j]? = s.__reset_counter_array[j]? ∧
        s2.__message_counter_array[j]? = s.__message_counter_array[j]? := by
  refine ⟨check_some cfg s addr rc mc hs hcnt hc, ?_⟩
  intro v s2 h j x hj hx hne
  rcases check_cases cfg s s2 addr rc mc v h with ⟨i, hi, hai, _, hm⟩ | ⟨_, hnf⟩
  · have hij : i ≠ j := by
      intro e
      rw [e, hx] at hai
      exact hne (Option.some.inj hai)
    obtain ⟨hA, _, R, _, hcase⟩ := checkMatched_effect cfg s s2 i rc mc v hm
    rcases hcase with ⟨_, _, _, hR2, hM2⟩ | ⟨_, _, rfl⟩ | ⟨_, M, _, hcase2⟩
    · rw [hA, hR2, hM2]
      exact ⟨hx, List.getElem?_set_ne hij, List.getElem?_set_ne hij⟩
    · exact ⟨hx, rfl, rfl⟩
    · rcases hcase2 with ⟨_, _, hR2, hM2⟩ | ⟨_, _, rfl⟩
      · rw [hA, hR2, hM2]
        exact ⟨hx, rfl, List.getElem?_set_ne hij⟩
      · exact ⟨hx, rfl, rfl⟩
  · rcases checkNotFound_effect cfg s s2 addr mc v hnf with
      ⟨_, _, _, _, hA, hM2, hR2, _⟩ | ⟨_, _, rfl⟩
    · rw [hA, hR2, hM2]
      exact ⟨by rw [List.getElem?_set_ne (by omega)]; exact hx, rfl,
        List.getElem?_set_ne (by omega)⟩
    · exact ⟨hx, rfl, rfl⟩

theorem C34_validation_touches_only_matching_peer_witness :
    (∃ v s2, __checkAndUpdateMessageCounter testCfg twoPeers 0x1000 6 1 = some (v, s2)) ∧
    ∀ v s2, __checkAndUpdateMessageCounter testCfg twoPeers 0x1000 6 1 = some (v, s2) →
      ∀ j x, j < twoPeers.__count_addresses → twoPeers.__address_array[j]? = some x →
        x ≠ 0x1000 →
        s2.__address_array[j]? = some x ∧
        s2.__reset_counter_array[j]? = twoPeers.__reset_counter_array[j]? ∧
        s2.__message_counter_array[j]? = twoPeers.__message_counter_array[j]? :=
  C34_validation_touches_only_matching_peer testCfg twoPeers 0x1000 6 1 ⟨rfl, rfl, rfl⟩
    rfl (by decide)

/-! ## Frames rejected before validation (claim C35) -/

/-- C35 (frames rejected before validation change no replay state): when
`processMessage` returns `WiLP_RETURN_INVALID_BUFFER` or
`WiLP_RETURN_NOT_THIS_DEST`, the address, reset-counter and message-counter
arrays, the count, the stored validation result and the storage collaborator
(its contents and the list of calls made to it, so no callback was invoked)
are identical to what they were before the call. -/
theorem C35_rejected_frames_keep_replay_state (cfg : Config) (s s3 : WiLEDProto)
    (inBuffer : List Nat) (r : WiLPReturn)
    (h : processMessage cfg s inBuffer = some (r, s3))
    (hr : r = WiLP_RETURN_INVALID_BUFFER ∨ r = WiLP_RETURN_NOT_THIS_DEST) :
    s3.__address_array = s.__address_array ∧
    s3.__reset_counter_array = s.__reset_counter_array ∧
    s3.__message_counter_array = s.__message_counter_array ∧
    s3.__count_addresses = s.__count_addresses ∧
    getLastReceivedMessageCounterValidation s3 =
      getLastReceivedMessageCounterValidation s ∧
    s3.storage = s.storage := by
  rcases processMessage_cases cfg s s3 inBuffer r h with ⟨_, rfl⟩ |
    ⟨b1, b2, b3, b4, b5, b6, b7, b8, b9, _, rfl⟩ |
    ⟨b1, b2, b3, b4, b5, b6, b7, b8, b9, v, s1, _, hres⟩
  · exact ⟨rfl, rfl, rfl, rfl, rfl, rfl⟩
  · exact ⟨rfl, rfl, rfl, rfl, rfl, rfl⟩
  · rcases hres with ⟨hv, _⟩ | ⟨hv, _⟩
    · rw [hv] at hr
      rcases hr with hr | hr
      · exact absurd hr (by decide)
      · exact absurd hr (by decide)
    · rw [hv] at hr
      rcases hr with hr | hr
      · exact absurd hr (by decide)
      · exact absurd hr (by decide)

theorem C35_rejected_frames_keep_replay_state_witness :
    processMessage testCfg twoPeers beaconTo3000 = some (WiLP_RETURN_NOT_THIS_DEST,
      storeHeader twoPeers 0x10 0x01 0x30 0x00 0x00 0x01 0x00 0x01 0x01) ∧
    (storeHeader twoPeers 0x10 0x01 0x30 0x00 0x00 0x01 0x00 0x01 0x01).__address_array
      = twoPeers.__address_array ∧
    (storeHeader twoPeers 0x10 0x01 0x30 0x00 0x00 0x01 0x00 0x01 0x01).__reset_counter_array
      = twoPeers.__reset_counter_array ∧
    (storeHeader twoPeers 0x10 0x01 0x30 0x00 0x00 0x01 0x00 0x01
      0x01).__message_counter_array = twoPeers.__message_counter_array ∧
    (storeHeader twoPeers 0x10 0x01 0x30 0x00 0x00 0x01 0x00 0x01 0x01).__count_addresses
      = twoPeers.__count_addresses ∧
    getLastReceivedMessageCounterValidation
      (storeHeader twoPeers 0x10 0x01 0x30 0x00 0x00 0x01 0x00 0x01 0x01) =
      getLastReceivedMessageCounterValidation twoPeers ∧
    (storeHeader twoPeers 0x10 0x01 0x30 0x00 0x00 0x01 0x00 0x01 0x01).storage
      = twoPeers.storage :=
  ⟨rfl, C35_rejected_frames_keep_replay_state testCfg twoPeers
    (storeHeader twoPeers 0x10 0x01 0x30 0x00 0x00 0x01 0x00 0x01 0x01) beaconTo3000
    WiLP_RETURN_NOT_THIS_DEST rfl (Or.inr rfl)⟩


/-! ## Send state and receive state (claim C36) -/

theorem setTypeByte_frame (s s2 : WiLEDProto) (t : Nat)
    (h : __setTypeByte s t = some s2) :
    ∃ b, s2 = { s with __outgoing_message_buffer := b } := by
  unfold __setTypeByte at h
  cases hb : setByte s.__outgoing_message_buffer 9 t with
  | none => rw [hb] at h; exact absurd h (by simp)
  | some b =>
    rw [hb] at h
    simp only [Option.map_some', Option.some.injEq] at h
    exact ⟨b, h.symm⟩

theorem setDestinationByte_frame (s s2 : WiLEDProto) (d : Nat)
    (h : __setDestinationByte s d = some s2) :
    ∃ b, s2 = { s with __outgoing_message_buffer := b } := by
  unfold __setDestinationByte at h
  split at h
  · exact absurd h (by simp)
  · rename_i b1 _
    cases hb : setByte b1 4 d with
    | none => rw [hb] at h; exact absurd h (by simp)
    | some b =>
      rw [hb] at h
      simp only [Option.map_some', Option.some.injEq] at h
      exact ⟨b, h.symm⟩

theorem setPayloadByte_frame (s s2 : WiLEDProto) (o p : Nat)
    (h : __setPayloadByte s o p = some s2) :
    ∃ b, s2 = { s with __outgoing_message_buffer := b } := by
  unfold __setPayloadByte at h
  cases hb : setByte s.__outgoing_message_buffer (10 + o) p with
  | none => rw [hb] at h; exact absurd h (by simp)
  | some b =>
    rw [hb] at h
    simp only [Option.map_some', Option.some.injEq] at h
    exact ⟨b, h.symm⟩

/-- The builder `sendMessageBeacon` changes the outgoing buffer only. -/
theorem sendMessageBeacon_frame (s s2 : WiLEDProto) (u : Nat) (r : WiLPReturn)
    (h : sendMessageBeacon s u = some (r, s2)) :
    ∃ b, s2 = { s with __outgoing_message_buffer := b } := by
  unfold sendMessageBeacon at h
  split at h
  · exact absurd h (by simp)
  · rename_i t1 h1
    split at h
    · exact absurd h (by simp)
    · rename_i t2 h2
      split at h
      · exact absurd h (by simp)
      · rename_i t3 h3
        split at h
        · exact absurd h (by simp)
        · rename_i t4 h4
          split at h
          · exact absurd h (by simp)
          · rename_i t5 h5
            split at h
            · exact absurd h (by simp)
            · rename_i t6 h6
              simp only [Option.some.injEq, Prod.mk.injEq] at h
              obtain ⟨_, rfl⟩ := h
              obtain ⟨c1, rfl⟩ := setTypeByte_frame _ _ _ h1
              obtain ⟨c2, rfl⟩ := setDestinationByte_frame _ _ _ h2
              obtain ⟨c3, rfl⟩ := setPayloadByte_frame _ _ _ _ h3
              obtain ⟨c4, rfl⟩ := setPayloadByte_frame _ _ _ _ h4
              obtain ⟨c5, rfl⟩ := setPayloadByte_frame _ _ _ _ h5
              obtain ⟨c6, rfl⟩ := setPayloadByte_frame _ _ _ _ h6
              exact ⟨c6, rfl⟩

/-- The finaliser `copyToBuffer` changes the own message counter and the
outgoing buffer only. -/
theorem copyToBuffer_frame (cfg : Config) (s s2 : WiLEDProto) (out : List Nat)
    (h : copyToBuffer cfg s = some (out, s2)) :
    ∃ b, s2 = { s with
      __self_message_counter := (s.__self_message_counter + 1) % 65536
      __outgoing_message_buffer := b } := by
  unfold copyToBuffer at h
  split at h
  · exact absurd h (by simp)
  · split at h
    · exact absurd h (by simp)
    · dsimp only at h
      split at h
      · exact absurd h (by simp)
      · split at h
        · exact absurd h (by simp)
        · split at h
          · split at h
            · exact absurd h (by simp)
            · rename_i b5 _
              simp only [Option.some.injEq, Prod.mk.injEq] at h
              exact ⟨b5, h.2.symm⟩
          · exact absurd h (by simp)

/-- The receiver `processMessage` leaves the sending side of the object
alone. -/
theorem processMessage_frame (cfg : Config) (s s3 : WiLEDProto) (inBuffer : List Nat)
    (r : WiLPReturn) (h : processMessage cfg s inBuffer = some (r, s3)) :
    s3.__address = s.__address ∧
    s3.__self_reset_counter = s.__self_reset_counter ∧
    s3.__self_message_counter = s.__self_message_counter ∧
    s3.__outgoing_message_buffer = s.__outgoing_message_buffer ∧
    s3.__storage_read_callback = s.__storage_read_callback ∧
    s3.__storage_write_callback = s.__storage_write_callback ∧
    s3.__storage_commit_callback = s.__storage_commit_callback := by
  rcases processMessage_cases cfg s s3 inBuffer r h with ⟨_, rfl⟩ |
    ⟨b1, b2, b3, b4, b5, b6, b7, b8, b9, _, rfl⟩ |
    ⟨b1, b2, b3, b4, b5, b6, b7, b8, b9, v, s1, hchk, hres⟩
  · exact ⟨rfl, rfl, rfl, rfl, rfl, rfl, rfl⟩
  · exact ⟨rfl, rfl, rfl, rfl, rfl, rfl, rfl⟩
  · obtain ⟨f1, f2, f3, f4, f5, f6, f7, _⟩ := check_frame _ _ _ _ _ _ _ hchk
    rcases hres with ⟨_, rfl⟩ | ⟨_, rfl⟩
    · exact ⟨f1, f6, f7, f5, f2, f3, f4⟩
    · exact ⟨f1, f6, f7, f5, f2, f3, f4⟩

/-- C36 (send state and receive state are disjoint): whatever `processMessage`
returns, the own address, own reset counter, own message counter and the
outgoing buffer are as before; whatever `sendMessageBeacon` and `copyToBuffer`
return, the last-received fields (destination, source, type, reset counter,
message counter, validation result, payload and payload length) and the peer
registry (the three arrays and the count) are as before; and
`sendMessageBeacon` changes neither own counter. -/
theorem C36_send_and_receive_state_disjoint (cfg : Config) (s : WiLEDProto) :
    (∀ inBuffer r s3, processMessage cfg s inBuffer = some (r, s3) →
      s3.__address = s.__address ∧
      s3.__self_reset_counter = s.__self_reset_counter ∧
      s3.__self_message_counter = s.__self_message_counter ∧
      s3.__outgoing_message_buffer = s.__outgoing_message_buffer) ∧
    (∀ u r s2, sendMessageBeacon s u = some (r, s2) →
      (s2.__last_received_destination = s.__last_received_destination ∧
       s2.__last_received_source = s.__last_received_source ∧
       s2.__last_received_type = s.__last_received_type ∧
       s2.__last_received_reset_counter = s.__last_received_reset_counter ∧
       s2.__last_received_message_counter = s.__last_received_message_counter ∧
       s2.__last_received_message_counter_validation =
         s.__last_received_message_counter_validation ∧
       s2.__last_received_payload = s.__last_received_payload ∧
       s2.__last_received_payload_length = s.__last_received_payload_length) ∧
      (s2.__address_array = s.__address_array ∧
       s2.__reset_counter_array = s.__reset_counter_array ∧
       s2.__message_counter_array = s.__message_counter_array ∧
       s2.__count_addresses = s.__count_addresses) ∧
      s2.__self_reset_counter = s.__self_reset_counter ∧
      s2.__self_message_counter = s.__self_message_counter) ∧
    (∀ out s2, copyToBuffer cfg s = some (out, s2) →
      (s2.__last_received_destination = s.__last_received_destination ∧
       s2.__last_received_source = s.__last_received_source ∧
       s2.__last_received_type = s.__last_received_type ∧
       s2.__last_received_reset_counter = s.__last_received_reset_counter ∧
       s2.__last_received_message_counter = s.__last_received_message_counter ∧
       s2.__last_received_message_counter_validation =
         s.__last_received_message_counter_validation ∧
       s2.__last_received_payload = s.__last_received_payload ∧
       s2.__last_received_payload_length = s.__last_received_payload_length) ∧
      (s2.__address_array = s.__address_array ∧
       s2.__reset_counter_array = s.__reset_counter_array ∧
       s2.__message_counter_array = s.__message_counter_array ∧
       s2.__count_addresses = s.__count_addresses)) := by
  refine ⟨?_, ?_, ?_⟩
  · intro x r s3 h
    obtain ⟨f1, f2, f3, f4, _⟩ := processMessage_frame cfg s s3 x r h
    exact ⟨f1, f2, f3, f4⟩
  · intro u r s2 h
    obtain ⟨b, rfl⟩ := sendMessageBeacon_frame s s2 u r h
    exact ⟨⟨rfl, rfl, rfl, rfl, rfl, rfl, rfl, rfl⟩, ⟨rfl, rfl, rfl, rfl⟩, rfl, rfl⟩
  · intro out s2 h
    obtain ⟨b, rfl⟩ := copyToBuffer_frame cfg s s2 out h
    exact ⟨⟨rfl, rfl, rfl, rfl, rfl, rfl, rfl, rfl⟩, ⟨rfl, rfl, rfl, rfl⟩⟩


/-! ## The payload of an accepted Beacon frame (claim C31) -/

theorem payload4_eq (x : List Nat) (hlen : 14 ≤ x.length) :
    (x.drop 10).take 4 = [x.getD 10 0, x.getD 11 0, x.getD 12 0, x.getD 13 0] := by
  match x, hlen with
  | _ :: _ :: _ :: _ :: _ :: _ :: _ :: _ :: _ :: _ :: _ :: _ :: _ :: _ :: rest, _ => rfl

/-- What `processMessage` has done when it returns `WiLP_RETURN_SUCCESS`. -/
theorem processMessage_success (cfg : Config) (s s3 : WiLEDProto) (inBuffer : List Nat)
    (h : processMessage cfg s inBuffer = some (WiLP_RETURN_SUCCESS, s3)) :
    14 ≤ inBuffer.length ∧
    s3.__last_received_type = WiLP_Beacon ∧
    s3.__last_received_payload_length = 4 ∧
    s3.__last_received_payload.take 4 = (inBuffer.drop 10).take 4 := by
  unfold processMessage at h
  split at h
  · exact absurd h (by simp)
  · split at h
    · simp only [Option.some.injEq, Prod.mk.injEq] at h
      exact absurd h.1 (by decide)
    · split at h
      · dsimp only at h
        split at h
        · simp only [Option.some.injEq, Prod.mk.injEq] at h
          exact absurd h.1 (by decide)
        · split at h
          · exact absurd h (by simp)
          · split at h
            · rename_i hty
              split at h
              · rename_i hlen
                simp only [Option.some.injEq, Prod.mk.injEq] at h
                obtain ⟨_, rfl⟩ := h
                refine ⟨hlen.1, hty, rfl, ?_⟩
                apply List.take_left'
                rw [List.length_take, List.length_drop]
                omega
              · exact absurd h (by simp)
            · simp only [Option.some.injEq, Prod.mk.injEq] at h
              exact absurd h.1 (by decide)
      · exact absurd h (by simp)

/-- The result of `processMessage` depends on the first 14 bytes of the buffer
only. -/
theorem processMessage_take14 (cfg : Config) (s : WiLEDProto) (x : List Nat) :
    processMessage cfg s (x.take 14) = processMessage cfg s x := by
  have e : ∀ k, k < 14 → (x.take 14)[k]? = x[k]? := by
    intro k hk
    rw [List.getElem?_take]
    simp [hk]
  have elen : (10 + 4 ≤ (x.take 14).length) = (10 + 4 ≤ x.length) := by
    rw [List.length_take]
    apply propext
    omega
  have edrop : ((x.take 14).drop 10).take 4 = (x.drop 10).take 4 := by
    rw [List.drop_take, List.take_take]
    rfl
  unfold processMessage
  simp only [e 0 (by omega), e 1 (by omega), e 2 (by omega), e 3 (by omega),
    e 4 (by omega), e 5 (by omega), e 6 (by omega), e 7 (by omega), e 8 (by omega),
    e 9 (by omega), elen, edrop]

/-- C31 (payload extraction): whenever `processMessage` returns
`WiLP_RETURN_SUCCESS` for a buffer, the frame is a Beacon frame, the buffer
has at least 14 bytes, `__last_received_payload_length` is 4 and the first 4
bytes of `__last_received_payload` are bytes 10 to 13 of the buffer.  Every
buffer with the same first 14 bytes gives the same result: no byte beyond
offset 13 is read.  When the buffer was produced by `sendMessageBeacon(u)`
followed by `copyToBuffer` with `u` below `2^32`, the big-endian value of these
four bytes is `u`. -/
theorem C31_payload_extraction (cfg : Config) (s s3 : WiLEDProto) (inBuffer : List Nat)
    (h : processMessage cfg s inBuffer = some (WiLP_RETURN_SUCCESS, s3)) :
    getLastReceivedType s3 = WiLP_Beacon ∧
    14 ≤ inBuffer.length ∧
    s3.__last_received_payload_length = 4 ∧
    s3.__last_received_payload.take 4 =
      [inBuffer.getD 10 0, inBuffer.getD 11 0, inBuffer.getD 12 0, inBuffer.getD 13 0] ∧
    (∀ y : List Nat, y.take 14 = inBuffer.take 14 →
      processMessage cfg s y = processMessage cfg s inBuffer) ∧
    (∀ (snd s1 s2 : WiLEDProto) (u : Nat) (r : WiLPReturn),
      snd.__outgoing_message_buffer.length = cfg.MAXIMUM_MESSAGE_LENGTH →
      14 ≤ cfg.MAXIMUM_MESSAGE_LENGTH → cfg.MAXIMUM_MESSAGE_LENGTH ≤ 255 →
      u < 4294967296 →
      sendMessageBeacon snd u = some (r, s1) → copyToBuffer cfg s1 = some (inBuffer, s2) →
      16777216 * inBuffer.getD 10 0 + 65536 * inBuffer.getD 11 0
        + 256 * inBuffer.getD 12 0 + inBuffer.getD 13 0 = u) := by
  obtain ⟨hlen, hty, hpl, hpay⟩ := processMessage_success cfg s s3 inBuffer h
  refine ⟨hty, hlen, hpl, by rw [hpay, payload4_eq inBuffer hlen], ?_, ?_⟩
  · intro y hy
    rw [← processMessage_take14 cfg s y, hy, processMessage_take14]
  · intro snd s1 s2 u r hlen2 h14 h255 hu hsend hcopy
    obtain ⟨t1, out, t2, hsend2, hcopy2, _, _, _, _, _, _, _, _, _, _, _, o10, o11, o12,
      o13, _⟩ := send_copy cfg snd u hlen2 h14 h255
    rw [hsend2] at hsend
    simp only [Option.some.injEq, Prod.mk.injEq] at hsend
    rw [hsend.2, hcopy] at hcopy2
    simp only [Option.some.injEq, Prod.mk.injEq] at hcopy2
    rw [← hcopy2.1] at o10 o11 o12 o13
    rw [getD_of_getElem? _ _ _ o10, getD_of_getElem? _ _ _ o11,
      getD_of_getElem? _ _ _ o12, getD_of_getElem? _ _ _ o13]
    omega

theorem C31_payload_extraction_witness :
    processMessage testCfg twoPeers firstBeacon = some (WiLP_RETURN_SUCCESS,
      ((processMessage testCfg twoPeers firstBeacon).map Prod.snd).getD twoPeers) ∧
    (((processMessage testCfg twoPeers firstBeacon).map Prod.snd).getD
      twoPeers).__last_received_payload.take 4 = [0x49, 0x96, 0x02, 0xD2] :=
  ⟨rfl, (C31_payload_extraction testCfg twoPeers
    (((processMessage testCfg twoPeers firstBeacon).map Prod.snd).getD twoPeers)
    firstBeacon rfl).2.2.2.1⟩


/-! ## Memory safety of the four operations (claim C38) -/

/-- On every buffer of at least 14 bytes `processMessage` returns (arrays of
declared size, count within capacity, commit callback set, room for the
payload). -/
theorem processMessage_total (cfg : Config) (s : WiLEDProto) (inBuffer : List Nat)
    (hlen : 14 ≤ inBuffer.length) (hbytes : ∀ b ∈ inBuffer, b < 256)
    (hs : s.Sized cfg) (hcnt : s.__count_addresses ≤ cfg.MAXIMUM_STORED_ADDRESSES)
    (hc : s.__storage_commit_callback = true)
    (hp : 4 ≤ s.__last_received_payload.length) :
    ∃ r s3, processMessage cfg s inBuffer = some (r, s3) := by
  by_cases hm : inBuffer.getD 0 0 = 0xAA
  · have hmagic : inBuffer[0]? = some 0xAA := by
      rw [getElem?_eq_some_getD inBuffer 0 (by omega), hm]
    exact processMessage_some cfg s inBuffer hlen hbytes hmagic hs hcnt hc hp
  · unfold processMessage
    simp only [getElem?_eq_some_getD inBuffer 0 (by omega)]
    rw [if_pos hm]
    exact ⟨_, _, rfl⟩

/-- C38 (array accesses stay in bounds): an access outside an array leaves the
modelled operation without a result.  With `__count_addresses` at most
`MAXIMUM_STORED_ADDRESSES` and `MAXIMUM_MESSAGE_LENGTH` at least 14 (and at
most 255, the commit callback set, the arrays and buffers of their declared
sizes), `__checkAndUpdateMessageCounter` on any input, `processMessage` on any
buffer of `MAXIMUM_MESSAGE_LENGTH` bytes, `sendMessageBeacon` on any uptime
and `copyToBuffer` all return a result, the last one a buffer of
`MAXIMUM_MESSAGE_LENGTH` bytes: every index they use is inside its array. -/
theorem C38_accesses_in_bounds (cfg : Config) (s : WiLEDProto) (inBuffer : List Nat)
    (addr rc mc u : Nat)
    (hcnt : s.__count_addresses ≤ cfg.MAXIMUM_STORED_ADDRESSES)
    (h14 : 14 ≤ cfg.MAXIMUM_MESSAGE_LENGTH) (h255 : cfg.MAXIMUM_MESSAGE_LENGTH ≤ 255)
    (hc : s.__storage_commit_callback = true)
    (hs : s.Sized cfg)
    (hout : s.__outgoing_message_buffer.length = cfg.MAXIMUM_MESSAGE_LENGTH)
    (hpay : s.__last_received_payload.length = cfg.MAXIMUM_MESSAGE_LENGTH)
    (hin : inBuffer.length = cfg.MAXIMUM_MESSAGE_LENGTH)
    (hbytes : ∀ b ∈ inBuffer, b < 256) :
    (∃ v s2, __checkAndUpdateMessageCounter cfg s addr rc mc = some (v, s2)) ∧
    (∃ r s2, processMessage cfg s inBuffer = some (r, s2)) ∧
    (∃ s2, sendMessageBeacon s u = some (WiLP_RETURN_SUCCESS, s2)) ∧
    (∃ out s2, copyToBuffer cfg s = some (out, s2) ∧
      out.length = cfg.MAXIMUM_MESSAGE_LENGTH) := by
  refine ⟨check_some cfg s addr rc mc hs hcnt hc,
    processMessage_total cfg s inBuffer (by omega) hbytes hs hcnt hc (by omega),
    ⟨_, sendMessageBeacon_eq s u (by omega)⟩, ?_⟩
  obtain ⟨w, hcopy, _⟩ := copyToBuffer_eq cfg s hout (by omega) h255
  refine ⟨_, _, hcopy, ?_⟩
  simp only [List.length_set]
  exact hout

theorem C38_accesses_in_bounds_witness :
    (∃ v s2, __checkAndUpdateMessageCounter testCfg fullRegistry 0x4000 1 1
      = some (v, s2)) ∧
    (∃ r s2, processMessage testCfg fullRegistry firstBeacon = some (r, s2)) ∧
    (∃ s2, sendMessageBeacon fullRegistry 0x499602D2 = some (WiLP_RETURN_SUCCESS, s2)) ∧
    (∃ out s2, copyToBuffer testCfg fullRegistry = some (out, s2) ∧
      out.length = testCfg.MAXIMUM_MESSAGE_LENGTH) :=
  C38_accesses_in_bounds testCfg fullRegistry firstBeacon 0x4000 1 1 0x499602D2
    (by decide) (by decide) (by decide) rfl ⟨rfl, rfl, rfl⟩ rfl rfl rfl (by decide)

/-! ## An engine with an invalid address (claim C39) -/

/-- C39 (an engine with an invalid address still accepts traffic): an engine
constructed with address 0 or `0xFFFF` has `__address = 0` and bytes 1 and 2 of
its outgoing buffer are 0.  On a frame with magic `0xAA` and destination 0
`processMessage` runs `__checkAndUpdateMessageCounter` on the decoded source,
reset counter and message counter, stores its result and returns something
other than `WiLP_RETURN_NOT_THIS_DEST`; and the frame that
`sendMessageBeacon` followed by `copyToBuffer` emits carries source address 0
in bytes 1 and 2. -/
theorem C39_invalid_address_engine (cfg : Config) (a : Nat) (rcb wcb : Bool)
    (st : Storage) (inBuffer : List Nat) (u : Nat)
    (ha : a = 0 ∨ a = 0xFFFF)
    (h14 : 14 ≤ cfg.MAXIMUM_MESSAGE_LENGTH) (h255 : cfg.MAXIMUM_MESSAGE_LENGTH ≤ 255)
    (hlen : 14 ≤ inBuffer.length) (hbytes : ∀ b ∈ inBuffer, b < 256)
    (hmagic : inBuffer[0]? = some 0xAA)
    (hd3 : inBuffer[3]? = some 0) (hd4 : inBuffer[4]? = some 0) :
    ∃ e, new cfg a rcb wcb true st = some e ∧
      e.__address = 0 ∧
      e.__outgoing_message_buffer[1]? = some 0 ∧
      e.__outgoing_message_buffer[2]? = some 0 ∧
      (∃ v e1 r e2,
        __checkAndUpdateMessageCounter cfg
          (storeHeader e (inBuffer.getD 1 0) (inBuffer.getD 2 0) (inBuffer.getD 3 0)
            (inBuffer.getD 4 0) (inBuffer.getD 5 0) (inBuffer.getD 6 0)
            (inBuffer.getD 7 0) (inBuffer.getD 8 0) (inBuffer.getD 9 0))
          (256 * inBuffer.getD 1 0 + inBuffer.getD 2 0)
          (256 * inBuffer.getD 5 0 + inBuffer.getD 6 0)
          (256 * inBuffer.getD 7 0 + inBuffer.getD 8 0) = some (v, e1) ∧
        processMessage cfg e inBuffer = some (r, e2) ∧
        r ≠ WiLP_RETURN_NOT_THIS_DEST ∧
        getLastReceivedDestination e2 = 0 ∧
        getLastReceivedMessageCounterValidation e2 = v) ∧
      (∃ s1 out s2, sendMessageBeacon e u = some (WiLP_RETURN_SUCCESS, s1) ∧
        copyToBuffer cfg s1 = some (out, s2) ∧
        out[1]? = some 0 ∧ out[2]? = some 0) := by
  obtain ⟨e, he, haddr, _, _, hc, _, _, _, hcount, hs, hpl, holen, _, _, hb1, hb2, _⟩ :=
    new_eq cfg a rcb wcb true st (by omega)
  have hzero : e.__address = 0 := by
    rw [haddr, if_neg (by omega)]
  rw [hzero] at hb1 hb2
  refine ⟨e, he, hzero, hb1, hb2, ?_, ?_⟩
  · have g3 := getD_of_getElem? _ _ _ hd3
    have g4 := getD_of_getElem? _ _ _ hd4
    have hdest : 256 * inBuffer.getD 3 0 + inBuffer.getD 4 0 = e.__address ∨
        256 * inBuffer.getD 3 0 + inBuffer.getD 4 0 = 0xFFFF :=
      Or.inl (by rw [g3, g4, hzero])
    obtain ⟨v, e1, hchk⟩ := check_some cfg
      (storeHeader e (inBuffer.getD 1 0) (inBuffer.getD 2 0) (inBuffer.getD 3 0)
        (inBuffer.getD 4 0) (inBuffer.getD 5 0) (inBuffer.getD 6 0) (inBuffer.getD 7 0)
        (inBuffer.getD 8 0) (inBuffer.getD 9 0))
      (256 * inBuffer.getD 1 0 + inBuffer.getD 2 0)
      (256 * inBuffer.getD 5 0 + inBuffer.getD 6 0)
      (256 * inBuffer.getD 7 0 + inBuffer.getD 8 0) hs
      (by show e.__count_addresses ≤ _; rw [hcount]; exact Nat.zero_le _) hc
    obtain ⟨_, hdst, _, _, _, hpay⟩ := header_after_check cfg e inBuffer hbytes v e1 hchk
    have hpm := processMessage_checked cfg e inBuffer (by omega) hbytes hmagic hdest v e1
      hchk
    rw [g3, g4] at hdst
    by_cases ht : e1.__last_received_type = WiLP_Beacon
    · rw [if_pos ht, if_pos ⟨by omega, by rw [hpay, hpl]; omega⟩] at hpm
      exact ⟨v, e1, _, _, hchk, hpm, by decide, hdst, rfl⟩
    · rw [if_neg ht] at hpm
      exact ⟨v, e1, _, _, hchk, hpm, by decide, hdst, rfl⟩
  · obtain ⟨s1, out, s2, hsend, hcopy, _, _, o1, o2, _⟩ :=
      send_copy cfg e u holen h14 h255
    rw [hb1] at o1
    rw [hb2] at o2
    exact ⟨s1, out, s2, hsend, hcopy, o1, o2⟩

theorem C39_invalid_address_engine_witness :
    ∃ e, new testCfg 0xFFFF true true true zeroStorage = some e ∧
      e.__address = 0 ∧
      e.__outgoing_message_buffer[1]? = some 0 ∧
      e.__outgoing_message_buffer[2]? = some 0 ∧
      (∃ v e1 r e2,
        __checkAndUpdateMessageCounter testCfg
          (storeHeader e (beaconToZero.getD 1 0)
            (beaconToZero.getD 2 0)
            (beaconToZero.getD 3 0)
            (beaconToZero.getD 4 0)
            (beaconToZero.getD 5 0)
            (beaconToZero.getD 6 0)
            (beaconToZero.getD 7 0)
            (beaconToZero.getD 8 0)
            (beaconToZero.getD 9 0))
          (256 * beaconToZero.getD 1 0
            + beaconToZero.getD 2 0)
          (256 * beaconToZero.getD 5 0
            + beaconToZero.getD 6 0)
          (256 * beaconToZero.getD 7 0
            + beaconToZero.getD 8 0) = some (v, e1) ∧
        processMessage testCfg e beaconToZero = some (r, e2) ∧
        r ≠ WiLP_RETURN_NOT_THIS_DEST ∧
        getLastReceivedDestination e2 = 0 ∧
        getLastReceivedMessageCounterValidation e2 = v) ∧
      (∃ s1 out s2, sendMessageBeacon e 0x499602D2 = some (WiLP_RETURN_SUCCESS, s1) ∧
        copyToBuffer testCfg s1 = some (out, s2) ∧
        out[1]? = some 0 ∧ out[2]? = some 0) :=
  C39_invalid_address_engine testCfg 0xFFFF true true zeroStorage
    beaconToZero 0x499602D2 (Or.inr rfl) (by decide) (by decide)
    (by decide) (by decide) rfl rfl rfl


/-! ## In-order delivery between two fresh engines (claim C32) -/

theorem wordsOf_zeros : ∀ (n : Nat) (l : List Nat), l.length = 2 * n →
    (∀ b ∈ l, b = 0) → wordsOf l = List.replicate n 0 := by
  intro n
  induction n with
  | zero =>
    intro l h _
    have : l = [] := List.length_eq_zero.mp (by omega)
    subst this
    rfl
  | succ n ih =>
    intro l h hz
    match l, h, hz with
    | a :: b :: rest, h, hz =>
      have ha : a = 0 := hz a (by simp)
      have hb : b = 0 := hz b (by simp)
      subst ha
      subst hb
      simp only [wordsOf, List.replicate_succ]
      rw [ih rest (by simp only [List.length_cons] at h; omega)
        (fun x hx => hz x (by simp [hx]))]

theorem bytesOf_zeros (arr : List Nat) (h : ∀ x ∈ arr, x = 0) :
    ∀ b ∈ bytesOf arr, b = 0 := by
  induction arr with
  | nil => intro b hb; simp [bytesOf] at hb
  | cons w ws ih =>
    intro b hb
    have hw : w = 0 := h w (List.mem_cons_self _ _)
    rw [bytesOf_cons, hw] at hb
    rcases List.mem_cons.mp hb with e | hb
    · exact e
    · rcases List.mem_cons.mp hb with e | hb
      · exact e
      · exact ih (fun x hx => h x (List.mem_cons_of_mem _ hx)) b hb

/-- The registry arrays as the constructor leaves them. -/
theorem new_arrays (cfg : Config) (a : Nat) (rcb wcb ccb : Bool) (st : Storage)
    (s : WiLEDProto) (h : new cfg a rcb wcb ccb st = some s) :
    s.__address_array = List.replicate cfg.MAXIMUM_STORED_ADDRESSES 0 ∧
    s.__reset_counter_array = List.replicate cfg.MAXIMUM_STORED_ADDRESSES 0 ∧
    s.__message_counter_array = List.replicate cfg.MAXIMUM_STORED_ADDRESSES 0 := by
  unfold new at h
  dsimp only at h
  split at h
  · exact absurd h (by simp)
  · split at h
    · exact absurd h (by simp)
    · split at h
      · exact absurd h (by simp)
      · simp only [Option.some.injEq] at h
        subst h
        exact ⟨rfl, rfl, rfl⟩

/-- The words that `initStorage` loads over all-zero storage into an all-zero
array are all zero. -/
theorem loaded_zeros (st : Storage) (off n : Nat) (hzero : ∀ x, st.mem x = 0) :
    wordsOf (st.bytesAt off 0 (sizeofU16 (List.replicate n 0))
      ++ (bytesOf (List.replicate n 0)).drop (sizeofU16 (List.replicate n 0)))
      = List.replicate n 0 := by
  apply wordsOf_zeros
  · have := sizeofU16_le (List.replicate n 0)
    rw [List.length_replicate] at this
    rw [List.length_append, bytesAt_length, List.length_drop, bytesOf_length,
      List.length_replicate]
    omega
  · intro b hb
    rcases List.mem_append.mp hb with hb | hb
    · simp only [Storage.bytesAt, List.mem_map] at hb
      obtain ⟨k, _, hk⟩ := hb
      rw [hzero] at hk
      exact hk.symm
    · exact bytesOf_zeros _ (fun x hx => List.eq_of_mem_replicate hx) b
        (List.mem_of_mem_drop hb)

/-- What `fresh_engine` says, together with the registry of the fresh engine:
the arrays have their declared size and hold zeros. -/
theorem fresh_engine_registry (cfg : Config) (a : Nat) (st : Storage)
    (h3 : 3 ≤ cfg.MAXIMUM_MESSAGE_LENGTH) (hzero : ∀ x, st.mem x = 0) :
    ∃ e, (new cfg a true true true st).bind (initStorage cfg) = some e ∧
      e.__address < 65535 ∧
      e.__self_reset_counter = 1 ∧
      e.__self_message_counter = 0 ∧
      e.__count_addresses = 0 ∧
      e.__storage_commit_callback = true ∧
      e.__last_received_payload.length = cfg.MAXIMUM_MESSAGE_LENGTH ∧
      e.OutgoingReady cfg ∧
      e.Sized cfg ∧
      e.__reset_counter_array = List.replicate cfg.MAXIMUM_STORED_ADDRESSES 0 := by
  obtain ⟨s, hs, haddr, hr, hw, hc, hst, _, hm, _, _, hpl, hlen, hb, hb0, hb1, hb2, hz⟩ :=
    new_eq cfg a true true true st h3
  obtain ⟨hA, hR, hM⟩ := new_arrays cfg a true true true st s hs
  obtain ⟨st7, hbody, _, _⟩ := initStorageBody_eq cfg s hr hw hc
  have hw0 : ∀ o, s.storage.word o = 0 := by
    intro o
    simp only [Storage.word, hst, hzero]
  have hz2 : ∀ x, s.storage.mem x = 0 := by
    intro x
    rw [hst]
    exact hzero x
  rw [hs, Option.some_bind]
  unfold initStorage
  rw [if_pos ⟨hc, hw⟩, hbody]
  simp only []
  rw [if_pos (by simp only [hw0]; exact Nat.zero_le _)]
  refine ⟨_, rfl, ?_, ?_, hm, ?_, hc, hpl, ⟨hlen, hb, hb0, hb1, hb2⟩, ?_, ?_⟩
  · show s.__address < 65535
    rw [haddr]
    split <;> omega
  · show (s.storage.word cfg.STORAGE_SELF_RESET_LOCATION + 1) % 65536 = 1
    rw [hw0]
  · show s.storage.word cfg.STORAGE_COUNT_LOCATION = 0
    rw [hw0]
  · refine ⟨?_, ?_, ?_⟩
    · show (wordsOf _).length = _
      rw [hA, loaded_zeros _ _ _ hz2, List.length_replicate]
    · show (wordsOf _).length = _
      rw [hR, loaded_zeros _ _ _ hz2, List.length_replicate]
    · show s.__message_counter_array.length = _
      rw [hM, List.length_replicate]
  · show wordsOf _ = _
    rw [hR, loaded_zeros _ _ _ hz2]

/-- A claim that is ahead of the stored record of its peer is accepted. -/
theorem check_accept (cfg : Config) (s : WiLEDProto) (i a R M rc mc : Nat)
    (hrec : s.HasRecord i a R M) (hc : s.__storage_commit_callback = true)
    (hlt : R < rc ∨ (R = rc ∧ M < mc)) :
    ∃ s2, __checkAndUpdateMessageCounter cfg s a rc mc =
        some (WiLP_RETURN_SUCCESS, s2) ∧
      s2.__count_addresses = s.__count_addresses := by
  rw [check_found cfg s a rc mc i R M hrec]
  obtain ⟨_, _, _, hR, hM⟩ := hrec
  have hlenM : i < s.__message_counter_array.length := by
    by_contra hcon
    rw [List.getElem?_eq_none (by omega)] at hM
    exact absurd hM (by simp)
  rcases hlt with hrc | ⟨hRrc, hmc⟩
  · obtain ⟨st, hst⟩ := checkMatched_newEpoch cfg s i R rc mc hR hlenM hc hrc
    exact ⟨_, hst, rfl⟩
  · subst hRrc
    refine ⟨{ s with __message_counter_array := s.__message_counter_array.set i mc }, ?_,
      rfl⟩
    unfold checkMatched
    simp only [hR, hM, Nat.lt_irrefl, if_false, ne_eq, not_true_eq_false]
    rw [if_pos hmc]


/-- One round of the delivery loop: the sender emits a frame, and whatever the
validator answers on the sender's address, reset counter and next message
counter, the receiver accepts the frame and stores that answer. -/
theorem deliver_core (cfg : Config) (snd rcv : WiLEDProto) (u : Nat)
    (h14 : 14 ≤ cfg.MAXIMUM_MESSAGE_LENGTH) (h255 : cfg.MAXIMUM_MESSAGE_LENGTH ≤ 255)
    (hready : snd.OutgoingReady cfg) (ha : snd.__address < 65536)
    (hr : snd.__self_reset_counter < 65536)
    (hpay : 4 ≤ rcv.__last_received_payload.length) :
    ∃ s1 buf s2, sendMessageBeacon snd u = some (WiLP_RETURN_SUCCESS, s1) ∧
      copyToBuffer cfg s1 = some (buf, s2) ∧
      14 ≤ buf.length ∧
      s2.OutgoingReady cfg ∧
      s2.__address = snd.__address ∧
      s2.__self_reset_counter = snd.__self_reset_counter ∧
      s2.__self_message_counter = (snd.__self_message_counter + 1) % 65536 ∧
      ∃ t : WiLEDProto,
        t.__address_array = rcv.__address_array ∧
        t.__reset_counter_array = rcv.__reset_counter_array ∧
        t.__message_counter_array = rcv.__message_counter_array ∧
        t.__count_addresses = rcv.__count_addresses ∧
        t.__storage_commit_callback = rcv.__storage_commit_callback ∧
        t.__last_received_payload = rcv.__last_received_payload ∧
        ∀ v r1, __checkAndUpdateMessageCounter cfg t snd.__address
            snd.__self_reset_counter ((snd.__self_message_counter + 1) % 65536)
            = some (v, r1) →
          processMessage cfg rcv buf = some (WiLP_RETURN_SUCCESS, { r1 with
            __last_received_message_counter_validation := v
            __last_received_payload_length := 4
            __last_received_payload :=
              (buf.drop 10).take 4 ++ r1.__last_received_payload.drop 4 }) := by
  obtain ⟨hlen, hb, hb0, hb1, hb2⟩ := hready
  obtain ⟨s1, buf, s2, hsend, hcopy, holen, h0, h1, h2, h3, h4, h5, h6, h7, h8, h9, _, _,
    _, _, _, hob, hs2, hlen2, k0, k1, k2, _, hob2⟩ := send_copy cfg snd u hlen h14 h255
  have hs2a : s2.__address = snd.__address := by rw [hs2]
  have hs2r : s2.__self_reset_counter = snd.__self_reset_counter := by rw [hs2]
  have hs2m : s2.__self_message_counter = (snd.__self_message_counter + 1) % 65536 := by
    rw [hs2]
  rw [hb0] at h0
  rw [hb1] at h1
  rw [hb2] at h2
  have g1 := getD_of_getElem? _ _ _ h1
  have g2 := getD_of_getElem? _ _ _ h2
  have g3 := getD_of_getElem? _ _ _ h3
  have g4 := getD_of_getElem? _ _ _ h4
  have g5 := getD_of_getElem? _ _ _ h5
  have g6 := getD_of_getElem? _ _ _ h6
  have g7 := getD_of_getElem? _ _ _ h7
  have g8 := getD_of_getElem? _ _ _ h8
  have g9 := getD_of_getElem? _ _ _ h9
  have hbytes := hob hb
  have e1 : 256 * buf.getD 1 0 + buf.getD 2 0 = snd.__address := by
    rw [g1, g2]; omega
  have e5 : 256 * buf.getD 5 0 + buf.getD 6 0 = snd.__self_reset_counter := by
    rw [g5, g6]; omega
  have e7 : 256 * buf.getD 7 0 + buf.getD 8 0
      = (snd.__self_message_counter + 1) % 65536 := by
    rw [g7, g8]; omega
  have hdest : 256 * buf.getD 3 0 + buf.getD 4 0 = rcv.__address ∨
      256 * buf.getD 3 0 + buf.getD 4 0 = 0xFFFF := Or.inr (by rw [g3, g4])
  refine ⟨s1, buf, s2, hsend, hcopy, by omega,
    ⟨hlen2, hob2 hb, by rw [k0, hb0], by rw [k1, hb1, hs2a], by rw [k2, hb2, hs2a]⟩,
    hs2a, hs2r, hs2m,
    storeHeader rcv (buf.getD 1 0) (buf.getD 2 0) (buf.getD 3 0) (buf.getD 4 0)
      (buf.getD 5 0) (buf.getD 6 0) (buf.getD 7 0) (buf.getD 8 0) (buf.getD 9 0),
    rfl, rfl, rfl, rfl, rfl, rfl, ?_⟩
  intro v r1 hchk
  have hchk2 : __checkAndUpdateMessageCounter cfg
      (storeHeader rcv (buf.getD 1 0) (buf.getD 2 0) (buf.getD 3 0) (buf.getD 4 0)
        (buf.getD 5 0) (buf.getD 6 0) (buf.getD 7 0) (buf.getD 8 0) (buf.getD 9 0))
      (256 * buf.getD 1 0 + buf.getD 2 0) (256 * buf.getD 5 0 + buf.getD 6 0)
      (256 * buf.getD 7 0 + buf.getD 8 0) = some (v, r1) := by
    rw [e1, e5, e7]
    exact hchk
  obtain ⟨_, _, _, _, hty, hpl⟩ := header_after_check cfg rcv buf hbytes v r1 hchk2
  have hpm := processMessage_checked cfg rcv buf (by omega) hbytes h0 hdest v r1 hchk2
  rw [if_pos (by rw [hty, g9]), if_pos ⟨by omega, by rw [hpl]; exact hpay⟩] at hpm
  exact hpm

/-- The validator keeps the count within the capacity. -/
theorem check_count_le (cfg : Config) (s s2 : WiLEDProto) (a rc mc : Nat) (v : WiLPReturn)
    (hcnt : s.__count_addresses ≤ cfg.MAXIMUM_STORED_ADDRESSES)
    (h : __checkAndUpdateMessageCounter cfg s a rc mc = some (v, s2)) :
    s2.__count_addresses ≤ cfg.MAXIMUM_STORED_ADDRESSES := by
  rcases check_cases cfg s s2 a rc mc v h with ⟨i, _, _, _, hm⟩ | ⟨_, hnf⟩
  · obtain ⟨_, hC, _⟩ := checkMatched_effect cfg s s2 i rc mc v hm
    rw [hC]; exact hcnt
  · rcases checkNotFound_effect cfg s s2 a mc v hnf with
      ⟨hroom, _, _, _, _, _, _, hC⟩ | ⟨_, _, rfl⟩
    · rw [hC]
      exact Nat.le_trans (Nat.mod_le _ _) hroom
    · exact hcnt

/-- Frames of a known peer that arrive in sending order, none of them behind
the stored record, are all accepted. -/
theorem deliver_known (cfg : Config) (uptime : Nat → Nat)
    (h14 : 14 ≤ cfg.MAXIMUM_MESSAGE_LENGTH) (h255 : cfg.MAXIMUM_MESSAGE_LENGTH ≤ 255) :
    ∀ (n : Nat) (snd rcv : WiLEDProto) (i R M : Nat),
      snd.OutgoingReady cfg → snd.__address < 65536 →
      snd.__self_reset_counter < 65536 →
      snd.__self_message_counter + n ≤ 65535 →
      rcv.Sized cfg → rcv.__count_addresses ≤ cfg.MAXIMUM_STORED_ADDRESSES →
      rcv.__storage_commit_callback = true →
      4 ≤ rcv.__last_received_payload.length →
      rcv.HasRecord i snd.__address R M →
      (R < snd.__self_reset_counter ∨
        (R = snd.__self_reset_counter ∧ M ≤ snd.__self_message_counter)) →
      ∃ s3 r3, deliverInOrder cfg uptime n snd rcv =
        some (List.replicate n WiLP_RETURN_SUCCESS, s3, r3) := by
  intro n
  induction n with
  | zero =>
    intro snd rcv i R M _ _ _ _ _ _ _ _ _ _
    exact ⟨snd, rcv, rfl⟩
  | succ n ih =>
    intro snd rcv i R M hready ha hr hm hs hcnt hc hpay hrec hlt
    obtain ⟨s1, buf, s2, hsend, hcopy, hblen, hready2, hs2a, hs2r, hs2m, t, tA, tR, tM, tC,
      tcb, tp, hall⟩ := deliver_core cfg snd rcv (uptime n) h14 h255 hready ha hr hpay
    have hmc : (snd.__self_message_counter + 1) % 65536 = snd.__self_message_counter + 1 :=
      Nat.mod_eq_of_lt (by omega)
    have hrect : t.HasRecord i snd.__address R M := by
      obtain ⟨q1, q2, q3, q4, q5⟩ := hrec
      exact ⟨by rw [tC]; exact q1, by rw [tA]; exact q2,
        fun j hj => by rw [tA]; exact q3 j hj, by rw [tR]; exact q4, by rw [tM]; exact q5⟩
    have hts : t.Sized cfg := by
      obtain ⟨q1, q2, q3⟩ := hs
      exact ⟨by rw [tA]; exact q1, by rw [tR]; exact q2, by rw [tM]; exact q3⟩
    obtain ⟨r1, hchk, hcount1⟩ := check_accept cfg t i snd.__address R M
      snd.__self_reset_counter ((snd.__self_message_counter + 1) % 65536) hrect
      (by rw [tcb]; exact hc) (by rw [hmc]; omega)
    have hpm := hall _ _ hchk
    obtain ⟨i2, hrec2⟩ := check_accepted_record cfg t r1 _ _ _ hchk
    obtain ⟨l1, l2, l3⟩ := check_lengths cfg t r1 _ _ _ _ hchk
    obtain ⟨_, _, _, f4, _, _, _, _, _, _, _, _, _, f14, _⟩ := check_frame _ _ _ _ _ _ _ hchk
    obtain ⟨s3, r3, hrest⟩ := ih s2
      { r1 with
        __last_received_message_counter_validation := WiLP_RETURN_SUCCESS
        __last_received_payload_length := 4
        __last_received_payload :=
          (buf.drop 10).take 4 ++ r1.__last_received_payload.drop 4 }
      i2 snd.__self_reset_counter ((snd.__self_message_counter + 1) % 65536)
      hready2 (by rw [hs2a]; exact ha) (by rw [hs2r]; exact hr)
      (by rw [hs2m, hmc]; omega)
      ⟨by rw [← hts.1]; exact l1, by rw [← hts.2.1]; exact l2, by rw [← hts.2.2]; exact l3⟩
      (by show r1.__count_addresses ≤ _; rw [hcount1, tC]; exact hcnt)
      (by show r1.__storage_commit_callback = true; rw [f4, tcb]; exact hc)
      (by
        show 4 ≤ ((buf.drop 10).take 4 ++ r1.__last_received_payload.drop 4).length
        rw [List.length_append, List.length_take, List.length_drop, List.length_drop]
        omega)
      (by rw [hs2a]; exact hrec2)
      (Or.inr ⟨hs2r.symm, by rw [hs2m]⟩)
    refine ⟨s3, r3, ?_⟩
    rw [deliverInOrder]
    simp only [hsend, hcopy, hpm, hrest]
    rfl


/-- C32 (in-order delivery is always fresh): take a sender and a receiver, each
constructed with all three callbacks over storage that reads all zeros and
initialised by `initStorage`, with room for at least one peer.  For every `N`
with `1 ≤ N ≤ 65535`, when the sender's first `N` Beacon frames are processed
by the receiver in sending order, the stored validation result is
`WiLP_RETURN_ADDED_ADDRESS` for the first frame and `WiLP_RETURN_SUCCESS` for
every later one; none is `WiLP_RETURN_INVALID_MSG_CTR` or
`WiLP_RETURN_INVALID_RST_CTR`. -/
theorem C32_in_order_delivery_fresh (cfg : Config) (a1 a2 : Nat) (st1 st2 : Storage)
    (uptime : Nat → Nat) (N : Nat)
    (h1 : 1 ≤ cfg.MAXIMUM_STORED_ADDRESSES)
    (h14 : 14 ≤ cfg.MAXIMUM_MESSAGE_LENGTH) (h255 : cfg.MAXIMUM_MESSAGE_LENGTH ≤ 255)
    (hz1 : ∀ x, st1.mem x = 0) (hz2 : ∀ x, st2.mem x = 0)
    (hN1 : 1 ≤ N) (hN : N ≤ 65535) :
    ∃ snd rcv, (new cfg a1 true true true st1).bind (initStorage cfg) = some snd ∧
      (new cfg a2 true true true st2).bind (initStorage cfg) = some rcv ∧
      ∃ snd2 rcv2, deliverInOrder cfg uptime N snd rcv =
        some (WiLP_RETURN_ADDED_ADDRESS :: List.replicate (N - 1) WiLP_RETURN_SUCCESS,
          snd2, rcv2) := by
  obtain ⟨snd, hsnd, sa, sr, sm, _, _, _, sready, _, _⟩ :=
    fresh_engine_registry cfg a1 st1 (by omega) hz1
  obtain ⟨rcv, hrcv, _, _, _, rcount, rc, rpl, _, rs, rreset⟩ :=
    fresh_engine_registry cfg a2 st2 (by omega) hz2
  refine ⟨snd, rcv, hsnd, hrcv, ?_⟩
  obtain ⟨n, rfl⟩ : ∃ n, N = n + 1 := ⟨N - 1, by omega⟩
  obtain ⟨s1, buf, s2, hsend, hcopy, hblen, hready2, hs2a, hs2r, hs2m, t, tA, tR, tM, tC,
    tcb, tp, hall⟩ := deliver_core cfg snd rcv (uptime n) h14 h255 sready (by omega)
      (by omega) (by omega)
  have hts : t.Sized cfg := by
    obtain ⟨q1, q2, q3⟩ := rs
    exact ⟨by rw [tA]; exact q1, by rw [tR]; exact q2, by rw [tM]; exact q3⟩
  have htc : t.__count_addresses = 0 := by rw [tC, rcount]
  have hun : t.Unseen snd.__address := by
    intro j hj
    rw [htc] at hj
    exact absurd hj (Nat.not_lt_zero j)
  obtain ⟨st, hchk⟩ := check_firstSeen cfg t snd.__address snd.__self_reset_counter
    ((snd.__self_message_counter + 1) % 65536) hts hun (by rw [htc]; omega)
    (by rw [tcb]; exact rc)
  have hpm := hall _ _ hchk
  rw [htc] at hpm hchk
  have hmc : (snd.__self_message_counter + 1) % 65536 = 1 := by rw [sm]
  obtain ⟨s3, r3, hrest⟩ := deliver_known cfg uptime h14 h255 n s2
    { t with
      __address_array := t.__address_array.set 0 snd.__address
      __message_counter_array :=
        t.__message_counter_array.set 0 ((snd.__self_message_counter + 1) % 65536)
      __count_addresses := (0 + 1) % 65536
      storage := st
      __last_received_message_counter_validation := WiLP_RETURN_ADDED_ADDRESS
      __last_received_payload_length := 4
      __last_received_payload :=
        (buf.drop 10).take 4 ++ t.__last_received_payload.drop 4 }
    0 0 ((snd.__self_message_counter + 1) % 65536)
    hready2 (by rw [hs2a]; omega) (by rw [hs2r]; omega) (by rw [hs2m, hmc]; omega)
    ⟨by show (t.__address_array.set 0 snd.__address).length = _
        rw [List.length_set]; exact hts.1,
      hts.2.1,
      by show (t.__message_counter_array.set 0 _).length = _
         rw [List.length_set]; exact hts.2.2⟩
    (by show (0 + 1) % 65536 ≤ _; omega)
    (by show t.__storage_commit_callback = true; rw [tcb]; exact rc)
    (by
      show 4 ≤ ((buf.drop 10).take 4 ++ t.__last_received_payload.drop 4).length
      rw [List.length_append, List.length_take, List.length_drop, List.length_drop]
      omega)
    ⟨by show 0 < (0 + 1) % 65536; decide,
      by show (t.__address_array.set 0 snd.__address)[0]? = some s2.__address
         rw [hs2a]
         exact List.getElem?_set_self (by rw [hts.1]; omega),
      fun j hj => absurd hj (Nat.not_lt_zero j),
      by show t.__reset_counter_array[0]? = some 0
         rw [tR, rreset]
         simp [List.getElem?_replicate]
         omega,
      by show (t.__message_counter_array.set 0 _)[0]? = some _
         exact List.getElem?_set_self (by rw [hts.2.2]; omega)⟩
    (Or.inl (by rw [hs2r, sr]; decide))
  refine ⟨s3, r3, ?_⟩
  rw [deliverInOrder]
  simp only [hsend, hcopy, hpm, hrest, Nat.add_sub_cancel]
  rfl

theorem C32_in_order_delivery_fresh_witness :
    ∃ snd rcv, (new testCfg 0x1000 true true true zeroStorage).bind (initStorage testCfg)
        = some snd ∧
      (new testCfg 0x2000 true true true zeroStorage).bind (initStorage testCfg)
        = some rcv ∧
      ∃ snd2 rcv2, deliverInOrder testCfg (fun k => 2 * k) 65535 snd rcv =
        some (WiLP_RETURN_ADDED_ADDRESS :: List.replicate (65535 - 1) WiLP_RETURN_SUCCESS,
          snd2, rcv2) :=
  C32_in_order_delivery_fresh testCfg 0x1000 0x2000 zeroStorage zeroStorage
    (fun k => 2 * k) 65535 (by decide) (by decide) (by decide) (fun _ => rfl)
    (fun _ => rfl) (by decide) (by decide)


/-! ## The frame between sends (claim C37) -/

theorem restore_frame (s s2 : WiLEDProto) (arr a : List Nat) (off len : Nat)
    (r : WiLPReturn) (h : __restoreFromStorage_uint16t s arr off len = some (r, a, s2)) :
    s2.__outgoing_message_buffer = s.__outgoing_message_buffer ∧
    s2.__address = s.__address := by
  unfold __restoreFromStorage_uint16t at h
  split at h
  · split at h
    · simp only [Option.some.injEq, Prod.mk.injEq] at h
      obtain ⟨_, _, rfl⟩ := h
      exact ⟨rfl, rfl⟩
    · exact absurd h (by simp)
  · simp only [Option.some.injEq, Prod.mk.injEq] at h
    obtain ⟨_, _, rfl⟩ := h
    exact ⟨rfl, rfl⟩

/-- `initStorage` leaves the outgoing buffer and the own address alone. -/
theorem initStorage_frame (cfg : Config) (s s2 : WiLEDProto)
    (h : initStorage cfg s = some s2) :
    s2.__outgoing_message_buffer = s.__outgoing_message_buffer ∧
    s2.__address = s.__address := by
  unfold initStorage at h
  split at h
  · split at h
    · exact absurd h (by simp)
    · rename_i s7 hbody
      split at h
      · simp only [Option.some.injEq] at h
        subst h
        unfold initStorageBody at hbody
        split at hbody
        · exact absurd hbody (by simp)
        · rename_i r1 a1 t1 h1
          try dsimp only at hbody
          split at hbody
          · exact absurd hbody (by simp)
          · rename_i r2 a2 t2 h2
            try dsimp only at hbody
            split at hbody
            · exact absurd hbody (by simp)
            · rename_i r3 a3 t3 h3
              try dsimp only at hbody
              split at hbody
              · exact absurd hbody (by simp)
              · rename_i r4 a4 t4 h4
                try dsimp only at hbody
                split at hbody
                · exact absurd hbody (by simp)
                · rename_i r5 t5 h5
                  have f1 := restore_frame _ _ _ _ _ _ _ h1
                  have f2 := restore_frame _ _ _ _ _ _ _ h2
                  have f3 := restore_frame _ _ _ _ _ _ _ h3
                  have f4 := restore_frame _ _ _ _ _ _ _ h4
                  have f5 := addToStorage_frame _ _ _ _ _ _ h5
                  have f6 := callCommit_frame _ _ hbody
                  have g5o : t5.__outgoing_message_buffer = t4.__outgoing_message_buffer := by
                    rw [f5]
                  have g5a : t5.__address = t4.__address := by rw [f5]
                  have g6o : s7.__outgoing_message_buffer = t5.__outgoing_message_buffer := by
                    rw [f6]
                  have g6a : s7.__address = t5.__address := by rw [f6]
                  exact ⟨g6o.trans (g5o.trans (f4.1.trans (f3.1.trans (f2.1.trans f1.1)))),
                    g6a.trans (g5a.trans (f4.2.trans (f3.2.trans (f2.2.trans f1.2))))⟩
      · exact absurd h (by simp)
  · simp only [Option.some.injEq] at h
    subst h
    exact ⟨rfl, rfl⟩


/-- Every call of the public interface keeps the own address and keeps the
outgoing buffer clean. -/
theorem applyOp_clean (cfg : Config) (s s2 : WiLEDProto) (op : Op)
    (h14 : 14 ≤ cfg.MAXIMUM_MESSAGE_LENGTH) (h255 : cfg.MAXIMUM_MESSAGE_LENGTH ≤ 255)
    (hclean : s.OutgoingClean cfg) (h : applyOp cfg s op = some s2) :
    s2.OutgoingClean cfg ∧ s2.__address = s.__address := by
  obtain ⟨hlen, c0, c1, c2, cz⟩ := hclean
  cases op with
  | init =>
    obtain ⟨fo, fa⟩ := initStorage_frame cfg s s2 h
    exact ⟨⟨by rw [fo]; exact hlen, by rw [fo]; exact c0, by rw [fo, fa]; exact c1,
      by rw [fo, fa]; exact c2, fun j h1 h2 => by rw [fo]; exact cz j h1 h2⟩, fa⟩
  | beacon u =>
    simp only [applyOp, sendMessageBeacon_eq s u (by omega), Option.map_some',
      Option.some.injEq] at h
    subst h
    have hL : 13 < s.__outgoing_message_buffer.length := by omega
    refine ⟨⟨?_, ?_, ?_, ?_, ?_⟩, rfl⟩
    · simp only [List.length_set]; exact hlen
    · simp [List.getElem?_set, c0]
    · simp [List.getElem?_set, c1]
    · simp [List.getElem?_set, c2]
    · intro j h1 h2
      simp only [List.getElem?_set]
      simp [show ¬ (13 = j) by omega, show ¬ (12 = j) by omega, show ¬ (11 = j) by omega,
        show ¬ (10 = j) by omega, show ¬ (4 = j) by omega, show ¬ (3 = j) by omega,
        show ¬ (9 = j) by omega, cz j h1 h2]
  | copy =>
    obtain ⟨w, hcopy, hwlen, hw0, hw1, hw2, hwz, _⟩ :=
      copyToBuffer_eq cfg s hlen (by omega) h255
    simp only [applyOp, hcopy, Option.map_some', Option.some.injEq] at h
    subst h
    exact ⟨⟨hwlen, by rw [hw0]; exact c0, by rw [hw1]; exact c1, by rw [hw2]; exact c2,
      fun j h1 h2 => hwz j (by omega) h2⟩, rfl⟩
  | receive x =>
    simp only [applyOp] at h
    cases hp : processMessage cfg s x with
    | none => rw [hp] at h; exact absurd h (by simp)
    | some p =>
      obtain ⟨r, s3⟩ := p
      rw [hp] at h
      simp only [Option.map_some', Option.some.injEq] at h
      subst h
      obtain ⟨fa, _, _, fo, _⟩ := processMessage_frame cfg s s3 x r hp
      exact ⟨⟨by rw [fo]; exact hlen, by rw [fo]; exact c0, by rw [fo, fa]; exact c1,
        by rw [fo, fa]; exact c2, fun j h1 h2 => by rw [fo]; exact cz j h1 h2⟩, fa⟩

theorem runOps_clean (cfg : Config)
    (h14 : 14 ≤ cfg.MAXIMUM_MESSAGE_LENGTH) (h255 : cfg.MAXIMUM_MESSAGE_LENGTH ≤ 255) :
    ∀ (ops : List Op) (s s2 : WiLEDProto), s.OutgoingClean cfg →
      runOps cfg ops s = some s2 → s2.OutgoingClean cfg := by
  intro ops
  induction ops with
  | nil =>
    intro s s2 hclean h
    simp only [runOps, Option.some.injEq] at h
    subst h
    exact hclean
  | cons op ops ih =>
    intro s s2 hclean h
    simp only [runOps] at h
    cases ha : applyOp cfg s op with
    | none => rw [ha] at h; exact absurd h (by simp)
    | some s1 =>
      rw [ha, Option.some_bind] at h
      exact ih s1 s2 (applyOp_clean cfg s s1 op h14 h255 hclean ha).1 h

/-- The frame that a clean engine emits, byte by byte. -/
theorem clean_frame (cfg : Config) (e : WiLEDProto) (u : Nat)
    (h14 : 14 ≤ cfg.MAXIMUM_MESSAGE_LENGTH) (h255 : cfg.MAXIMUM_MESSAGE_LENGTH ≤ 255)
    (hclean : e.OutgoingClean cfg) :
    ∃ s1 out s2, sendMessageBeacon e u = some (WiLP_RETURN_SUCCESS, s1) ∧
      copyToBuffer cfg s1 = some (out, s2) ∧
      out = [0xAA, e.__address / 256 % 256, e.__address % 256, 0xFF, 0xFF,
          e.__self_reset_counter / 256 % 256, e.__self_reset_counter % 256,
          (e.__self_message_counter + 1) % 65536 / 256,
          (e.__self_message_counter + 1) % 65536 % 256, WiLP_Beacon,
          u / 16777216 % 256, u / 65536 % 256, u / 256 % 256, u % 256]
        ++ List.replicate (cfg.MAXIMUM_MESSAGE_LENGTH - 14) 0 := by
  obtain ⟨hlen, c0, c1, c2, cz⟩ := hclean
  obtain ⟨s1, out, s2, hsend, hcopy, holen, o0, o1, o2, o3, o4, o5, o6, o7, o8, o9, o10,
    o11, o12, o13, otail, _⟩ := send_copy cfg e u hlen h14 h255
  rw [c0] at o0
  rw [c1] at o1
  rw [c2] at o2
  refine ⟨s1, out, s2, hsend, hcopy, ?_⟩
  apply List.ext_getElem?
  intro j
  match j with
  | 0 => rw [o0]; rfl
  | 1 => rw [o1]; rfl
  | 2 => rw [o2]; rfl
  | 3 => rw [o3]; rfl
  | 4 => rw [o4]; rfl
  | 5 => rw [o5]; rfl
  | 6 => rw [o6]; rfl
  | 7 => rw [o7]; rfl
  | 8 => rw [o8]; rfl
  | 9 => rw [o9]; rfl
  | 10 => rw [o10]; rfl
  | 11 => rw [o11]; rfl
  | 12 => rw [o12]; rfl
  | 13 => rw [o13]; simp
  | k + 14 =>
    rw [otail (k + 14) (by omega)]
    by_cases hk : k + 14 < cfg.MAXIMUM_MESSAGE_LENGTH
    · rw [cz (k + 14) (by omega) hk]
      simp [List.getElem?_replicate]
      omega
    · rw [List.getElem?_eq_none (by omega)]
      simp only [List.getElem?_replicate, List.getElem?_cons_succ, List.cons_append,
        List.nil_append]
      rw [if_neg (by omega)]

/-- C37 (no leak between sends): take two engines, each obtained from the
constructor by any sequence of `initStorage`, `sendMessageBeacon`,
`copyToBuffer` and `processMessage` calls.  If they agree on the own address,
the own reset counter and the own message counter, then for every uptime `u`
the buffer produced by `sendMessageBeacon(u)` followed by `copyToBuffer` is
the same list of `MAXIMUM_MESSAGE_LENGTH` bytes for both. -/
theorem C37_no_leak_between_sends (cfg : Config) (a1 a2 : Nat)
    (rcb1 wcb1 ccb1 rcb2 wcb2 ccb2 : Bool) (st1 st2 : Storage) (ops1 ops2 : List Op)
    (e1 e2 : WiLEDProto) (u : Nat)
    (h14 : 14 ≤ cfg.MAXIMUM_MESSAGE_LENGTH) (h255 : cfg.MAXIMUM_MESSAGE_LENGTH ≤ 255)
    (h1 : (new cfg a1 rcb1 wcb1 ccb1 st1).bind (runOps cfg ops1) = some e1)
    (h2 : (new cfg a2 rcb2 wcb2 ccb2 st2).bind (runOps cfg ops2) = some e2)
    (haddr : e1.__address = e2.__address)
    (hrst : e1.__self_reset_counter = e2.__self_reset_counter)
    (hmsg : e1.__self_message_counter = e2.__self_message_counter) :
    ∃ out s1 t1 s2 t2, out.length = cfg.MAXIMUM_MESSAGE_LENGTH ∧
      sendMessageBeacon e1 u = some (WiLP_RETURN_SUCCESS, s1) ∧
      copyToBuffer cfg s1 = some (out, t1) ∧
      sendMessageBeacon e2 u = some (WiLP_RETURN_SUCCESS, s2) ∧
      copyToBuffer cfg s2 = some (out, t2) := by
  have clean : ∀ (a : Nat) (rcb wcb ccb : Bool) (st : Storage) (ops : List Op)
      (e : WiLEDProto), (new cfg a rcb wcb ccb st).bind (runOps cfg ops) = some e →
      e.OutgoingClean cfg := by
    intro a rcb wcb ccb st ops e h
    obtain ⟨s, hs, _, _, _, _, _, _, _, _, _, _, hlen, _, hb0, hb1, hb2, hz⟩ :=
      new_eq cfg a rcb wcb ccb st (by omega)
    rw [hs, Option.some_bind] at h
    exact runOps_clean cfg h14 h255 ops s e
      ⟨hlen, hb0, hb1, hb2, fun j hj1 hj2 => hz j (by omega) hj2⟩ h
  obtain ⟨s1, out1, t1, hsend1, hcopy1, hout1⟩ :=
    clean_frame cfg e1 u h14 h255 (clean a1 rcb1 wcb1 ccb1 st1 ops1 e1 h1)
  obtain ⟨s2, out2, t2, hsend2, hcopy2, hout2⟩ :=
    clean_frame cfg e2 u h14 h255 (clean a2 rcb2 wcb2 ccb2 st2 ops2 e2 h2)
  rw [← haddr, ← hrst, ← hmsg, ← hout1] at hout2
  rw [hout2] at hcopy2
  refine ⟨out1, s1, t1, s2, t2, ?_, hsend1, hcopy1, hsend2, hcopy2⟩
  rw [hout1]
  simp only [List.length_append, List.length_cons, List.length_nil, List.length_replicate]
  omega


theorem C37_no_leak_between_sends_witness :
    busyEngine.map (fun e => e.__last_received_source) = some 0x1000 ∧
    idleEngine.map (fun e => e.__last_received_source) = some 0 ∧
    ∃ out s1 t1 s2 t2, out.length = testCfg.MAXIMUM_MESSAGE_LENGTH ∧
      sendMessageBeacon (busyEngine.getD twoPeers) 7 = some (WiLP_RETURN_SUCCESS, s1) ∧
      copyToBuffer testCfg s1 = some (out, t1) ∧
      sendMessageBeacon (idleEngine.getD twoPeers) 7 = some (WiLP_RETURN_SUCCESS, s2) ∧
      copyToBuffer testCfg s2 = some (out, t2) :=
  ⟨rfl, rfl, C37_no_leak_between_sends testCfg 0x1000 0x1000 true true true true true true
    zeroStorage zeroStorage
    [Op.init, Op.receive firstBeacon, Op.beacon 0x499602D2, Op.copy] [Op.init, Op.copy]
    (busyEngine.getD twoPeers) (idleEngine.getD twoPeers) 7 (by decide) (by decide)
    rfl rfl rfl rfl rfl⟩

end WiLED
